import Mathlib

/-!
# Person / Student examples (Chapters 5, 6, 11 and 14)

A shallow embedding of the four example programs

* `Chapter05/Chp5-Ex10.cpp`  (namespace `Chp5`)
* `Chapter06/Chp6-Ex1.cpp`   (namespace `Chp6`)
* `Chapter11/Chp11-Ex6.cpp`  (namespace `Chp11`)
* `Chapter14/Chp14-Ex2.cpp`  (namespace `Chp14`)

Conventions of the embedding.

* `std::string` is `String`, `char` is `Char`, `int` is `Int` together with an explicit
  range check where the program increments or decrements it (signed overflow is undefined).
* `float` is the IEEE-754 binary32 format, given by its three bit fields (`Float32`).  The
  programs never do arithmetic on a `float`; they store it, copy it and compare it with `<`.
* A member function that writes to `cout` returns the text it writes.
* Code whose behaviour depends on the identity of an object (`this != &s`, the static
  counter `numStudents`, copy construction into a fresh object) works on an explicit
  program state in which every object has an address.
* A `throw` is an `Except.error` carrying the thrown value.
-/

/-! ## `float` -/

/-- An IEEE-754 binary32 value (`float`): sign bit, 8 bit biased exponent, 23 bit fraction. -/
structure Float32 where
  sign : Bool
  exponent : Fin 256
  mantissa : Fin 8388608
  deriving DecidableEq, Repr

namespace Float32

/-- A NaN has all exponent bits set and a non-zero fraction. -/
def isNaN (x : Float32) : Bool :=
  decide (x.exponent.val = 255) && decide (x.mantissa.val ≠ 0)

/-- The magnitude bits `exponent:mantissa` read as one number.  On values that are not NaN
(infinities and subnormals included) a larger magnitude field is a larger absolute value. -/
def magnitude (x : Float32) : Nat :=
  x.exponent.val * 8388608 + x.mantissa.val

/-- Signed magnitude: orders all values that are not NaN as the numbers they denote
(`lt_iff_units` for the finite ones; the infinities lie beyond them); `+0.0` and `-0.0`
both have key `0`. -/
def key (x : Float32) : Int :=
  if x.sign then -(x.magnitude : Int) else (x.magnitude : Int)

/-- The built-in `a < b` on `float`: false as soon as one side is NaN. -/
def lt (a b : Float32) : Bool :=
  !a.isNaN && !b.isNaN && decide (a.key < b.key)

/-- The built-in `a == b` on `float`: false as soon as one side is NaN, `+0.0 == -0.0`. -/
def eq (a b : Float32) : Bool :=
  !a.isNaN && !b.isNaN && decide (a.key = b.key)

/-- The absolute value of a finite value in units of `2^(-149)`: a subnormal
(`exponent = 0`) is `mantissa` units, a normal value is
`(2^23 + mantissa) * 2^(exponent - 1)` units. -/
def absUnits (x : Float32) : Nat :=
  (if x.exponent.val = 0 then x.mantissa.val else 8388608 + x.mantissa.val)
    * 2 ^ (x.exponent.val - 1)

/-- The number a finite value denotes, in units of `2^(-149)` (every finite binary32 value
is a whole number of such units); `none` for the infinities and NaN. -/
def units (x : Float32) : Option Int :=
  if x.exponent.val = 255 then none
  else some (if x.sign then -(x.absUnits : Int) else (x.absUnits : Int))

/-- The value with the given 32 bit pattern. -/
def ofBits (n : Nat) : Float32 :=
  { sign := decide (n / 2147483648 % 2 = 1)
    exponent := ⟨n / 8388608 % 256, Nat.mod_lt _ (by decide)⟩
    mantissa := ⟨n % 8388608, Nat.mod_lt _ (by decide)⟩ }

/-- The literal `0.0`. -/
def zero : Float32 := ofBits 0x00000000
/-- The literal `2.0`, exact in binary32 and in binary64 (`gpa < 2.0` promotes `gpa` to
`double`, which is exact, so the comparison is the binary32 comparison with this value). -/
def two : Float32 := ofBits 0x40000000
/-- The value `1.5`, exact in binary32. -/
def f1_5 : Float32 := ofBits 0x3FC00000
/-- The literal `3.1` converted to `float` (round to nearest). -/
def f3_1 : Float32 := ofBits 0x40466666
/-- The literal `3.4` converted to `float` (round to nearest). -/
def f3_4 : Float32 := ofBits 0x4059999A
/-- The literal `3.8` converted to `float` (round to nearest). -/
def f3_8 : Float32 := ofBits 0x40733333
/-- The literal `3.85` converted to `float` (round to nearest). -/
def f3_85 : Float32 := ofBits 0x40766666
/-- The literal `3.9` converted to `float` (round to nearest). -/
def f3_9 : Float32 := ofBits 0x4079999A
/-- The value `1.0`, exact in binary32. -/
def one : Float32 := ofBits 0x3F800000
/-- The value `3.0`, exact in binary32. -/
def three : Float32 := ofBits 0x40400000
/-- A quiet NaN. -/
def nan : Float32 := ofBits 0x7FC00000

/-- The value `-1.0`, exact in binary32. -/
def negOne : Float32 := ofBits 0xBF800000
/-- The value `4.0`, exact in binary32. -/
def four : Float32 := ofBits 0x40800000
/-- The value `7.5`, exact in binary32. -/
def f7_5 : Float32 := ofBits 0x40F00000

/-- The built-in `a <= b` on `float`: false as soon as one side is NaN. -/
def le (a b : Float32) : Bool :=
  !a.isNaN && !b.isNaN && decide (a.key ≤ b.key)

end Float32

/-- The manipulator `endl` as the text it appends. -/
def endl : String := "\n"

/-! ## `int` -/

/-- Largest value of `int`. -/
def INT_MAX : Int := 2147483647

/-- Smallest value of `int`. -/
def INT_MIN : Int := -2147483648

/-- The statement `n++` on an `int`: defined only when the result is in range. -/
def intIncr (n : Int) : Option Int :=
  if n < INT_MAX then some (n + 1) else none

/-- The statement `n--` on an `int`: defined only when the result is in range. -/
def intDecr (n : Int) : Option Int :=
  if INT_MIN < n then some (n - 1) else none

/-- The expression `a + b` on `int`: defined only when the result is in range. -/
def intAdd (a b : Int) : Option Int :=
  if INT_MIN ≤ a + b ∧ a + b ≤ INT_MAX then some (a + b) else none

/-! ## `std::list` -/

namespace StdList

/-- The walk of `list::merge` over `x` while the current element of `*this` is `a`: the
front element of `x` is spliced in before `a` exactly when it is strictly less than `a`;
otherwise the walk moves past `a`, and `rest` continues with the elements of `*this` that
follow `a`. -/
def mergeInto {α : Type} (less : α → α → Bool) (a : α) (rest : List α → List α) :
    List α → List α
  | [] => a :: rest []
  | b :: x => if less b a then b :: mergeInto less a rest x else a :: rest (b :: x)

/-- Member `list::merge` as `this->merge(x)` with `operator<` given by `less`: both lists are
walked from the front, and the front element of `x` is spliced in before the current element
of `*this` exactly when it is strictly less; what is left of `x` goes to the end. -/
def merge {α : Type} (less : α → α → Bool) : List α → List α → List α
  | [], x => x
  | a :: l, x => mergeInto less a (merge less l) x

/-- One round of the loop of `list::sort`: `carry` is merged upward through the counter
lists `tmp[0], tmp[1], ...` until an empty one (or `fill`) takes it. -/
def addCarry {α : Type} (less : α → α → Bool) : List α → List (List α) → List (List α)
  | carry, [] => [carry]
  | carry, counter :: tmp =>
    if counter.isEmpty then carry :: tmp
    else [] :: addCarry less (merge less counter carry) tmp

/-- The `do ... while (!empty())` loop of `list::sort`: the front element is moved into
`carry` and carried into the counter lists. -/
def fillCounters {α : Type} (less : α → α → Bool) : List α → List (List α) → List (List α)
  | [], tmp => tmp
  | a :: l, tmp => fillCounters less l (addCarry less [a] tmp)

/-- The closing loop of `list::sort`: `tmp[i].merge(tmp[i-1])` for `i = 1, 2, ...`; the
result is the last counter list.  `acc` is `tmp[i-1]`. -/
def mergeCounters {α : Type} (less : α → α → Bool) : List α → List (List α) → List α
  | acc, [] => acc
  | acc, counter :: tmp => mergeCounters less (merge less counter acc) tmp

/-- Member `list::sort()` (the merge sort of the standard library: a list of fewer than two
elements is left alone, otherwise the elements are carried into the counter lists one at a
time and the counter lists are merged). -/
def sort {α : Type} (less : α → α → Bool) (l : List α) : List α :=
  match l with
  | [] => []
  | [a] => [a]
  | _ :: _ :: _ =>
    match fillCounters less l [] with
    | [] => []
    | tmp0 :: tmp => mergeCounters less tmp0 tmp

/-- The elements held by the counter lists, oldest first: a higher counter list holds
elements that were taken from the list earlier. -/
def flat {α : Type} : List (List α) → List α
  | [] => []
  | counter :: tmp => flat tmp ++ counter

/-- A sorted run: every element satisfies `P` and the keys do not decrease. -/
def Run {α : Type} (k : α → Int) (P : α → Prop) (l : List α) : Prop :=
  (∀ a ∈ l, P a) ∧ l.Pairwise fun a b => k a ≤ k b

/-- The list `out` is a stable rearrangement of `inp`: a permutation in which, for every
key, the elements with that key come in the same order. -/
def Stable {α : Type} (k : α → Int) (out inp : List α) : Prop :=
  out.Perm inp ∧
  ∀ c : Int, out.filter (fun a => decide (k a = c)) = inp.filter (fun a => decide (k a = c))

end StdList

/-! ## Chapter 5: const member functions -/

namespace Chp5

/-- Class `Student`: the private data members. -/
structure Student where
  firstName : String
  lastName : String
  middleInitial : Char
  gpa : Float32
  currentCourse : String
  studentId : Int
  deriving DecidableEq, Repr

namespace Student

def GetFirstName (s : Student) : String := s.firstName
def GetLastName (s : Student) : String := s.lastName
def GetMiddleInitial (s : Student) : Char := s.middleInitial
def GetGpa (s : Student) : Float32 := s.gpa
def GetCurrentCourse (s : Student) : String := s.currentCourse
def GetStudentId (s : Student) : Int := s.studentId

end Student

/-- The address of an object: its position in the order of construction. -/
abbrev Addr := Nat

/-- The program state: the objects constructed so far (`none` once the lifetime of an
object has ended). -/
structure State where
  objects : List (Option Student)
  deriving DecidableEq, Repr

namespace State

/-- The state at program start. -/
def init : State := { objects := [] }

/-- The live `Student` at an address. -/
def student? (σ : State) (a : Addr) : Option Student :=
  match σ.objects[a]? with
  | some (some s) => some s
  | _ => none

/-- Overwrite the object at an address. -/
def update (σ : State) (a : Addr) (s : Student) : State :=
  { objects := σ.objects.set a (some s) }

/-- A fresh object: it gets the next address. -/
def alloc (σ : State) (s : Student) : State × Addr :=
  ({ objects := σ.objects ++ [some s] }, σ.objects.length)

/-- End the lifetime of the object at an address. -/
def release (σ : State) (a : Addr) : State :=
  { objects := σ.objects.set a none }

end State

/-- Constructor `Student::Student()`. -/
def Student.default (σ : State) : State × Addr :=
  σ.alloc { firstName := "", lastName := "", middleInitial := Char.ofNat 0,
            gpa := Float32.zero, currentCourse := "", studentId := 0 }

/-- Constructor `Student::Student(string, string, char, float, string, int)`. -/
def Student.new (σ : State) (fn ln : String) (mi : Char) (avg : Float32) (course : String)
    (id : Int) : State × Addr :=
  σ.alloc { firstName := fn, lastName := ln, middleInitial := mi,
            gpa := avg, currentCourse := course, studentId := id }

/-- Copy constructor `Student::Student(const Student &)`: `s` is the address of the source. -/
def Student.copy (σ : State) (s : Addr) : Option (State × Addr) :=
  match σ.student? s with
  | some src =>
    some (σ.alloc { firstName := src.firstName, lastName := src.lastName,
                    middleInitial := src.middleInitial, gpa := src.gpa,
                    currentCourse := src.currentCourse, studentId := src.studentId })
  | none => none

/-- Destructor `Student::~Student()`. -/
def Student.destroy (σ : State) (this : Addr) : Option State :=
  match σ.student? this with
  | some _ => some (σ.release this)
  | none => none

/-- Member `Student::SetCurrentCourse`. -/
def Student.SetCurrentCourse (σ : State) (this : Addr) (c : String) : Option State :=
  match σ.student? this with
  | some s => some (σ.update this { s with currentCourse := c })
  | none => none

/-- The local `s1` of `main`: Zack Moon, gpa 3.85. -/
def main_s1 : Student :=
  { firstName := "Zack", lastName := "Moon", middleInitial := 'R', gpa := Float32.f3_85,
    currentCourse := "C++", studentId := 1378 }

/-- The state of `main` after the construction of `s1` (address 0). -/
def sampleState : State :=
  { objects := [some main_s1] }

/-- Member `Student::Print`: the text written to `cout`; `showFloat n x` is the text the
stream writes for the `float` `x` at precision `n` (the stream has its initial precision 6). -/
def Student.Print (showFloat : Nat → Float32 → String) (s : Student) : String :=
  s.firstName ++ " " ++ String.singleton s.middleInitial ++ ". "
    ++ s.lastName ++ " with id: " ++ toString s.studentId
    ++ " and gpa: " ++ showFloat 6 s.gpa ++ " is enrolled in: "
    ++ s.currentCourse ++ endl

/-- What `main` does, as far as the outside can see it. -/
structure MainResult where
  /-- The text written to `cout`. -/
  output : String
  /-- The value `s1.GetCurrentCourse()` returns in the second output statement. -/
  newCourse : String
  /-- The value returned by `main`. -/
  status : Int
  /-- The state after the locals have been destroyed. -/
  final : State

/-- The function `main`. -/
def main (showFloat : Nat → Float32 → String) : Option MainResult :=
  match Student.new State.init "Zack" "Moon" 'R' Float32.f3_85 "C++" 1378 with
  | (σ1, s1) =>
    match σ1.student? s1 with
    | some v1 =>
      let out1 := v1.GetFirstName ++ " " ++ v1.GetLastName
                    ++ " Enrolled in " ++ v1.GetCurrentCourse ++ endl
      match Student.SetCurrentCourse σ1 s1 "Advanced C++ Programming" with
      | some σ2 =>
        match σ2.student? s1 with
        | some v2 =>
          let out2 := v2.GetFirstName ++ " " ++ v2.GetLastName
                        ++ " New course: " ++ v2.GetCurrentCourse ++ endl
          match Student.new σ2 "Gabby" "Doone" 'A' Float32.f3_9 "C++" 2239 with
          | (σ3, s2) =>
            match σ3.student? s2 with
            | some v3 =>
              let out3 := v3.Print showFloat
              match Student.destroy σ3 s2 with
              | some σ4 =>
                match Student.destroy σ4 s1 with
                | some σ5 =>
                  some { output := out1 ++ out2 ++ out3
                         newCourse := v2.GetCurrentCourse
                         status := 0
                         final := σ5 }
                | none => none
              | none => none
            | none => none
        | none => none
      | none => none
    | none => none

end Chp5

/-! ## Chapter 6: single inheritance, the protected region, the static counter -/

namespace Chp6

/-- Class `Person`: the private data members. -/
structure Person where
  firstName : String
  lastName : String
  middleInitial : Char
  title : String
  deriving DecidableEq, Repr

/-- Class `Student : public Person`: the `Person` sub-object and the private data members
(the static member `numStudents` lives in the program state). -/
structure Student extends Person where
  gpa : Float32
  currentCourse : String
  studentId : String
  deriving DecidableEq, Repr

namespace Person

def GetFirstName (p : Person) : String := p.firstName
def GetLastName (p : Person) : String := p.lastName
def GetTitle (p : Person) : String := p.title
def GetMiddleInitial (p : Person) : Char := p.middleInitial

end Person

namespace Student

def GetGpa (s : Student) : Float32 := s.gpa
def GetCurrentCourse (s : Student) : String := s.currentCourse
def GetStudentId (s : Student) : String := s.studentId

/-- Member `Student::Print`: the text written to `cout`; `showFloat n x` is the text the
stream writes for the `float` `x` under `setprecision(n)`. -/
def Print (showFloat : Nat → Float32 → String) (s : Student) : String :=
  s.toPerson.GetTitle ++ " " ++ s.toPerson.GetFirstName ++ " "
    ++ String.singleton s.toPerson.GetMiddleInitial ++ ". " ++ s.toPerson.GetLastName
    ++ " with id: " ++ s.studentId ++ " gpa: "
    ++ showFloat 2 s.gpa
    ++ " course: " ++ s.currentCourse ++ endl

end Student

/-- The library function `std::to_string(int)`: decimal digits, `-` in front of a negative
number. -/
def to_string (n : Int) : String := toString n

/-- The address of an object: its position in the order of construction. -/
abbrev Addr := Nat

/-- The program state: the static data member `Student::numStudents` and the `Student`
objects constructed so far (`none` once the lifetime of an object has ended). -/
structure State where
  numStudents : Int
  objects : List (Option Student)
  deriving DecidableEq, Repr

namespace State

/-- The state at program start: `int Student::numStudents = 0;` and no object. -/
def init : State := { numStudents := 0, objects := [] }

/-- The live `Student` at an address. -/
def student? (σ : State) (a : Addr) : Option Student :=
  match σ.objects[a]? with
  | some (some s) => some s
  | _ => none

/-- Overwrite the object at an address. -/
def update (σ : State) (a : Addr) (s : Student) : State :=
  { σ with objects := σ.objects.set a (some s) }

/-- A fresh object: it gets the next address. -/
def alloc (σ : State) (s : Student) : State × Addr :=
  ({ σ with objects := σ.objects ++ [some s] }, σ.objects.length)

/-- End the lifetime of the object at an address. -/
def release (σ : State) (a : Addr) : State :=
  { σ with objects := σ.objects.set a none }

/-- Number of live `Student` objects. -/
def liveStudents (σ : State) : Nat :=
  σ.objects.countP Option.isSome

end State

/-- Static member `Student::GetNumberStudents`. -/
def Student.GetNumberStudents (σ : State) : Int := σ.numStudents

/-- Protected member `Person::ModifyTitle`, on the `Person` sub-object of a `Student`. -/
def Person.ModifyTitle (σ : State) (this : Addr) (newTitle : String) : Option State :=
  match σ.student? this with
  | some s => some (σ.update this { s with toPerson := { s.toPerson with title := newTitle } })
  | none => none

/-- Constructor `Student::Student()`: the id is built from the counter before the body
runs `numStudents++`; the other members keep their in-class initial values. -/
def Student.default (σ : State) : Option (State × Addr) :=
  match intAdd σ.numStudents 100 with
  | some k =>
    match intIncr σ.numStudents with
    | some n =>
      some ({ σ with numStudents := n }.alloc
        { firstName := "", lastName := "", middleInitial := Char.ofNat 0, title := "",
          gpa := Float32.zero, currentCourse := "", studentId := to_string k ++ "Id" })
    | none => none
  | none => none

/-- Constructor `Student::Student(fn, ln, mi, t, avg, course, id)`. -/
def Student.new (σ : State) (fn ln : String) (mi : Char) (t : String) (avg : Float32)
    (course id : String) : Option (State × Addr) :=
  match intIncr σ.numStudents with
  | some n =>
    some ({ σ with numStudents := n }.alloc
      { firstName := fn, lastName := ln, middleInitial := mi, title := t,
        gpa := avg, currentCourse := course, studentId := id })
  | none => none

/-- Copy constructor `Student::Student(const Student &)`: `s` is the address of the source;
the `Person` sub-object is copied by the defaulted copy constructor of `Person`. -/
def Student.copy (σ : State) (s : Addr) : Option (State × Addr) :=
  match σ.student? s with
  | some src =>
    match intIncr σ.numStudents with
    | some n =>
      some ({ σ with numStudents := n }.alloc
        { toPerson := src.toPerson,
          gpa := src.gpa, currentCourse := src.currentCourse, studentId := src.studentId })
    | none => none
  | none => none

/-- Destructor `Student::~Student()`: the body runs `numStudents--`, then the lifetime of
the object ends. -/
def Student.destroy (σ : State) (this : Addr) : Option State :=
  match σ.student? this with
  | some _ =>
    match intDecr σ.numStudents with
    | some n => some ({ σ with numStudents := n }.release this)
    | none => none
  | none => none

/-- Member `Student::SetCurrentCourse`. -/
def Student.SetCurrentCourse (σ : State) (this : Addr) (c : String) : Option State :=
  match σ.student? this with
  | some s => some (σ.update this { s with currentCourse := c })
  | none => none

/-- Member `Student::EarnPhD`. -/
def Student.EarnPhD (σ : State) (this : Addr) : Option State :=
  Person.ModifyTitle σ this "Dr."

/-- Member `Student::Print` called on the object at an address. -/
def Student.PrintAt (showFloat : Nat → Float32 → String) (σ : State) (this : Addr) :
    Option String :=
  (σ.student? this).map (Student.Print showFloat)

/-- One event in the life of the `Student` class: a construction (default, parameterized,
copy of the object at an address) or the destruction of the object at an address. -/
inductive Op where
  | default
  | new (fn ln : String) (mi : Char) (t : String) (avg : Float32) (course id : String)
  | copy (s : Addr)
  | destroy (this : Addr)
  deriving DecidableEq, Repr

/-- Constructions are the events that are not destructions. -/
def Op.isConstruction : Op → Bool
  | Op.destroy _ => false
  | _ => true

/-- Run one event. -/
def step (σ : State) : Op → Option State
  | Op.default => (Student.default σ).map Prod.fst
  | Op.new fn ln mi t avg course id => (Student.new σ fn ln mi t avg course id).map Prod.fst
  | Op.copy s => (Student.copy σ s).map Prod.fst
  | Op.destroy this => Student.destroy σ this

/-- Run a sequence of events and read `GetNumberStudents()` after each of them.  The
result is defined exactly for the well-formed sequences: every copy and every destruction
names a live `Student`, and the counter stays in the range of `int`. -/
def observe (σ : State) : List Op → Option (List Int)
  | [] => some []
  | op :: ops =>
    match step σ op with
    | some σ1 =>
      match observe σ1 ops with
      | some obs => some (Student.GetNumberStudents σ1 :: obs)
      | none => none
    | none => none

/-- Number of constructions in a sequence of events. -/
def constructions (ops : List Op) : Nat := ops.countP Op.isConstruction

/-- Number of destructions in a sequence of events. -/
def destructions (ops : List Op) : Nat := ops.countP fun op => !op.isConstruction

/-- Run a sequence of events; the result is the state after the last of them. -/
def run (σ : State) : List Op → Option State
  | [] => some σ
  | op :: ops =>
    match step σ op with
    | some σ1 => run σ1 ops
    | none => none

/-- Two default constructions, the destruction of the first object and a third default
construction. -/
def reuseEvents : List Op :=
  [Op.default, Op.default, Op.destroy 0, Op.default]

/-- The local `s1` of `main`: Jo Li, gpa 3.9. -/
def main_s1 : Student :=
  { firstName := "Jo", lastName := "Li", middleInitial := 'U', title := "Ms.",
    gpa := Float32.f3_9, currentCourse := "C++", studentId := "178PSU" }

/-- The state of `main` after the construction of `s1` (address 0). -/
def sampleState : State :=
  { numStudents := 1, objects := [some main_s1] }

/-- The constructions of `main` in program order, up to the last output statement. -/
def mainEvents : List Op :=
  [ Op.new "Jo" "Li" 'U' "Ms." Float32.f3_9 "C++" "178PSU" ]

/-- What `main` does, as far as the outside can see it. -/
structure MainResult where
  /-- The text written to `cout`. -/
  output : String
  /-- The value `Student::GetNumberStudents()` returns in the last output statement. -/
  reported : Int
  /-- The value returned by `main`. -/
  status : Int
  /-- The state after the locals have been destroyed. -/
  final : State

/-- The function `main`. -/
def main (showFloat : Nat → Float32 → String) : Option MainResult :=
  match Student.new State.init "Jo" "Li" 'U' "Ms." Float32.f3_9 "C++" "178PSU" with
  | some (σ1, s1) =>
    match Student.PrintAt showFloat σ1 s1 with
    | some out1 =>
      match Student.SetCurrentCourse σ1 s1 "Doctoral Thesis" with
      | some σ2 =>
        match Student.EarnPhD σ2 s1 with
        | some σ3 =>
          match Student.PrintAt showFloat σ3 s1 with
          | some out2 =>
            let total := Student.GetNumberStudents σ3
            match Student.destroy σ3 s1 with
            | some σ4 =>
              some { output := out1 ++ out2 ++ "Total number of students: "
                                 ++ to_string total ++ endl
                     reported := total
                     status := 0
                     final := σ4 }
            | none => none
          | none => none
        | none => none
      | none => none
    | none => none
  | none => none

end Chp6

/-! ## Chapter 11: nested exception class, `Validate`, `Graduate` -/

namespace Chp11

/-- Class `Person`: the private data members. -/
structure Person where
  firstName : String
  lastName : String
  middleInitial : Char
  title : String
  deriving DecidableEq, Repr

/-- Class `Student : public Person`: the `Person` sub-object and the private data members. -/
structure Student extends Person where
  gpa : Float32
  currentCourse : String
  studentId : String
  deriving DecidableEq, Repr

/-- The nested class `Student::StudentException`. -/
structure StudentException where
  number : Int
  deriving DecidableEq, Repr

/-- Member `StudentException::GetNum`. -/
def StudentException.GetNum (e : StudentException) : Int := e.number

/-- The values `Graduate` and `Validate` throw or describe throwing, by C++ type, as the
handlers of `main` tell them apart: `float` (too low gpa), `int` (number of missing
credits), `Course` (the missing course of the commented-out `throw`), `const char *`
(a diagnostic message) and `Student::StudentException`. -/
inductive Thrown where
  | float (err : Float32)
  | int (err : Int)
  | course (title : String) (number : Int)
  | cstring (err : String)
  | studentException (err : StudentException)
  deriving DecidableEq, Repr

namespace Person

/-- Constructor `Person::Person()`. -/
def default : Person :=
  { firstName := "", lastName := "", middleInitial := Char.ofNat 0, title := "" }

/-- Constructor `Person::Person(const string &, const string &, char, const string &)`. -/
def new (fn ln : String) (mi : Char) (t : String) : Person :=
  { firstName := fn, lastName := ln, middleInitial := mi, title := t }

/-- Copy constructor `Person::Person(const Person &)`. -/
def copy (p : Person) : Person :=
  { firstName := p.firstName, lastName := p.lastName,
    middleInitial := p.middleInitial, title := p.title }

def GetFirstName (p : Person) : String := p.firstName
def GetLastName (p : Person) : String := p.lastName
def GetTitle (p : Person) : String := p.title
def GetMiddleInitial (p : Person) : Char := p.middleInitial

/-- Protected member `Person::ModifyTitle`. -/
def ModifyTitle (p : Person) (newTitle : String) : Person :=
  { p with title := newTitle }

/-- Member `Person::Print`: the text written to `cout`. -/
def Print (p : Person) : String :=
  p.title ++ " " ++ p.firstName ++ " " ++ String.singleton p.middleInitial ++ ". "
    ++ p.lastName ++ endl

/-- Member `Person::IsA`: the text written to `cout`. -/
def IsA (_p : Person) : String := "Person" ++ endl

/-- Member `Person::Greeting`: the text written to `cout`. -/
def Greeting (_p : Person) (msg : String) : String := msg ++ endl

end Person

namespace Student

/-- Constructor `Student::Student()`. -/
def default : Student :=
  { toPerson := Person.default, gpa := Float32.zero, currentCourse := "", studentId := "" }

/-- Constructor `Student::Student(fn, ln, mi, t, avg, course, id)`. -/
def new (fn ln : String) (mi : Char) (t : String) (avg : Float32) (course id : String) :
    Student :=
  { toPerson := Person.new fn ln mi t, gpa := avg, currentCourse := course, studentId := id }

/-- Copy constructor `Student::Student(const Student &)`. -/
def copy (s : Student) : Student :=
  { toPerson := Person.copy s.toPerson, gpa := s.gpa, currentCourse := s.currentCourse,
    studentId := s.studentId }

def GetGpa (s : Student) : Float32 := s.gpa
def GetCurrentCourse (s : Student) : String := s.currentCourse
def GetStudentId (s : Student) : String := s.studentId

/-- Member `Student::SetCurrentCourse`. -/
def SetCurrentCourse (s : Student) (c : String) : Student :=
  { s with currentCourse := c }

/-- Member `Student::EarnPhD`. -/
def EarnPhD (s : Student) : Student :=
  { s with toPerson := s.toPerson.ModifyTitle "Dr." }

/-- Member `Student::IsA` (override): the text written to `cout`. -/
def IsA (_s : Student) : String := "Student" ++ endl

/-- Member `Student::Validate`: the object after the call and how the call completes. -/
def Validate (s : Student) : Student × Except Thrown Unit :=
  (s, Except.error (Thrown.cstring "Student does not meet prerequisites"))

/-- Member `Student::TakePrerequisites`. -/
def TakePrerequisites (s : Student) : Student × Bool := (s, false)

/-- Member `Student::Graduate`: the object after the call and how the call completes
(`Except.ok ()` would be a normal return). -/
def Graduate (s : Student) : Student × Except Thrown Unit :=
  if s.gpa.lt Float32.two then
    (s, Except.error (Thrown.float s.gpa))
  else
    (s, Except.error (Thrown.studentException { number := 5 }))

end Student

/-- Member `Student::Print` (override): the text written to `cout`; `showFloat n x` is the
text the stream writes for the `float` `x` under `setprecision(n)`. -/
def Student.Print (showFloat : Nat → Float32 → String) (s : Student) : String :=
  s.toPerson.GetTitle ++ " " ++ s.toPerson.GetFirstName ++ " "
    ++ String.singleton s.toPerson.GetMiddleInitial ++ ". " ++ s.toPerson.GetLastName
    ++ " with id: " ++ s.studentId ++ " GPA: "
    ++ " " ++ showFloat 3 s.gpa
    ++ " Course: " ++ s.currentCourse ++ endl

/-- The copy assignment operator of `Person`.  The class declares none (and no move
operation), so the language defines a public one that assigns member by member; a `Student`
inherits it (`s.Person::operator=(p)`). -/
def Person.assign (_self p : Person) : Person :=
  { firstName := p.firstName, lastName := p.lastName,
    middleInitial := p.middleInitial, title := p.title }

/-- The public operations that can be called on an existing `Student`: its own member
functions, the ones it inherits from `Person`, and `copied`, the use of the object as the
source of the copy constructor.  (`Student` itself has no assignment operator here, its
member `studentId` is `const`.) -/
inductive Call where
  | SetCurrentCourse (c : String)
  | assignPerson (p : Person)
  | copied
  | EarnPhD
  | Graduate
  | Validate
  | TakePrerequisites
  | Print
  | IsA
  | Greeting (msg : String)
  | GetFirstName
  | GetLastName
  | GetTitle
  | GetMiddleInitial
  | GetGpa
  | GetCurrentCourse
  | GetStudentId
  deriving DecidableEq, Repr

/-- The object after a call.  The `const` member functions (`Print`, `IsA`, `Greeting` and
the accessors) and the copy constructor, which takes its source as `const Student &`, have
no way to change the object. -/
def Student.after (s : Student) : Call → Student
  | Call.SetCurrentCourse c => s.SetCurrentCourse c
  | Call.assignPerson p => { s with toPerson := Person.assign s.toPerson p }
  | Call.copied => s
  | Call.EarnPhD => s.EarnPhD
  | Call.Graduate => s.Graduate.1
  | Call.Validate => s.Validate.1
  | Call.TakePrerequisites => s.TakePrerequisites.1
  | Call.Print => s
  | Call.IsA => s
  | Call.Greeting _ => s
  | Call.GetFirstName => s
  | Call.GetLastName => s
  | Call.GetTitle => s
  | Call.GetMiddleInitial => s
  | Call.GetGpa => s
  | Call.GetCurrentCourse => s
  | Call.GetStudentId => s

/-- What a `Person &` or `Person *` can refer to at run time. -/
inductive Object where
  | person (p : Person)
  | student (s : Student)
  deriving DecidableEq, Repr

/-- The static type of a handle: `Person &` may hold any object, `Student &` only a
`Student`. -/
inductive Handle where
  | personRef (obj : Object)
  | studentRef (s : Student)
  deriving DecidableEq, Repr

/-- The object a handle refers to. -/
def Handle.target : Handle → Object
  | Handle.personRef obj => obj
  | Handle.studentRef s => Object.student s

/-- Call of the virtual `IsA` on an object: the final overrider of its dynamic type runs. -/
def Object.IsA : Object → String
  | Object.person p => p.IsA
  | Object.student s => s.IsA

/-- Call `h.IsA()` through a handle: `IsA` is virtual, so the v-table of the target decides. -/
def Handle.IsA (h : Handle) : String := h.target.IsA

/-- The local `s1` of `main`. -/
def main_s1 : Student := Student.new "Ling" "Mau" 'I' "Ms." Float32.f3_1 "C++" "55UD"

/-- The student of `main` with another grade point average. -/
def sampleWithGpa (avg : Float32) : Student := Student.new "Ling" "Mau" 'I' "Ms." avg "C++" "55UD"

/-- How a run of the program ends: by a call of `exit` or by `return` from `main`. -/
inductive Ending where
  | exit (status : Int)
  | returned (status : Int)
  deriving DecidableEq, Repr

/-- What `main` does, as far as the outside can see it. -/
structure MainResult where
  /-- The text written to `cout`. -/
  output : String
  /-- How the run ends. -/
  ending : Ending
  deriving DecidableEq, Repr

/-- The handlers after the `try` block of `main`, tried in order: `float`, `int`,
`const char *`, `const Student::StudentException &`, and `...` for everything else.  The
result is the text written and the argument of `exit`; the stream has its initial
precision 6. -/
def handler (showFloat : Nat → Float32 → String) : Thrown → String × Int
  | Thrown.float err => ("Too low gpa: " ++ showFloat 6 err ++ endl, 1)
  | Thrown.int err => ("Missing " ++ toString err ++ " credits" ++ endl, 2)
  | Thrown.cstring err => (err ++ endl, 4)
  | Thrown.studentException err => ("Error: " ++ toString err.GetNum ++ endl, 5)
  | Thrown.course _ _ => ("Exiting" ++ endl, 6)

/-- The body of `main` after the construction of `s1`: the `try` block with its handlers
and the statements after them. -/
def mainWith (showFloat : Nat → Float32 → String) (s1 : Student) : MainResult :=
  match s1.Graduate.2 with
  | Except.error e =>
    { output := (handler showFloat e).1, ending := Ending.exit (handler showFloat e).2 }
  | Except.ok () =>
    { output := "Moving onward with remainder of code." ++ endl, ending := Ending.returned 0 }

/-- The function `main`. -/
def main (showFloat : Nat → Float32 → String) : MainResult :=
  mainWith showFloat main_s1

/-- A student who shares only the grade point average with `s1` of `main`. -/
def otherWithGpa (avg : Float32) : Student :=
  Student.new "Hana" "Sato" 'U' "Dr." avg "Thesis" "178PSU"

end Chp11


/-! ## Chapter 14: assignment operators, the static counter, `operator<`, `list<Student>` -/

namespace Chp14

/-- Class `Person`: the private data members. -/
structure Person where
  firstName : String
  lastName : String
  middleInitial : Char
  title : String
  deriving DecidableEq, Repr

/-- Class `Student : public Person`: the `Person` sub-object and the private data members
(the static member `numStudents` lives in the program state). -/
structure Student extends Person where
  gpa : Float32
  currentCourse : String
  studentId : String
  deriving DecidableEq, Repr

/-- A complete object: what a `Person &` or `Person *` can refer to at run time. -/
inductive Object where
  | person (p : Person)
  | student (s : Student)
  deriving DecidableEq, Repr

/-- The `Person` sub-object of an object. -/
def Object.toPerson : Object → Person
  | Object.person p => p
  | Object.student s => s.toPerson

/-- The object with its `Person` sub-object replaced. -/
def Object.setPerson : Object → Person → Object
  | Object.person _, q => Object.person q
  | Object.student s, q => Object.student { s with toPerson := q }

namespace Person

def GetFirstName (p : Person) : String := p.firstName
def GetLastName (p : Person) : String := p.lastName
def GetTitle (p : Person) : String := p.title
def GetMiddleInitial (p : Person) : Char := p.middleInitial

/-- Member `Person::Print`: the text written to `cout`. -/
def Print (p : Person) : String :=
  p.title ++ " " ++ p.firstName ++ " " ++ String.singleton p.middleInitial ++ ". "
    ++ p.lastName ++ endl

/-- Member `Person::IsA`: the text written to `cout`. -/
def IsA (_p : Person) : String := "Person" ++ endl

/-- Member `Person::Greeting`: the text written to `cout`. -/
def Greeting (_p : Person) (msg : String) : String := msg ++ endl

end Person

namespace Student

def GetGpa (s : Student) : Float32 := s.gpa
def GetCurrentCourse (s : Student) : String := s.currentCourse
def GetStudentId (s : Student) : String := s.studentId

/-- Member `Student::IsA` (override): the text written to `cout`. -/
def IsA (_s : Student) : String := "Student" ++ endl

end Student

/-- Member `Student::Print` (override): the text written to `cout`; `showFloat n x` is the
text the stream writes for the `float` `x` under `setprecision(n)`. -/
def Student.Print (showFloat : Nat → Float32 → String) (s : Student) : String :=
  s.toPerson.GetTitle ++ " " ++ s.toPerson.GetFirstName ++ " "
    ++ String.singleton s.toPerson.GetMiddleInitial ++ ". " ++ s.toPerson.GetLastName
    ++ " with id: " ++ s.studentId ++ " GPA: "
    ++ " " ++ showFloat 3 s.gpa
    ++ " Course: " ++ s.currentCourse ++ endl

/-- The free function `operator<(const Student &, const Student &)`. -/
def operatorLt (s1 s2 : Student) : Bool :=
  s1.GetGpa.lt s2.GetGpa

/-- The static type of a handle: `Person &` may hold any object, `Student &` only a
`Student`. -/
inductive Handle where
  | personRef (obj : Object)
  | studentRef (s : Student)
  deriving DecidableEq, Repr

/-- The object a handle refers to. -/
def Handle.target : Handle → Object
  | Handle.personRef obj => obj
  | Handle.studentRef s => Object.student s

/-- Call of the virtual `IsA` on an object: the final overrider of its dynamic type runs. -/
def Object.IsA : Object → String
  | Object.person p => p.IsA
  | Object.student s => s.IsA

/-- Call `h.IsA()` through a handle: `IsA` is virtual, so the v-table of the target decides. -/
def Handle.IsA (h : Handle) : String := h.target.IsA

/-- The address of an object: its position in the order of construction. -/
abbrev Addr := Nat

/-- The program state: the static data member `Student::numStudents` and the objects
constructed so far (`none` once the lifetime of an object has ended). -/
structure State where
  numStudents : Int
  objects : List (Option Object)
  deriving DecidableEq, Repr

namespace State

/-- The state at program start: `int Student::numStudents = 0;` and no object. -/
def init : State := { numStudents := 0, objects := [] }

/-- The live object at an address. -/
def lookup (σ : State) (a : Addr) : Option Object :=
  match σ.objects[a]? with
  | some (some o) => some o
  | _ => none

/-- The live `Student` at an address. -/
def student? (σ : State) (a : Addr) : Option Student :=
  match σ.lookup a with
  | some (Object.student s) => some s
  | _ => none

/-- The `Person` (sub-)object at an address. -/
def person? (σ : State) (a : Addr) : Option Person :=
  match σ.lookup a with
  | some o => some o.toPerson
  | none => none

/-- Overwrite the object at an address. -/
def update (σ : State) (a : Addr) (o : Object) : State :=
  { σ with objects := σ.objects.set a (some o) }

/-- A fresh object: it gets the next address. -/
def alloc (σ : State) (o : Object) : State × Addr :=
  ({ σ with objects := σ.objects ++ [some o] }, σ.objects.length)

/-- End the lifetime of the object at an address. -/
def release (σ : State) (a : Addr) : State :=
  { σ with objects := σ.objects.set a none }

/-- Number of live `Student` objects. -/
def liveStudents (σ : State) : Nat :=
  σ.objects.countP fun
    | some (Object.student _) => true
    | _ => false

end State

/-- Static member `Student::GetNumberStudents`. -/
def Student.GetNumberStudents (σ : State) : Int := σ.numStudents

/-- Constructor `Person::Person()`. -/
def Person.default (σ : State) : State × Addr :=
  σ.alloc (Object.person
    { firstName := "", lastName := "", middleInitial := Char.ofNat 0, title := "" })

/-- Constructor `Person::Person(const string &, const string &, char, const string &)`. -/
def Person.new (σ : State) (fn ln : String) (mi : Char) (t : String) : State × Addr :=
  σ.alloc (Object.person { firstName := fn, lastName := ln, middleInitial := mi, title := t })

/-- Copy constructor `Person::Person(const Person &)` for a complete `Person` object. -/
def Person.copy (σ : State) (p : Addr) : Option (State × Addr) :=
  match σ.person? p with
  | some q =>
    some (σ.alloc (Object.person
      { firstName := q.firstName, lastName := q.lastName,
        middleInitial := q.middleInitial, title := q.title }))
  | none => none

/-- Member `Person::operator=`: `this` and `p` are addresses; the result is the state after
the call and the returned reference `*this`. -/
def Person.assign (σ : State) (this p : Addr) : Option (State × Addr) :=
  match σ.lookup this, σ.lookup p with
  | some dst, some src =>
    if this ≠ p then
      some (σ.update this (dst.setPerson
        { firstName := src.toPerson.firstName, lastName := src.toPerson.lastName,
          middleInitial := src.toPerson.middleInitial, title := src.toPerson.title }), this)
    else
      some (σ, this)
  | _, _ => none

/-- Protected member `Person::ModifyTitle`. -/
def Person.ModifyTitle (σ : State) (this : Addr) (newTitle : String) : Option State :=
  match σ.lookup this with
  | some o => some (σ.update this (o.setPerson { o.toPerson with title := newTitle }))
  | none => none

/-- Constructor `Student::Student()`: the `Person` sub-object is default constructed, the
body runs `numStudents++`. -/
def Student.default (σ : State) : Option (State × Addr) :=
  match intIncr σ.numStudents with
  | some n =>
    some ({ σ with numStudents := n }.alloc (Object.student
      { firstName := "", lastName := "", middleInitial := Char.ofNat 0, title := "",
        gpa := Float32.zero, currentCourse := "", studentId := "None" }))
  | none => none

/-- Constructor `Student::Student(fn, ln, mi, t, avg, course, id)`. -/
def Student.new (σ : State) (fn ln : String) (mi : Char) (t : String) (avg : Float32)
    (course id : String) : Option (State × Addr) :=
  match intIncr σ.numStudents with
  | some n =>
    some ({ σ with numStudents := n }.alloc (Object.student
      { firstName := fn, lastName := ln, middleInitial := mi, title := t,
        gpa := avg, currentCourse := course, studentId := id }))
  | none => none

/-- Copy constructor `Student::Student(const Student &)`: `s` is the address of the source. -/
def Student.copy (σ : State) (s : Addr) : Option (State × Addr) :=
  match σ.student? s with
  | some src =>
    match intIncr σ.numStudents with
    | some n =>
      some ({ σ with numStudents := n }.alloc (Object.student
        { firstName := src.toPerson.firstName, lastName := src.toPerson.lastName,
          middleInitial := src.toPerson.middleInitial, title := src.toPerson.title,
          gpa := src.gpa, currentCourse := src.currentCourse, studentId := src.studentId }))
    | none => none
  | none => none

/-- Destructor `Student::~Student()`: the body runs `numStudents--`, then the lifetime of
the object ends. -/
def Student.destroy (σ : State) (this : Addr) : Option State :=
  match σ.student? this with
  | some _ =>
    match intDecr σ.numStudents with
    | some n => some ({ σ with numStudents := n }.release this)
    | none => none
  | none => none

/-- Member `Student::operator=`: `this` and `s` are addresses of `Student` objects; the
result is the state after the call and the returned reference `*this`. -/
def Student.assign (σ : State) (this s : Addr) : Option (State × Addr) :=
  match σ.student? this, σ.student? s with
  | some _, some _ =>
    if this ≠ s then
      match Person.assign σ this s with
      | some (σ1, _) =>
        match σ1.student? this, σ1.student? s with
        | some dst, some src =>
          some (σ1.update this (Object.student
            { dst with gpa := src.gpa, currentCourse := src.currentCourse,
                       studentId := src.studentId }), this)
        | _, _ => none
      | none => none
    else
      some (σ, this)
  | _, _ => none

/-- Member `Student::SetCurrentCourse`. -/
def Student.SetCurrentCourse (σ : State) (this : Addr) (c : String) : Option State :=
  match σ.student? this with
  | some s => some (σ.update this (Object.student { s with currentCourse := c }))
  | none => none

/-- Member `Student::EarnPhD`. -/
def Student.EarnPhD (σ : State) (this : Addr) : Option State :=
  match σ.student? this with
  | some _ => Person.ModifyTitle σ this "Dr."
  | none => none

/-- The public operations that can be called on an existing `Student`: its own member
functions, the ones it inherits from `Person`, and `copied`, the use of the object as the
source of the copy constructor.  `assign s` is `*this = s` with `Student::operator=`,
`assignPerson p` is the inherited `Person::operator=` with the object at `p` as source
(`this->Person::operator=(p)`). -/
inductive Call where
  | SetCurrentCourse (c : String)
  | assign (s : Addr)
  | assignPerson (p : Addr)
  | copied
  | EarnPhD
  | Print
  | IsA
  | Greeting (msg : String)
  | GetFirstName
  | GetLastName
  | GetTitle
  | GetMiddleInitial
  | GetGpa
  | GetCurrentCourse
  | GetStudentId
  | GetNumberStudents
  deriving DecidableEq, Repr

/-- A call on the object at address `this`: the state after the call and the text written
to `cout`.  The `const` member functions (`Print`, `IsA`, `Greeting` and the accessors) and
the static `GetNumberStudents` have no way to change the state. -/
def call (showFloat : Nat → Float32 → String) (σ : State) (this : Addr) :
    Call → Option (State × String)
  | Call.SetCurrentCourse c => (Student.SetCurrentCourse σ this c).map fun σ1 => (σ1, "")
  | Call.assign s => (Student.assign σ this s).map fun r => (r.1, "")
  | Call.assignPerson p => (Person.assign σ this p).map fun r => (r.1, "")
  | Call.copied => (Student.copy σ this).map fun r => (r.1, "")
  | Call.EarnPhD => (Student.EarnPhD σ this).map fun σ1 => (σ1, "")
  | Call.Print => (σ.student? this).map fun s => (σ, s.Print showFloat)
  | Call.IsA => (σ.student? this).map fun s => (σ, s.IsA)
  | Call.Greeting msg => (σ.student? this).map fun s => (σ, s.toPerson.Greeting msg)
  | Call.GetFirstName => (σ.student? this).map fun _ => (σ, "")
  | Call.GetLastName => (σ.student? this).map fun _ => (σ, "")
  | Call.GetTitle => (σ.student? this).map fun _ => (σ, "")
  | Call.GetMiddleInitial => (σ.student? this).map fun _ => (σ, "")
  | Call.GetGpa => (σ.student? this).map fun _ => (σ, "")
  | Call.GetCurrentCourse => (σ.student? this).map fun _ => (σ, "")
  | Call.GetStudentId => (σ.student? this).map fun _ => (σ, "")
  | Call.GetNumberStudents => (σ.student? this).map fun _ => (σ, "")

/-- A `list<Student>`: the addresses of the elements its nodes hold, front to back. -/
abbrev StudentList := List Addr

/-- Member `list<Student>::push_back`: a new node at the end, its element copy constructed
from the argument at address `s`. -/
def push_back (σ : State) (l : StudentList) (s : Addr) : Option (State × StudentList) :=
  match Student.copy σ s with
  | some (σ1, t) => some (σ1, l ++ [t])
  | none => none

/-- A traversal from `begin()` to `end()` that reads `*listIter` at every node. -/
def contents (σ : State) : StudentList → Option (List Student)
  | [] => some []
  | a :: l =>
    match σ.student? a, contents σ l with
    | some s, some vs => some (s :: vs)
    | _, _ => none

/-- One event in the life of the `Student` class: a construction (default, parameterized,
copy of the object at an address) or the destruction of the object at an address. -/
inductive Op where
  | default
  | new (fn ln : String) (mi : Char) (t : String) (avg : Float32) (course id : String)
  | copy (s : Addr)
  | destroy (this : Addr)
  deriving DecidableEq, Repr

/-- Constructions are the events that are not destructions. -/
def Op.isConstruction : Op → Bool
  | Op.destroy _ => false
  | _ => true

/-- Run one event. -/
def step (σ : State) : Op → Option State
  | Op.default => (Student.default σ).map Prod.fst
  | Op.new fn ln mi t avg course id => (Student.new σ fn ln mi t avg course id).map Prod.fst
  | Op.copy s => (Student.copy σ s).map Prod.fst
  | Op.destroy this => Student.destroy σ this

/-- Run a sequence of events and read `GetNumberStudents()` after each of them.  The
result is defined exactly for the well-formed sequences: every copy and every destruction
names a live `Student`, and the counter stays in the range of `int`. -/
def observe (σ : State) : List Op → Option (List Int)
  | [] => some []
  | op :: ops =>
    match step σ op with
    | some σ1 =>
      match observe σ1 ops with
      | some obs => some (Student.GetNumberStudents σ1 :: obs)
      | none => none
    | none => none

/-- Number of constructions in a sequence of events. -/
def constructions (ops : List Op) : Nat := ops.countP Op.isConstruction

/-- Number of destructions in a sequence of events. -/
def destructions (ops : List Op) : Nat := ops.countP fun op => !op.isConstruction

/-- The local `s1` of `main`: Jul Li, gpa 3.8. -/
def main_s1 : Student :=
  { firstName := "Jul", lastName := "Li", middleInitial := 'M', title := "Ms.",
    gpa := Float32.f3_8, currentCourse := "C++", studentId := "117PSU" }

/-- The first temporary of `main`: Hana Sato, gpa 3.8. -/
def main_hana : Student :=
  { firstName := "Hana", lastName := "Sato", middleInitial := 'U', title := "Dr.",
    gpa := Float32.f3_8, currentCourse := "C++", studentId := "178PSU" }

/-- The second temporary of `main`: Sara Kato, gpa 3.9. -/
def main_sara : Student :=
  { firstName := "Sara", lastName := "Kato", middleInitial := 'B', title := "Dr.",
    gpa := Float32.f3_9, currentCourse := "C++", studentId := "272PSU" }

/-- The third temporary of `main`: Giselle LeBrun, gpa 3.4. -/
def main_giselle : Student :=
  { firstName := "Giselle", lastName := "LeBrun", middleInitial := 'R', title := "Ms.",
    gpa := Float32.f3_4, currentCourse := "C++", studentId := "299TU" }

/-- A student like `s1` of `main` with another grade point average. -/
def sampleWithGpa (avg : Float32) : Student := { main_s1 with gpa := avg }

/-- A state with two live students (`s1` of `main` at address 0, Hana Sato at address 1)
and one `Person` (address 2). -/
def sampleState : State :=
  { numStudents := 2,
    objects := [some (Object.student main_s1), some (Object.student main_hana),
                some (Object.person main_sara.toPerson)] }

/-- The elements of `studentBody` after the four calls of `push_back`, front to back. -/
def main_studentBody : List Student :=
  [main_s1, main_hana, main_sara, main_giselle]

/-- A list with a NaN among the gpas: 1.0, 3.0, NaN, 2.0. -/
def nanBody : List Student :=
  [sampleWithGpa Float32.one, sampleWithGpa Float32.three, sampleWithGpa Float32.nan,
   sampleWithGpa Float32.two]

/-- The constructions and destructions of `main` in program order, up to the call of
`sort`: `s1`, its copy in the list, and three times a temporary, its copy in the list and
the end of the temporary (`Student` declares a copy constructor and no move constructor,
so `push_back` of a temporary copies). -/
def mainEvents : List Op :=
  [ Op.new "Jul" "Li" 'M' "Ms." Float32.f3_8 "C++" "117PSU", Op.copy 0,
    Op.new "Hana" "Sato" 'U' "Dr." Float32.f3_8 "C++" "178PSU", Op.copy 2, Op.destroy 2,
    Op.new "Sara" "Kato" 'B' "Dr." Float32.f3_9 "C++" "272PSU", Op.copy 4, Op.destroy 4,
    Op.new "Giselle" "LeBrun" 'R' "Ms." Float32.f3_4 "C++" "299TU", Op.copy 6, Op.destroy 6 ]

/-- The statement `studentBody.push_back(Student(fn, ln, mi, t, avg, course, id));`: the
temporary is constructed, copied into the new node, and destroyed at the end of the
statement. -/
def push_back_temporary (σ : State) (l : StudentList) (fn ln : String) (mi : Char)
    (t : String) (avg : Float32) (course id : String) : Option (State × StudentList) :=
  match Student.new σ fn ln mi t avg course id with
  | some (σ1, tmp) =>
    match push_back σ1 l tmp with
    | some (σ2, l1) =>
      match Student.destroy σ2 tmp with
      | some σ3 => some (σ3, l1)
      | none => none
    | none => none
  | none => none

/-- Member `list<Student>::sort()`: the nodes are relinked in the order `StdList.sort`
gives with `operator<` on their elements; no element is copied, constructed or destroyed,
so the program state stays as it is and only the order of the nodes changes. -/
def sortList (σ : State) (l : StudentList) : Option StudentList :=
  match contents σ l with
  | some vs =>
    some ((StdList.sort (fun x y : Addr × Student => operatorLt x.2 y.2) (l.zip vs)).map
      Prod.fst)
  | none => none

/-- The loop of `main` over the list: `temp.Print()` for every element, front to back. -/
def printAll (showFloat : Nat → Float32 → String) (σ : State) (l : StudentList) :
    Option String :=
  match contents σ l with
  | some vs => some (String.join (vs.map (Student.Print showFloat)))
  | none => none

/-- The destructor of `list<Student>`: the elements are destroyed front to back. -/
def destroyList (σ : State) : StudentList → Option State
  | [] => some σ
  | a :: l =>
    match Student.destroy σ a with
    | some σ1 => destroyList σ1 l
    | none => none

/-- What `main` does, as far as the outside can see it. -/
structure MainResult where
  /-- The text written to `cout`. -/
  output : String
  /-- The value of `Student::GetNumberStudents()` after the construction of `s1`, after
  each of the four `push_back` statements, and after the call of `sort`. -/
  counts : List Int
  /-- The elements of `studentBody` after the call of `sort`, front to back. -/
  sorted : List Student
  /-- The value returned by `main`. -/
  status : Int
  /-- The state after the locals have been destroyed. -/
  final : State

/-- The function `main`. -/
def main (showFloat : Nat → Float32 → String) : Option MainResult :=
  match Student.new State.init "Jul" "Li" 'M' "Ms." Float32.f3_8 "C++" "117PSU" with
  | some (σ1, s1) =>
    match push_back σ1 [] s1 with
    | some (σ2, l1) =>
      match push_back_temporary σ2 l1 "Hana" "Sato" 'U' "Dr." Float32.f3_8 "C++" "178PSU" with
      | some (σ3, l2) =>
        match push_back_temporary σ3 l2 "Sara" "Kato" 'B' "Dr." Float32.f3_9 "C++" "272PSU" with
        | some (σ4, l3) =>
          match push_back_temporary σ4 l3 "Giselle" "LeBrun" 'R' "Ms." Float32.f3_4 "C++"
              "299TU" with
          | some (σ5, l4) =>
            match sortList σ5 l4 with
            | some l5 =>
              match contents σ5 l5, printAll showFloat σ5 l5 with
              | some vs, some out =>
                match Student.destroy σ5 s1 with
                | some σ6 =>
                  match destroyList σ6 l5 with
                  | some σ7 =>
                    some { output := out
                           counts := [Student.GetNumberStudents σ1, Student.GetNumberStudents σ2,
                                      Student.GetNumberStudents σ3, Student.GetNumberStudents σ4,
                                      Student.GetNumberStudents σ5, Student.GetNumberStudents σ5]
                           sorted := vs
                           status := 0
                           final := σ7 }
                  | none => none
                | none => none
              | _, _ => none
            | none => none
          | none => none
        | none => none
      | none => none
    | none => none
  | none => none

end Chp14

/-! ## Helper lemmas -/

section Helpers

theorem countP_set_drop {α : Type} (p : α → Bool) (l : List α) (i : Nat) (x y : α)
    (h : l[i]? = some y) (hy : p y = true) (hx : p x = false) :
    (l.set i x).countP p + 1 = l.countP p := by
  induction l generalizing i with
  | nil => simp at h
  | cons a l ih =>
    cases i with
    | zero =>
      simp only [List.getElem?_cons_zero, Option.some.injEq] at h
      subst h
      simp [List.countP_cons, hy, hx]
    | succ i =>
      simp only [List.getElem?_cons_succ] at h
      have := ih i h
      simp only [List.set_cons_succ, List.countP_cons]
      omega

theorem intIncr_some {n m : Int} (h : intIncr n = some m) : m = n + 1 := by
  unfold intIncr at h
  split at h
  · exact (Option.some.inj h).symm
  · simp at h

theorem intDecr_some {n m : Int} (h : intDecr n = some m) : m = n - 1 := by
  unfold intDecr at h
  split at h
  · exact (Option.some.inj h).symm
  · simp at h

end Helpers

namespace Chp14

theorem State.liveStudents_alloc (σ : State) (s : Student) :
    (σ.alloc (Object.student s)).1.liveStudents = σ.liveStudents + 1 := by
  simp [State.alloc, State.liveStudents, List.countP_append]

theorem State.liveStudents_release (σ : State) (a : Addr) (s : Student)
    (h : σ.student? a = some s) : (σ.release a).liveStudents + 1 = σ.liveStudents := by
  unfold State.student? State.lookup at h
  unfold State.release State.liveStudents
  cases hq : σ.objects[a]? with
  | none => simp [hq] at h
  | some o =>
    cases o with
    | none => simp [hq] at h
    | some o =>
      cases o with
      | person p => simp [hq] at h
      | student t => exact countP_set_drop _ σ.objects a none _ hq rfl rfl

/-- Every event moves the counter and the number of live students by the same amount:
`+1` for a construction, `-1` for a destruction. -/
theorem step_counter (σ σ1 : State) (op : Op) (h : step σ op = some σ1) :
    σ1.numStudents = σ.numStudents + (if op.isConstruction then 1 else -1) ∧
    (σ1.liveStudents : Int) = σ.liveStudents + (if op.isConstruction then 1 else -1) := by
  cases op with
  | default =>
    simp only [step, Student.default] at h
    cases hn : intIncr σ.numStudents with
    | none => simp [hn] at h
    | some n =>
      simp only [hn, Option.map_some', Option.some.injEq] at h
      subst h
      rw [State.liveStudents_alloc]
      simp [State.alloc, Op.isConstruction, State.liveStudents, intIncr_some hn]
  | new fn ln mi t avg course id =>
    simp only [step, Student.new] at h
    cases hn : intIncr σ.numStudents with
    | none => simp [hn] at h
    | some n =>
      simp only [hn, Option.map_some', Option.some.injEq] at h
      subst h
      rw [State.liveStudents_alloc]
      simp [State.alloc, Op.isConstruction, State.liveStudents, intIncr_some hn]
  | copy s =>
    simp only [step, Student.copy] at h
    cases hs : σ.student? s with
    | none => simp [hs] at h
    | some src =>
      cases hn : intIncr σ.numStudents with
      | none => simp [hs, hn] at h
      | some n =>
        simp only [hs, hn, Option.map_some', Option.some.injEq] at h
        subst h
        rw [State.liveStudents_alloc]
        simp [State.alloc, Op.isConstruction, State.liveStudents, intIncr_some hn]
  | destroy this =>
    simp only [step, Student.destroy] at h
    cases hs : σ.student? this with
    | none => simp [hs] at h
    | some s =>
      cases hn : intDecr σ.numStudents with
      | none => simp [hs, hn] at h
      | some n =>
        simp only [hs, hn, Option.some.injEq] at h
        subst h
        have hr := State.liveStudents_release { σ with numStudents := n } this s hs
        have hl : State.liveStudents { σ with numStudents := n } = σ.liveStudents := rfl
        rw [hl] at hr
        refine ⟨by simp [State.release, Op.isConstruction, intDecr_some hn]; omega, ?_⟩
        have hc : Op.isConstruction (Op.destroy this) = false := rfl
        rw [hc]
        simp only [Bool.false_eq_true, if_false]
        omega

theorem observe_counter (ops : List Op) : ∀ (σ : State) (obs : List Int),
    σ.numStudents = σ.liveStudents → observe σ ops = some obs →
    obs.length = ops.length ∧
    ∀ (k : Nat) (v : Int), obs[k]? = some v →
      v = σ.numStudents + constructions (ops.take (k + 1)) - destructions (ops.take (k + 1))
      ∧ 0 ≤ v := by
  induction ops with
  | nil =>
    intro σ obs _ h
    simp only [observe, Option.some.injEq] at h
    subst h
    simp
  | cons op rest ih =>
    intro σ obs hinv h
    simp only [observe] at h
    cases hs : step σ op with
    | none => simp [hs] at h
    | some σ1 =>
      cases ho : observe σ1 rest with
      | none => simp [hs, ho] at h
      | some obs1 =>
        simp only [hs, ho, Option.some.injEq] at h
        subst h
        obtain ⟨hnum, hlive⟩ := step_counter σ σ1 op hs
        have hinv1 : σ1.numStudents = σ1.liveStudents := by rw [hnum, hlive, hinv]
        obtain ⟨hlen, hobs⟩ := ih σ1 obs1 hinv1 ho
        refine ⟨by simp [hlen], ?_⟩
        intro k v hv
        cases k with
        | zero =>
          simp only [List.getElem?_cons_zero, Option.some.injEq, Student.GetNumberStudents] at hv
          subst hv
          refine ⟨?_, by rw [hinv1]; exact Int.ofNat_nonneg _⟩
          rw [hnum]
          cases hc : op.isConstruction <;>
            (simp [constructions, destructions, List.countP_cons, hc]; try omega)
        | succ k =>
          simp only [List.getElem?_cons_succ] at hv
          obtain ⟨hv1, hv2⟩ := hobs k v hv
          refine ⟨?_, hv2⟩
          rw [hv1, hnum]
          cases hc : op.isConstruction <;>
            (simp [constructions, destructions, List.countP_cons, hc]; try omega)

end Chp14

namespace Chp6

theorem State.liveStudents_alloc6 (σ : State) (s : Student) :
    (σ.alloc s).1.liveStudents = σ.liveStudents + 1 := by
  simp [State.alloc, State.liveStudents, List.countP_append]

theorem State.liveStudents_release6 (σ : State) (a : Addr) (s : Student)
    (h : σ.student? a = some s) : (σ.release a).liveStudents + 1 = σ.liveStudents := by
  unfold State.student? at h
  unfold State.release State.liveStudents
  cases hq : σ.objects[a]? with
  | none => simp [hq] at h
  | some o =>
    cases o with
    | none => simp [hq] at h
    | some o => exact countP_set_drop _ σ.objects a none _ hq rfl rfl

/-- Every event moves the counter and the number of live students by the same amount:
`+1` for a construction, `-1` for a destruction. -/
theorem step_counter6 (σ σ1 : State) (op : Op) (h : step σ op = some σ1) :
    σ1.numStudents = σ.numStudents + (if op.isConstruction then 1 else -1) ∧
    (σ1.liveStudents : Int) = σ.liveStudents + (if op.isConstruction then 1 else -1) := by
  cases op with
  | default =>
    simp only [step, Student.default] at h
    cases hk : intAdd σ.numStudents 100 with
    | none => simp [hk] at h
    | some k =>
      cases hn : intIncr σ.numStudents with
      | none => simp [hk, hn] at h
      | some n =>
        simp only [hk, hn, Option.map_some', Option.some.injEq] at h
        subst h
        rw [State.liveStudents_alloc6]
        simp [State.alloc, Op.isConstruction, State.liveStudents, intIncr_some hn]
  | new fn ln mi t avg course id =>
    simp only [step, Student.new] at h
    cases hn : intIncr σ.numStudents with
    | none => simp [hn] at h
    | some n =>
      simp only [hn, Option.map_some', Option.some.injEq] at h
      subst h
      rw [State.liveStudents_alloc6]
      simp [State.alloc, Op.isConstruction, State.liveStudents, intIncr_some hn]
  | copy s =>
    simp only [step, Student.copy] at h
    cases hs : σ.student? s with
    | none => simp [hs] at h
    | some src =>
      cases hn : intIncr σ.numStudents with
      | none => simp [hs, hn] at h
      | some n =>
        simp only [hs, hn, Option.map_some', Option.some.injEq] at h
        subst h
        rw [State.liveStudents_alloc6]
        simp [State.alloc, Op.isConstruction, State.liveStudents, intIncr_some hn]
  | destroy this =>
    simp only [step, Student.destroy] at h
    cases hs : σ.student? this with
    | none => simp [hs] at h
    | some s =>
      cases hn : intDecr σ.numStudents with
      | none => simp [hs, hn] at h
      | some n =>
        simp only [hs, hn, Option.some.injEq] at h
        subst h
        have hr := State.liveStudents_release6 { σ with numStudents := n } this s hs
        have hl : State.liveStudents { σ with numStudents := n } = σ.liveStudents := rfl
        rw [hl] at hr
        refine ⟨by simp [State.release, Op.isConstruction, intDecr_some hn]; omega, ?_⟩
        have hc : Op.isConstruction (Op.destroy this) = false := rfl
        rw [hc]
        simp only [Bool.false_eq_true, if_false]
        omega

theorem observe_counter6 (ops : List Op) : ∀ (σ : State) (obs : List Int),
    σ.numStudents = σ.liveStudents → observe σ ops = some obs →
    obs.length = ops.length ∧
    ∀ (k : Nat) (v : Int), obs[k]? = some v →
      v = σ.numStudents + constructions (ops.take (k + 1)) - destructions (ops.take (k + 1))
      ∧ 0 ≤ v := by
  induction ops with
  | nil =>
    intro σ obs _ h
    simp only [observe, Option.some.injEq] at h
    subst h
    simp
  | cons op rest ih =>
    intro σ obs hinv h
    simp only [observe] at h
    cases hs : step σ op with
    | none => simp [hs] at h
    | some σ1 =>
      cases ho : observe σ1 rest with
      | none => simp [hs, ho] at h
      | some obs1 =>
        simp only [hs, ho, Option.some.injEq] at h
        subst h
        obtain ⟨hnum, hlive⟩ := step_counter6 σ σ1 op hs
        have hinv1 : σ1.numStudents = σ1.liveStudents := by rw [hnum, hlive, hinv]
        obtain ⟨hlen, hobs⟩ := ih σ1 obs1 hinv1 ho
        refine ⟨by simp [hlen], ?_⟩
        intro k v hv
        cases k with
        | zero =>
          simp only [List.getElem?_cons_zero, Option.some.injEq, Student.GetNumberStudents] at hv
          subst hv
          refine ⟨?_, by rw [hinv1]; exact Int.ofNat_nonneg _⟩
          rw [hnum]
          cases hc : op.isConstruction <;>
            (simp [constructions, destructions, List.countP_cons, hc]; try omega)
        | succ k =>
          simp only [List.getElem?_cons_succ] at hv
          obtain ⟨hv1, hv2⟩ := hobs k v hv
          refine ⟨?_, hv2⟩
          rw [hv1, hnum]
          cases hc : op.isConstruction <;>
            (simp [constructions, destructions, List.countP_cons, hc]; try omega)

end Chp6

namespace Float32

theorem lt_iff (a b : Float32) :
    a.lt b = true ↔ a.isNaN = false ∧ b.isNaN = false ∧ a.key < b.key := by
  simp [lt, and_assoc]

theorem eq_iff (a b : Float32) :
    a.eq b = true ↔ a.isNaN = false ∧ b.isNaN = false ∧ a.key = b.key := by
  simp [eq, and_assoc]

theorem le_iff (a b : Float32) :
    a.le b = true ↔ a.isNaN = false ∧ b.isNaN = false ∧ a.key ≤ b.key := by
  simp [le, and_assoc]

theorem lt_irrefl (a : Float32) : a.lt a = false := by
  simp [lt]

theorem lt_trans {a b c : Float32} (h1 : a.lt b = true) (h2 : b.lt c = true) :
    a.lt c = true := by
  rw [lt_iff] at *
  exact ⟨h1.1, h2.2.1, Int.lt_trans h1.2.2 h2.2.2⟩

theorem absUnits_lt_of_magnitude_lt (a b : Float32) (h : a.magnitude < b.magnitude) :
    a.absUnits < b.absUnits := by
  unfold magnitude at h
  unfold absUnits
  have hma := a.mantissa.isLt
  have hmb := b.mantissa.isLt
  rcases Nat.lt_or_ge a.exponent.val b.exponent.val with he | he
  · have hb0 : b.exponent.val ≠ 0 := by omega
    have hpb : 1 ≤ 2 ^ (b.exponent.val - 1) := Nat.one_le_two_pow
    rw [if_neg hb0]
    by_cases ha0 : a.exponent.val = 0
    · rw [if_pos ha0, ha0]
      simp only [Nat.zero_sub, pow_zero, Nat.mul_one]
      calc a.mantissa.val < 8388608 := hma
        _ ≤ (8388608 + b.mantissa.val) * 1 := by omega
        _ ≤ (8388608 + b.mantissa.val) * 2 ^ (b.exponent.val - 1) :=
            Nat.mul_le_mul_left _ hpb
    · rw [if_neg ha0]
      have hpow : 2 ^ (a.exponent.val - 1) * 2 ≤ 2 ^ (b.exponent.val - 1) := by
        rw [← pow_succ]
        exact Nat.pow_le_pow_right (by decide) (by omega)
      have hpa : 0 < 2 ^ (a.exponent.val - 1) := Nat.two_pow_pos _
      calc (8388608 + a.mantissa.val) * 2 ^ (a.exponent.val - 1)
          < (8388608 * 2) * 2 ^ (a.exponent.val - 1) :=
            Nat.mul_lt_mul_of_pos_right (by omega) hpa
        _ = 8388608 * (2 ^ (a.exponent.val - 1) * 2) := by ring
        _ ≤ 8388608 * 2 ^ (b.exponent.val - 1) := Nat.mul_le_mul_left _ hpow
        _ ≤ (8388608 + b.mantissa.val) * 2 ^ (b.exponent.val - 1) :=
            Nat.mul_le_mul_right _ (by omega)
  · have hee : a.exponent.val = b.exponent.val := by omega
    have hmm : a.mantissa.val < b.mantissa.val := by omega
    rw [hee]
    have hp : 0 < 2 ^ (b.exponent.val - 1) := Nat.two_pow_pos _
    apply Nat.mul_lt_mul_of_pos_right _ hp
    split <;> omega

theorem absUnits_eq_of_magnitude_eq (a b : Float32) (h : a.magnitude = b.magnitude) :
    a.absUnits = b.absUnits := by
  unfold magnitude at h
  have hma := a.mantissa.isLt
  have hmb := b.mantissa.isLt
  have hee : a.exponent.val = b.exponent.val := by omega
  have hmm : a.mantissa.val = b.mantissa.val := by omega
  simp only [absUnits, hee, hmm]

theorem absUnits_lt_iff (a b : Float32) : a.absUnits < b.absUnits ↔ a.magnitude < b.magnitude := by
  constructor
  · intro h
    rcases Nat.lt_trichotomy a.magnitude b.magnitude with hlt | heq | hgt
    · exact hlt
    · have := absUnits_eq_of_magnitude_eq a b heq
      omega
    · have := absUnits_lt_of_magnitude_lt b a hgt
      omega
  · exact absUnits_lt_of_magnitude_lt a b

theorem absUnits_eq_zero_iff (a : Float32) : a.absUnits = 0 ↔ a.magnitude = 0 := by
  have h1 := absUnits_lt_iff { sign := false, exponent := 0, mantissa := 0 } a
  have h0 : absUnits { sign := false, exponent := 0, mantissa := 0 } = 0 := by decide
  have h2 : magnitude { sign := false, exponent := 0, mantissa := 0 } = 0 := by decide
  rw [h0, h2] at h1
  omega

/-- On finite values the comparison `<` of the embedding is the comparison of the numbers
the two values denote. -/
theorem lt_iff_units (a b : Float32) (ua ub : Int) (ha : a.units = some ua)
    (hb : b.units = some ub) : a.lt b = true ↔ ua < ub := by
  unfold units at ha hb
  have hea : a.exponent.val ≠ 255 := by
    intro h
    simp [h] at ha
  have heb : b.exponent.val ≠ 255 := by
    intro h
    simp [h] at hb
  rw [if_neg hea] at ha
  rw [if_neg heb] at hb
  have hna : a.isNaN = false := by simp [isNaN, hea]
  have hnb : b.isNaN = false := by simp [isNaN, heb]
  have hua := (Option.some.inj ha).symm
  have hub := (Option.some.inj hb).symm
  have hlt := absUnits_lt_iff a b
  have hgt := absUnits_lt_iff b a
  have hza := absUnits_eq_zero_iff a
  have hzb := absUnits_eq_zero_iff b
  simp only [lt, hna, hnb, Bool.not_false, Bool.true_and, decide_eq_true_eq, key]
  rw [hua, hub]
  cases a.sign <;> cases b.sign <;> simp <;> omega

set_option maxRecDepth 8000 in
/-- The named constants denote the numbers of their literals: the exact ones exactly, the
decimal ones within less than half a unit in the last place (`2^126` units for values
between 2 and 4), so that each is the result of rounding its literal to nearest. -/
theorem literal_values :
    zero.units = some 0 ∧ one.units = some (2 ^ 149) ∧ f1_5.units = some (3 * 2 ^ 148) ∧
    two.units = some (2 * 2 ^ 149) ∧ three.units = some (3 * 2 ^ 149) ∧
    (∃ u, f3_1.units = some u ∧
      31 * 2 ^ 149 - 10 * 2 ^ 126 < 10 * u ∧ 10 * u < 31 * 2 ^ 149 + 10 * 2 ^ 126) ∧
    (∃ u, f3_4.units = some u ∧
      34 * 2 ^ 149 - 10 * 2 ^ 126 < 10 * u ∧ 10 * u < 34 * 2 ^ 149 + 10 * 2 ^ 126) ∧
    (∃ u, f3_8.units = some u ∧
      38 * 2 ^ 149 - 10 * 2 ^ 126 < 10 * u ∧ 10 * u < 38 * 2 ^ 149 + 10 * 2 ^ 126) ∧
    (∃ u, f3_85.units = some u ∧
      385 * 2 ^ 149 - 100 * 2 ^ 126 < 100 * u ∧ 100 * u < 385 * 2 ^ 149 + 100 * 2 ^ 126) ∧
    (∃ u, f3_9.units = some u ∧
      39 * 2 ^ 149 - 10 * 2 ^ 126 < 10 * u ∧ 10 * u < 39 * 2 ^ 149 + 10 * 2 ^ 126) ∧
    nan.isNaN = true := by
  refine ⟨by decide, by decide, by decide, by decide, by decide,
    ⟨_, rfl, by decide, by decide⟩, ⟨_, rfl, by decide, by decide⟩,
    ⟨_, rfl, by decide, by decide⟩, ⟨_, rfl, by decide, by decide⟩,
    ⟨_, rfl, by decide, by decide⟩, by decide⟩

end Float32

namespace Chp14

theorem State.lookup_lt {σ : State} {a : Addr} {o : Object} (h : σ.lookup a = some o) :
    a < σ.objects.length := by
  unfold State.lookup at h
  cases hq : σ.objects[a]? with
  | none => simp [hq] at h
  | some x => exact (List.getElem?_eq_some.mp hq).1

theorem State.student?_eq_some {σ : State} {a : Addr} {s : Student} :
    σ.student? a = some s ↔ σ.lookup a = some (Object.student s) := by
  unfold State.student?
  cases hq : σ.lookup a with
  | none => simp
  | some o => cases o <;> simp

theorem State.lookup_update_same (σ : State) (a : Addr) (o : Object)
    (h : a < σ.objects.length) : (σ.update a o).lookup a = some o := by
  simp [State.lookup, State.update, List.getElem?_set_self h]

theorem State.lookup_update_ne (σ : State) (a b : Addr) (o : Object) (h : a ≠ b) :
    (σ.update a o).lookup b = σ.lookup b := by
  simp [State.lookup, State.update, List.getElem?_set_ne h]

theorem State.update_update (σ : State) (a : Addr) (o1 o2 : Object) :
    (σ.update a o1).update a o2 = σ.update a o2 := by
  simp [State.update, List.set_set]

theorem State.lookup_alloc_new (σ : State) (o : Object) :
    (σ.alloc o).1.lookup (σ.alloc o).2 = some o := by
  simp [State.lookup, State.alloc]

theorem State.lookup_alloc_old (σ : State) (o : Object) (a : Addr)
    (h : a < σ.objects.length) : (σ.alloc o).1.lookup a = σ.lookup a := by
  simp [State.lookup, State.alloc, List.getElem?_append_left h]

/-- The guard `this != &s` makes the assignment of an object to itself do nothing. -/
theorem Student.assign_self (σ : State) (a : Addr) (s : Student) (h : σ.student? a = some s) :
    Student.assign σ a a = some (σ, a) := by
  simp [Student.assign, h]

/-- The guard `this != &p` makes the assignment of an object to itself do nothing. -/
theorem Person.assign_same (σ : State) (a : Addr) (p : Person) (h : σ.person? a = some p) :
    Person.assign σ a a = some (σ, a) := by
  unfold State.person? at h
  cases hl : σ.lookup a with
  | none => simp [hl] at h
  | some o => simp [Person.assign, hl]

/-- The assignment between two different `Student` objects overwrites the target with the
value of the source. -/
theorem Student.assign_ne (σ : State) (a b : Addr) (sa sb : Student)
    (ha : σ.student? a = some sa) (hb : σ.student? b = some sb) (hab : a ≠ b) :
    Student.assign σ a b = some (σ.update a (Object.student sb), a) := by
  have hla := State.student?_eq_some.mp ha
  have hlb := State.student?_eq_some.mp hb
  have hlt := State.lookup_lt hla
  have h1a : (σ.update a (Object.setPerson (Object.student sa)
      { firstName := sb.toPerson.firstName, lastName := sb.toPerson.lastName,
        middleInitial := sb.toPerson.middleInitial, title := sb.toPerson.title })).student? a
      = some { sa with toPerson :=
          { firstName := sb.toPerson.firstName, lastName := sb.toPerson.lastName,
            middleInitial := sb.toPerson.middleInitial, title := sb.toPerson.title } } := by
    rw [State.student?_eq_some, State.lookup_update_same _ _ _ hlt]
    rfl
  have h1b : (σ.update a (Object.setPerson (Object.student sa)
      { firstName := sb.toPerson.firstName, lastName := sb.toPerson.lastName,
        middleInitial := sb.toPerson.middleInitial, title := sb.toPerson.title })).student? b
      = some sb := by
    rw [State.student?_eq_some, State.lookup_update_ne _ _ _ _ hab]
    exact hlb
  simp only [Student.assign, ha, hb, Person.assign, hla, hlb, hab, ne_eq, not_false_eq_true,
    if_true, Object.toPerson, h1a, h1b, State.update_update]

end Chp14

namespace StdList

section Sorting

variable {α : Type} (less : α → α → Bool) (k : α → Int) (P : α → Prop)

theorem merge_nil_right (xs : List α) : merge less xs [] = xs := by
  induction xs with
  | nil => rfl
  | cons a l ih => simp [merge, mergeInto, ih]

theorem merge_cons_cons (a : α) (l : List α) (b : α) (x : List α) :
    merge less (a :: l) (b :: x)
      = if less b a then b :: merge less (a :: l) x else a :: merge less l (b :: x) := rfl

theorem Stable.refl (l : List α) : Stable k l l := ⟨List.Perm.refl l, fun _ => rfl⟩

theorem Stable.trans {a b c : List α} (h1 : Stable k a b) (h2 : Stable k b c) :
    Stable k a c :=
  ⟨h1.1.trans h2.1, fun x => (h1.2 x).trans (h2.2 x)⟩

theorem Stable.append_left (p : List α) {a b : List α} (h : Stable k a b) :
    Stable k (p ++ a) (p ++ b) :=
  ⟨h.1.append_left p, fun x => by simp only [List.filter_append, h.2 x]⟩

theorem Stable.append_right (q : List α) {a b : List α} (h : Stable k a b) :
    Stable k (a ++ q) (b ++ q) :=
  ⟨h.1.append_right q, fun x => by simp only [List.filter_append, h.2 x]⟩

theorem Run.nil : Run k P ([] : List α) := ⟨by simp, List.Pairwise.nil⟩

theorem Run.tail {k : α → Int} {P : α → Prop} {a : α} {l : List α} (h : Run k P (a :: l)) :
    Run k P l :=
  ⟨fun b hb => h.1 b (List.mem_cons_of_mem a hb), (List.pairwise_cons.mp h.2).2⟩

theorem Run.head {k : α → Int} {P : α → Prop} {a : α} {l : List α} (h : Run k P (a :: l)) :
    P a :=
  h.1 a (List.mem_cons_self a l)

theorem Run.head_le {k : α → Int} {P : α → Prop} {a : α} {l : List α}
    (h : Run k P (a :: l)) : ∀ b ∈ l, k a ≤ k b :=
  (List.pairwise_cons.mp h.2).1

theorem Run.singleton {a : α} (h : P a) : Run k P [a] :=
  ⟨by simpa using h, List.pairwise_singleton _ a⟩

/-- Merging two sorted runs gives a sorted run that is a stable rearrangement of the first
run followed by the second. -/
theorem merge_spec (H : ∀ a b, P a → P b → less a b = decide (k a < k b)) (xs : List α) :
    ∀ ys : List α, Run k P xs → Run k P ys →
      Run k P (merge less xs ys) ∧ Stable k (merge less xs ys) (xs ++ ys) := by
  induction xs with
  | nil =>
    intro ys _ hy
    exact ⟨hy, Stable.refl k ys⟩
  | cons a l ihx =>
    intro ys
    induction ys with
    | nil =>
      intro hx _
      rw [merge_nil_right]
      simpa using ⟨hx, Stable.refl k (a :: l)⟩
    | cons b x ihy =>
      intro hx hy
      have hPa : P a := hx.head
      have hPb : P b := hy.head
      rw [merge_cons_cons]
      have hHba := H b a hPb hPa
      by_cases hlt : k b < k a
      · have hba : less b a = true := by rw [hHba]; exact decide_eq_true hlt
        rw [if_pos hba]
        obtain ⟨hr, hs⟩ := ihy hx hy.tail
        have hmem : ∀ c ∈ merge less (a :: l) x, c ∈ a :: l ∨ c ∈ x := by
          intro c hc
          exact List.mem_append.mp ((hs.1.mem_iff).mp hc)
        refine ⟨⟨?_, List.pairwise_cons.mpr ⟨?_, hr.2⟩⟩, ?_, ?_⟩
        · intro c hc
          rcases List.mem_cons.mp hc with rfl | hc
          · exact hPb
          · exact hr.1 c hc
        · intro c hc
          rcases hmem c hc with hc | hc
          · rcases List.mem_cons.mp hc with rfl | hc
            · omega
            · have := hx.head_le c hc
              omega
          · exact hy.head_le c hc
        · exact (List.Perm.cons b hs.1).trans (List.perm_middle.symm)
        · intro c
          rw [List.filter_cons, hs.2 c]
          by_cases hc : k b = c
          · have hnil : (a :: l).filter (fun y => decide (k y = c)) = [] := by
              rw [List.filter_eq_nil_iff]
              intro y hy'
              have hle : k a ≤ k y := by
                rcases List.mem_cons.mp hy' with rfl | hy'
                · omega
                · exact hx.head_le y hy'
              simp only [decide_eq_true_eq]
              omega
            simp only [hc, decide_True, if_true, List.filter_append, hnil, List.nil_append,
              List.filter_cons]
          · simp only [hc, decide_False, List.filter_append, List.filter_cons]
            simp
      · have hba : less b a = false := by rw [hHba]; exact decide_eq_false hlt
        rw [if_neg (by simp [hba])]
        obtain ⟨hr, hs⟩ := ihx (b :: x) hx.tail hy
        have hmem : ∀ c ∈ merge less l (b :: x), c ∈ l ∨ c ∈ b :: x := by
          intro c hc
          exact List.mem_append.mp ((hs.1.mem_iff).mp hc)
        refine ⟨⟨?_, List.pairwise_cons.mpr ⟨?_, hr.2⟩⟩, ?_, ?_⟩
        · intro c hc
          rcases List.mem_cons.mp hc with rfl | hc
          · exact hPa
          · exact hr.1 c hc
        · intro c hc
          rcases hmem c hc with hc | hc
          · exact hx.head_le c hc
          · rcases List.mem_cons.mp hc with rfl | hc
            · omega
            · have := hy.head_le c hc
              omega
        · exact List.Perm.cons a hs.1
        · intro c
          rw [List.cons_append, List.filter_cons, List.filter_cons, hs.2 c]

/-- Carrying a sorted run into sorted counter lists keeps them sorted and keeps the order
of equal keys. -/
theorem addCarry_spec (H : ∀ a b, P a → P b → less a b = decide (k a < k b))
    (tmp : List (List α)) :
    ∀ carry : List α, (∀ c ∈ tmp, Run k P c) → Run k P carry →
      (∀ c ∈ addCarry less carry tmp, Run k P c) ∧
      Stable k (flat (addCarry less carry tmp)) (flat tmp ++ carry) := by
  induction tmp with
  | nil =>
    intro carry _ hc
    refine ⟨?_, ?_⟩
    · intro c hmem
      simp only [addCarry, List.mem_singleton] at hmem
      subst hmem
      exact hc
    · simpa [addCarry, flat] using Stable.refl k carry
  | cons counter tmp ih =>
    intro carry hinv hc
    have hcounter : Run k P counter := hinv counter (List.mem_cons_self _ _)
    have htmp : ∀ c ∈ tmp, Run k P c := fun c hmem => hinv c (List.mem_cons_of_mem _ hmem)
    by_cases he : counter.isEmpty = true
    · have hnil : counter = [] := List.isEmpty_iff.mp he
      subst hnil
      refine ⟨?_, ?_⟩
      · intro c hmem
        simp only [addCarry, List.isEmpty_nil, if_true, List.mem_cons] at hmem
        rcases hmem with rfl | hmem
        · exact hc
        · exact htmp c hmem
      · simpa [addCarry, flat] using Stable.refl k (flat tmp ++ carry)
    · obtain ⟨hmr, hms⟩ := merge_spec less k P H counter carry hcounter hc
      obtain ⟨hinv1, hst1⟩ := ih (merge less counter carry) htmp hmr
      refine ⟨?_, ?_⟩
      · intro c hmem
        simp only [addCarry, he, if_false] at hmem
        rcases List.mem_cons.mp hmem with h | h
        · rw [h]
          exact Run.nil k P
        · exact hinv1 c h
      · have h2 := hst1.trans k (Stable.append_left k (flat tmp) hms)
        simpa [addCarry, he, flat, List.append_assoc] using h2

/-- The loop of `list::sort` keeps the counter lists sorted and keeps the order of equal
keys. -/
theorem fillCounters_spec (H : ∀ a b, P a → P b → less a b = decide (k a < k b))
    (l : List α) :
    ∀ tmp : List (List α), (∀ c ∈ tmp, Run k P c) → (∀ a ∈ l, P a) →
      (∀ c ∈ fillCounters less l tmp, Run k P c) ∧
      Stable k (flat (fillCounters less l tmp)) (flat tmp ++ l) := by
  induction l with
  | nil =>
    intro tmp hinv _
    exact ⟨hinv, by simpa [fillCounters] using Stable.refl k (flat tmp)⟩
  | cons a l ih =>
    intro tmp hinv hP
    have hPa : P a := hP a (List.mem_cons_self _ _)
    have hPl : ∀ b ∈ l, P b := fun b hb => hP b (List.mem_cons_of_mem _ hb)
    obtain ⟨hinv1, hst1⟩ := addCarry_spec less k P H tmp [a] hinv (Run.singleton k P hPa)
    obtain ⟨hinv2, hst2⟩ := ih (addCarry less [a] tmp) hinv1 hPl
    refine ⟨hinv2, ?_⟩
    have h3 := hst2.trans k (Stable.append_right k l hst1)
    simpa [fillCounters, List.append_assoc] using h3

/-- The closing loop of `list::sort` merges sorted counter lists into one sorted run and
keeps the order of equal keys. -/
theorem mergeCounters_spec (H : ∀ a b, P a → P b → less a b = decide (k a < k b))
    (tmp : List (List α)) :
    ∀ acc : List α, (∀ c ∈ tmp, Run k P c) → Run k P acc →
      Run k P (mergeCounters less acc tmp) ∧
      Stable k (mergeCounters less acc tmp) (flat tmp ++ acc) := by
  induction tmp with
  | nil =>
    intro acc _ hacc
    exact ⟨hacc, by simpa [mergeCounters, flat] using Stable.refl k acc⟩
  | cons counter tmp ih =>
    intro acc hinv hacc
    have hcounter : Run k P counter := hinv counter (List.mem_cons_self _ _)
    have htmp : ∀ c ∈ tmp, Run k P c := fun c hmem => hinv c (List.mem_cons_of_mem _ hmem)
    obtain ⟨hmr, hms⟩ := merge_spec less k P H counter acc hcounter hacc
    obtain ⟨hr, hst⟩ := ih (merge less counter acc) htmp hmr
    refine ⟨hr, ?_⟩
    have h2 := hst.trans k (Stable.append_left k (flat tmp) hms)
    simpa [mergeCounters, flat, List.append_assoc] using h2

/-- On a list whose elements all satisfy `P`, where `less` compares keys, `list::sort`
returns a sorted run that is a stable rearrangement of the list. -/
theorem sort_spec (H : ∀ a b, P a → P b → less a b = decide (k a < k b)) (l : List α)
    (hP : ∀ a ∈ l, P a) : Run k P (sort less l) ∧ Stable k (sort less l) l := by
  match l, hP with
  | [], _ => exact ⟨Run.nil k P, Stable.refl k []⟩
  | [a], hP => exact ⟨Run.singleton k P (hP a (List.mem_singleton_self a)), Stable.refl k [a]⟩
  | a :: b :: rest, hP =>
    obtain ⟨hinv, hst⟩ := fillCounters_spec less k P H (a :: b :: rest) []
      (by simp) hP
    cases hF : fillCounters less (a :: b :: rest) [] with
    | nil =>
      rw [hF] at hst
      have := hst.1.length_eq
      simp [flat] at this
    | cons tmp0 tmp =>
      rw [hF] at hinv hst
      have htmp0 : Run k P tmp0 := hinv tmp0 (List.mem_cons_self _ _)
      have htmp : ∀ c ∈ tmp, Run k P c := fun c hmem => hinv c (List.mem_cons_of_mem _ hmem)
      obtain ⟨hr, hs⟩ := mergeCounters_spec less k P H tmp tmp0 htmp htmp0
      simp only [sort, hF]
      refine ⟨hr, ?_⟩
      have h2 := hs.trans k hst
      simpa [flat] using h2

end Sorting

end StdList

namespace Chp14

theorem State.student?_lt {σ : State} {a : Addr} {s : Student} (h : σ.student? a = some s) :
    a < σ.objects.length :=
  State.lookup_lt (State.student?_eq_some.mp h)

theorem State.student?_update_same (σ : State) (a : Addr) (s : Student)
    (h : a < σ.objects.length) : (σ.update a (Object.student s)).student? a = some s := by
  rw [State.student?_eq_some, State.lookup_update_same _ _ _ h]

theorem State.student?_update_ne (σ : State) (a b : Addr) (o : Object) (h : a ≠ b) :
    (σ.update a o).student? b = σ.student? b := by
  simp only [State.student?, State.lookup_update_ne _ _ _ _ h]

theorem State.update_length (σ : State) (a : Addr) (o : Object) :
    (σ.update a o).objects.length = σ.objects.length := by
  simp [State.update]

/-- The copy constructor, where it is defined: the counter goes up by one and the new
object, at the next address, has the value of the source. -/
theorem Student.copy_some (σ : State) (s : Addr) (src : Student)
    (h : σ.student? s = some src) (hn : σ.numStudents < INT_MAX) :
    Student.copy σ s
      = some ({ numStudents := σ.numStudents + 1,
                objects := σ.objects ++ [some (Object.student src)] }, σ.objects.length) := by
  have hinc : intIncr σ.numStudents = some (σ.numStudents + 1) := by simp [intIncr, hn]
  simp only [Student.copy, h, hinc]
  rfl

theorem State.student?_append_old (n : Int) (l : List (Option Object)) (o : Option Object)
    (a : Addr) (h : a < l.length) :
    State.student? { numStudents := n, objects := l ++ [o] } a
      = State.student? { numStudents := n, objects := l } a := by
  simp [State.student?, State.lookup, List.getElem?_append_left h]

theorem State.student?_append_new (n : Int) (l : List (Option Object)) (s : Student) :
    State.student? { numStudents := n, objects := l ++ [some (Object.student s)] } l.length
      = some s := by
  simp [State.student?, State.lookup]

theorem State.student?_counter (n m : Int) (l : List (Option Object)) (a : Addr) :
    State.student? { numStudents := n, objects := l } a
      = State.student? { numStudents := m, objects := l } a := rfl

end Chp14

namespace Chp6

theorem State.student?_lt6 {σ : State} {a : Addr} {s : Student} (h : σ.student? a = some s) :
    a < σ.objects.length := by
  unfold State.student? at h
  cases hq : σ.objects[a]? with
  | none => simp [hq] at h
  | some x => exact (List.getElem?_eq_some.mp hq).1

theorem State.student?_update_same6 (σ : State) (a : Addr) (s : Student)
    (h : a < σ.objects.length) : (σ.update a s).student? a = some s := by
  simp [State.student?, State.update, List.getElem?_set_self h]

theorem State.student?_update_ne6 (σ : State) (a b : Addr) (s : Student) (h : a ≠ b) :
    (σ.update a s).student? b = σ.student? b := by
  simp [State.student?, State.update, List.getElem?_set_ne h]

theorem State.update_update6 (σ : State) (a : Addr) (s1 s2 : Student) :
    (σ.update a s1).update a s2 = σ.update a s2 := by
  simp [State.update, List.set_set]

end Chp6

namespace Chp5

theorem State.student?_lt5 {σ : State} {a : Addr} {s : Student} (h : σ.student? a = some s) :
    a < σ.objects.length := by
  unfold State.student? at h
  cases hq : σ.objects[a]? with
  | none => simp [hq] at h
  | some x => exact (List.getElem?_eq_some.mp hq).1

theorem State.student?_update_same5 (σ : State) (a : Addr) (s : Student)
    (h : a < σ.objects.length) : (σ.update a s).student? a = some s := by
  simp [State.student?, State.update, List.getElem?_set_self h]

theorem State.student?_update_ne5 (σ : State) (a b : Addr) (s : Student) (h : a ≠ b) :
    (σ.update a s).student? b = σ.student? b := by
  simp [State.student?, State.update, List.getElem?_set_ne h]

theorem State.update_update5 (σ : State) (a : Addr) (s1 s2 : Student) :
    (σ.update a s1).update a s2 = σ.update a s2 := by
  simp [State.update, List.set_set]

end Chp5

namespace Chp11

/-- The call of `Graduate` leaves the object as it was. -/
theorem Student.Graduate_fst (s : Student) : s.Graduate.1 = s := by
  unfold Student.Graduate
  split <;> rfl

end Chp11

namespace Chp14

/-- What an assignment that is defined leaves in the target: the value of the source. -/
theorem Student.assign_target (σ σ1 : State) (a b r : Addr) (sa sb : Student)
    (ha : σ.student? a = some sa) (hb : σ.student? b = some sb)
    (h : Student.assign σ a b = some (σ1, r)) : σ1.student? a = some sb := by
  by_cases hab : a = b
  · subst hab
    rw [Student.assign_self σ a sa ha] at h
    have h1 : σ = σ1 := congrArg Prod.fst (Option.some.inj h)
    rw [← h1, ← hb]
  · rw [Student.assign_ne σ a b sa sb ha hb hab] at h
    have h1 : σ.update a (Object.student sb) = σ1 := congrArg Prod.fst (Option.some.inj h)
    rw [← h1]
    exact State.student?_update_same σ a sb (State.student?_lt ha)

/-- What an assignment with `Person::operator=` that is defined leaves in a target that is
a `Student`: the `Person` part of the source, and the target's own `Student` members. -/
theorem Person.assign_student_target (σ σ1 : State) (a p r : Addr) (sa : Student)
    (q : Person) (ha : σ.student? a = some sa) (hp : σ.person? p = some q)
    (h : Person.assign σ a p = some (σ1, r)) :
    σ1.student? a = some { sa with toPerson := q } := by
  have hla := State.student?_eq_some.mp ha
  unfold State.person? at hp
  cases hlp : σ.lookup p with
  | none => simp [hlp] at hp
  | some src =>
    simp only [hlp, Option.some.injEq] at hp
    by_cases hap : a = p
    · subst hap
      rw [hla] at hlp
      have hsrc : src = Object.student sa := (Option.some.inj hlp).symm
      subst hsrc
      simp only [Person.assign, hla, ne_eq, not_true_eq_false, if_false, Option.some.injEq,
        Prod.mk.injEq] at h
      rw [← h.1, ha, ← hp]
      rfl
    · simp only [Person.assign, hla, hlp, ne_eq, hap, not_false_eq_true, if_true,
        Option.some.injEq, Prod.mk.injEq] at h
      rw [← h.1, State.student?_eq_some, State.lookup_update_same _ _ _ (State.student?_lt ha),
        ← hp]
      rfl

/-- A copy construction that is defined leaves every live `Student` as it was. -/
theorem Student.copy_frame (σ σ1 : State) (s t a : Addr) (v : Student)
    (ha : σ.student? a = some v) (h : Student.copy σ s = some (σ1, t)) :
    σ1.student? a = some v := by
  unfold Student.copy at h
  cases hs : σ.student? s with
  | none => simp [hs] at h
  | some src =>
    cases hn : intIncr σ.numStudents with
    | none => simp [hs, hn] at h
    | some n =>
      simp only [hs, hn, Option.some.injEq] at h
      have h1 := congrArg Prod.fst h
      simp only [State.alloc] at h1
      rw [← h1, State.student?_append_old _ _ _ _ (State.student?_lt ha)]
      exact ha

end Chp14

namespace Float32

set_option maxRecDepth 8000 in
/-- The constants outside the range from 0.0 to 4.0 denote -1 and 7.5. -/
theorem literal_values_outside :
    negOne.units = some (-(2 ^ 149)) ∧ four.units = some (4 * 2 ^ 149) ∧
    f7_5.units = some (15 * 2 ^ 148) ∧
    negOne.lt zero = true ∧ four.lt f7_5 = true := by
  refine ⟨by decide, by decide, by decide, by decide, by decide⟩

end Float32

/-- The text "None" is neither empty nor a decimal number followed by "Id". -/
theorem none_not_generated :
    "None" ≠ "" ∧ ∀ k : Int, "None" ≠ Chp6.to_string k ++ "Id" := by
  refine ⟨by decide, ?_⟩
  intro k h
  have h1 := congrArg String.data h
  have h2 := congrArg List.getLast? h1
  simp at h2

namespace Chp14

theorem contents_congr (σ σ1 : State) (l : StudentList)
    (h : ∀ a ∈ l, σ1.student? a = σ.student? a) : contents σ1 l = contents σ l := by
  induction l with
  | nil => rfl
  | cons a l ih =>
    have ha := h a (List.mem_cons_self a l)
    have hl := ih fun b hb => h b (List.mem_cons_of_mem a hb)
    simp only [contents, ha, hl]

theorem contents_append (σ : State) (l : StudentList) (t : Addr) (x : Student) :
    ∀ vs : List Student, contents σ l = some vs → σ.student? t = some x →
      contents σ (l ++ [t]) = some (vs ++ [x]) := by
  induction l with
  | nil =>
    intro vs hl ht
    simp only [contents, Option.some.injEq] at hl
    subst hl
    simp [contents, ht]
  | cons a l ih =>
    intro vs hl ht
    simp only [contents] at hl
    cases ha : σ.student? a with
    | none => simp [ha] at hl
    | some v =>
      cases hc : contents σ l with
      | none => simp [ha, hc] at hl
      | some ws =>
        simp only [ha, hc, Option.some.injEq] at hl
        subst hl
        simp [contents, ha, ih ws hc ht]

theorem contents_lt (σ : State) (l : StudentList) :
    ∀ vs : List Student, contents σ l = some vs → ∀ a ∈ l, a < σ.objects.length := by
  induction l with
  | nil =>
    intro vs _ a ha
    simp at ha
  | cons b l ih =>
    intro vs hl a ha
    simp only [contents] at hl
    cases hb : σ.student? b with
    | none => simp [hb] at hl
    | some v =>
      cases hc : contents σ l with
      | none => simp [hb, hc] at hl
      | some ws =>
        rcases List.mem_cons.mp ha with rfl | ha
        · exact State.student?_lt hb
        · exact ih ws hc a ha

/-- A change of the object at an address that the list does not hold leaves the elements
of the list as they were. -/
theorem contents_update (σ : State) (l : StudentList) (t : Addr) (o : Object)
    (h : ∀ a ∈ l, a ≠ t) : contents (σ.update t o) l = contents σ l :=
  contents_congr σ (σ.update t o) l fun a ha =>
    State.student?_update_ne σ t a o (Ne.symm (h a ha))

end Chp14

namespace Float32

/-- Values that are equal under `==` compare alike with every third value. -/
theorem lt_congr_of_eq {a b : Float32} (c : Float32) (h : a.eq b = true) :
    a.lt c = b.lt c := by
  obtain ⟨ha, hb, hk⟩ := (eq_iff a b).mp h
  simp [lt, ha, hb, hk]

end Float32

namespace Chp14

/-- The member `push_back`, where its argument is a live `Student` and the counter can be
incremented: the copy goes to the next address and the counter goes up by one. -/
theorem push_back_some (σ : State) (l : StudentList) (s : Addr) (src : Student)
    (h : σ.student? s = some src) (hn : σ.numStudents < INT_MAX) :
    push_back σ l s
      = some ({ numStudents := σ.numStudents + 1,
                objects := σ.objects ++ [some (Object.student src)] },
              l ++ [σ.objects.length]) := by
  simp only [push_back, Student.copy_some σ s src h hn]

/-- The statement `push_back(Student(...))`, where the counter can be incremented twice:
the counter ends one higher, the temporary is gone and its copy is in the list. -/
theorem push_back_temporary_some (σ : State) (l : StudentList) (fn ln : String) (mi : Char)
    (t : String) (avg : Float32) (course id : String)
    (hlo : INT_MIN < σ.numStudents + 2) (hhi : σ.numStudents + 1 < INT_MAX) :
    push_back_temporary σ l fn ln mi t avg course id
      = some ({ numStudents := σ.numStudents + 1,
                objects := (σ.objects ++ [some (Object.student
                  { firstName := fn, lastName := ln, middleInitial := mi, title := t,
                    gpa := avg, currentCourse := course, studentId := id })]
                  ++ [some (Object.student
                  { firstName := fn, lastName := ln, middleInitial := mi, title := t,
                    gpa := avg, currentCourse := course, studentId := id })]).set
                  σ.objects.length none },
              l ++ [σ.objects.length + 1]) := by
  have hn : σ.numStudents < INT_MAX := by
    unfold INT_MAX at hhi ⊢
    omega
  have hinc : intIncr σ.numStudents = some (σ.numStudents + 1) := by simp [intIncr, hn]
  have hnew : Student.new σ fn ln mi t avg course id
      = some ({ numStudents := σ.numStudents + 1,
                objects := σ.objects ++ [some (Object.student
                  { firstName := fn, lastName := ln, middleInitial := mi, title := t,
                    gpa := avg, currentCourse := course, studentId := id })] },
              σ.objects.length) := by
    simp only [Student.new, hinc]
    rfl
  have hpush := push_back_some
    { numStudents := σ.numStudents + 1,
      objects := σ.objects ++ [some (Object.student
        { firstName := fn, lastName := ln, middleInitial := mi, title := t,
          gpa := avg, currentCourse := course, studentId := id })] }
    l σ.objects.length _ (State.student?_append_new _ _ _) hhi
  have hlive : State.student?
      { numStudents := σ.numStudents + 1 + 1,
        objects := σ.objects ++ [some (Object.student
          { firstName := fn, lastName := ln, middleInitial := mi, title := t,
            gpa := avg, currentCourse := course, studentId := id })]
          ++ [some (Object.student
          { firstName := fn, lastName := ln, middleInitial := mi, title := t,
            gpa := avg, currentCourse := course, studentId := id })] } σ.objects.length
      = some { firstName := fn, lastName := ln, middleInitial := mi, title := t,
               gpa := avg, currentCourse := course, studentId := id } := by
    rw [State.student?_append_old _ _ _ _ (by simp)]
    exact State.student?_append_new _ _ _
  have hdec : intDecr (σ.numStudents + 1 + 1) = some (σ.numStudents + 1) := by
    have : INT_MIN < σ.numStudents + 1 + 1 := by omega
    simp [intDecr, this]
  simp only [push_back_temporary, hnew, hpush, List.length_append, List.length_singleton,
    Student.destroy, hlive, hdec, State.release]

end Chp14

/-! ## C1: the counter invariant -/

/-- C1. Counter invariant.  In the Chp14 program and in the Chp6 program alike: every
constructor of `Student` adds exactly 1 to `numStudents` and the destructor subtracts
exactly 1; starting from `numStudents = 0`, for every well-formed sequence of
constructions (default, parameterized, copy) and destructions of live Students, the value
`GetNumberStudents()` returns after each step is the number of constructions so far minus
the number of destructions so far, and it is never negative.  The Chp6 driver, whatever
the stream prints for the gpa, reports a total of 1. -/
theorem counter_invariant :
    (∀ (σ σ1 : Chp14.State) (op : Chp14.Op), Chp14.step σ op = some σ1 →
        Chp14.Student.GetNumberStudents σ1
          = Chp14.Student.GetNumberStudents σ + (if op.isConstruction then 1 else -1)) ∧
    (∀ (ops : List Chp14.Op) (obs : List Int),
        Chp14.observe Chp14.State.init ops = some obs →
        obs.length = ops.length ∧
        ∀ (k : Nat) (v : Int), obs[k]? = some v →
          v = (Chp14.constructions (ops.take (k + 1)) : Int)
                - Chp14.destructions (ops.take (k + 1))
          ∧ 0 ≤ v) ∧
    (∀ (σ σ1 : Chp6.State) (op : Chp6.Op), Chp6.step σ op = some σ1 →
        Chp6.Student.GetNumberStudents σ1
          = Chp6.Student.GetNumberStudents σ + (if op.isConstruction then 1 else -1)) ∧
    (∀ (ops : List Chp6.Op) (obs : List Int),
        Chp6.observe Chp6.State.init ops = some obs →
        obs.length = ops.length ∧
        ∀ (k : Nat) (v : Int), obs[k]? = some v →
          v = (Chp6.constructions (ops.take (k + 1)) : Int)
                - Chp6.destructions (ops.take (k + 1))
          ∧ 0 ≤ v) ∧
    (∀ showFloat : Nat → Float32 → String,
        (Chp6.main showFloat).map (fun r => r.reported) = some 1) := by
  refine ⟨fun σ σ1 op h => (Chp14.step_counter σ σ1 op h).1, ?_,
    fun σ σ1 op h => (Chp6.step_counter6 σ σ1 op h).1, ?_, fun _ => rfl⟩
  · intro ops obs h
    have := Chp14.observe_counter ops Chp14.State.init obs rfl h
    simpa [Chp14.State.init] using this
  · intro ops obs h
    have := Chp6.observe_counter6 ops Chp6.State.init obs rfl h
    simpa [Chp6.State.init] using this

/-- Witness for C1: the events of the Chp14 driver give the counts 1, 2, 3, 4, 3, 4, 5, 4,
5, 6, 5, and the single construction of the Chp6 driver gives the count 1; a default
construction from the initial state adds 1 in both programs. -/
theorem counter_invariant_witness :
    (∃ σ1 : Chp14.State, Chp14.step Chp14.State.init Chp14.Op.default = some σ1 ∧
      Chp14.Student.GetNumberStudents σ1
        = Chp14.Student.GetNumberStudents Chp14.State.init
          + (if Chp14.Op.default.isConstruction then 1 else -1)) ∧
    (Chp14.observe Chp14.State.init Chp14.mainEvents = some [1, 2, 3, 4, 3, 4, 5, 4, 5, 6, 5]
      ∧ ([1, 2, 3, 4, 3, 4, 5, 4, 5, 6, 5] : List Int).length = Chp14.mainEvents.length
      ∧ ∀ (k : Nat) (v : Int), ([1, 2, 3, 4, 3, 4, 5, 4, 5, 6, 5] : List Int)[k]? = some v →
          v = (Chp14.constructions (Chp14.mainEvents.take (k + 1)) : Int)
                - Chp14.destructions (Chp14.mainEvents.take (k + 1))
          ∧ 0 ≤ v) ∧
    (∃ σ1 : Chp6.State, Chp6.step Chp6.State.init Chp6.Op.default = some σ1 ∧
      Chp6.Student.GetNumberStudents σ1
        = Chp6.Student.GetNumberStudents Chp6.State.init
          + (if Chp6.Op.default.isConstruction then 1 else -1)) ∧
    (Chp6.observe Chp6.State.init Chp6.mainEvents = some [1]
      ∧ ([1] : List Int).length = Chp6.mainEvents.length
      ∧ ∀ (k : Nat) (v : Int), ([1] : List Int)[k]? = some v →
          v = (Chp6.constructions (Chp6.mainEvents.take (k + 1)) : Int)
                - Chp6.destructions (Chp6.mainEvents.take (k + 1))
          ∧ 0 ≤ v) :=
  ⟨⟨_, rfl, counter_invariant.1 Chp14.State.init _ Chp14.Op.default rfl⟩,
   ⟨by decide, counter_invariant.2.1 Chp14.mainEvents _ (by decide)⟩,
   ⟨_, rfl, counter_invariant.2.2.1 Chp6.State.init _ Chp6.Op.default rfl⟩,
   ⟨by decide, counter_invariant.2.2.2.1 Chp6.mainEvents _ (by decide)⟩⟩

/-! ## C2, C3, C4: the failure `Graduate` raises -/

/-- C2. For every Student whose gpa is less than 2.0, `Graduate` throws the `float` that is
exactly the gpa of that student (the kind LowGpa with the offending gpa as payload), and
whatever it throws is that value. -/
theorem graduate_low_gpa (s : Chp11.Student) (h : s.GetGpa.lt Float32.two = true) :
    s.Graduate.2 = Except.error (Chp11.Thrown.float s.GetGpa) ∧
    ∀ e : Chp11.Thrown, s.Graduate.2 = Except.error e → e = Chp11.Thrown.float s.GetGpa := by
  have hg : s.Graduate.2 = Except.error (Chp11.Thrown.float s.GetGpa) := by
    simp only [Chp11.Student.GetGpa] at h
    simp [Chp11.Student.Graduate, Chp11.Student.GetGpa, h]
  refine ⟨hg, ?_⟩
  intro e he
  rw [hg] at he
  exact (Except.error.inj he).symm

/-- Witness for C2: the student with gpa 1.5 gets `LowGpa(1.5)`. -/
theorem graduate_low_gpa_witness :
    Float32.lt (Chp11.sampleWithGpa Float32.f1_5).GetGpa Float32.two = true ∧
    (Chp11.sampleWithGpa Float32.f1_5).Graduate.2
      = Except.error (Chp11.Thrown.float Float32.f1_5) :=
  ⟨by decide, (graduate_low_gpa (Chp11.sampleWithGpa Float32.f1_5) (by decide)).1⟩

/-- C3. For every Student whose gpa is not less than 2.0, `Graduate` reaches the last
statement and throws a `StudentException` whose `GetNum()` is 5. -/
theorem graduate_fallback (s : Chp11.Student) (h : s.GetGpa.lt Float32.two = false) :
    ∃ e : Chp11.StudentException,
      s.Graduate.2 = Except.error (Chp11.Thrown.studentException e) ∧ e.GetNum = 5 := by
  refine ⟨{ number := 5 }, ?_, rfl⟩
  simp only [Chp11.Student.GetGpa] at h
  simp [Chp11.Student.Graduate, h]

/-- Witness for C3: the gpa of exactly 2.0 and the student of `main` with gpa 3.1. -/
theorem graduate_fallback_witness :
    (Float32.lt (Chp11.sampleWithGpa Float32.two).GetGpa Float32.two = false ∧
      ∃ e : Chp11.StudentException,
        (Chp11.sampleWithGpa Float32.two).Graduate.2
          = Except.error (Chp11.Thrown.studentException e) ∧ e.GetNum = 5) ∧
    (Float32.lt Chp11.main_s1.GetGpa Float32.two = false ∧
      ∃ e : Chp11.StudentException,
        Chp11.main_s1.Graduate.2
          = Except.error (Chp11.Thrown.studentException e) ∧ e.GetNum = 5) :=
  ⟨⟨by decide, graduate_fallback (Chp11.sampleWithGpa Float32.two) (by decide)⟩,
   ⟨by decide, graduate_fallback Chp11.main_s1 (by decide)⟩⟩

/-- C4. For every Student one call of `Graduate` ends in exactly one way: it throws the
gpa as a `float` (LowGpa) or it throws `StudentException(5)` (StudentFault), the second
whenever the gpa check did not fire.  It never returns normally, and it throws no `int`
(MissingCredits), no `Course` (MissingCourse) and no `const char *` (GenericMessage). -/
theorem graduate_kinds (s : Chp11.Student) :
    (s.Graduate.2 = Except.error (Chp11.Thrown.float s.GetGpa) ∨
      s.Graduate.2 = Except.error (Chp11.Thrown.studentException { number := 5 })) ∧
    (s.Graduate.2 ≠ Except.error (Chp11.Thrown.float s.GetGpa) ↔
      s.Graduate.2 = Except.error (Chp11.Thrown.studentException { number := 5 })) ∧
    (s.GetGpa.lt Float32.two = false ↔
      s.Graduate.2 = Except.error (Chp11.Thrown.studentException { number := 5 })) ∧
    s.Graduate.2 ≠ Except.ok () ∧
    (∀ n : Int, s.Graduate.2 ≠ Except.error (Chp11.Thrown.int n)) ∧
    (∀ (title : String) (number : Int),
      s.Graduate.2 ≠ Except.error (Chp11.Thrown.course title number)) ∧
    (∀ msg : String, s.Graduate.2 ≠ Except.error (Chp11.Thrown.cstring msg)) := by
  cases h : s.gpa.lt Float32.two <;>
    simp [Chp11.Student.Graduate, Chp11.Student.GetGpa, h]

/-! ## C5: virtual dispatch of `IsA` -/

/-- C5. Polymorphic dispatch, in the Chp11 and in the Chp14 program: `IsA()` called through
a `Person` handle that holds a `Student` writes "Student" (and not "Person"), exactly as
through a `Student` handle; called on a true `Person` it writes "Person".  The text depends
on the object the handle refers to only. -/
theorem isA_dispatch :
    (∀ s : Chp11.Student,
      (Chp11.Handle.personRef (Chp11.Object.student s)).IsA = "Student" ++ endl ∧
      (Chp11.Handle.personRef (Chp11.Object.student s)).IsA ≠ "Person" ++ endl ∧
      (Chp11.Handle.personRef (Chp11.Object.student s)).IsA
        = (Chp11.Handle.studentRef s).IsA) ∧
    (∀ p : Chp11.Person,
      (Chp11.Handle.personRef (Chp11.Object.person p)).IsA = "Person" ++ endl) ∧
    (∀ h : Chp11.Handle, h.IsA = h.target.IsA) ∧
    (∀ s : Chp14.Student,
      (Chp14.Handle.personRef (Chp14.Object.student s)).IsA = "Student" ++ endl ∧
      (Chp14.Handle.personRef (Chp14.Object.student s)).IsA ≠ "Person" ++ endl ∧
      (Chp14.Handle.personRef (Chp14.Object.student s)).IsA
        = (Chp14.Handle.studentRef s).IsA) ∧
    (∀ p : Chp14.Person,
      (Chp14.Handle.personRef (Chp14.Object.person p)).IsA = "Person" ++ endl) ∧
    (∀ h : Chp14.Handle, h.IsA = h.target.IsA) := by
  have hne : "Student" ++ endl ≠ "Person" ++ endl := by decide
  exact ⟨fun _ => ⟨rfl, hne, rfl⟩, fun _ => rfl, fun _ => rfl,
    fun _ => ⟨rfl, hne, rfl⟩, fun _ => rfl, fun _ => rfl⟩

/-! ## C6: `studentBody.sort()` -/

/-- C6 as stated fails: on the list with gpas 1.0, 3.0, NaN, 2.0 the call of `sort` leaves
the list as it is, with the Student of gpa 3.0 ahead of the Student of gpa 2.0, although
2.0 < 3.0; the result is not in non-decreasing order. -/
theorem sort_nan_unsorted :
    StdList.sort Chp14.operatorLt Chp14.nanBody = Chp14.nanBody ∧
    (StdList.sort Chp14.operatorLt Chp14.nanBody)[1]? = some (Chp14.sampleWithGpa Float32.three) ∧
    (StdList.sort Chp14.operatorLt Chp14.nanBody)[3]? = some (Chp14.sampleWithGpa Float32.two) ∧
    Chp14.operatorLt (Chp14.sampleWithGpa Float32.two) (Chp14.sampleWithGpa Float32.three)
      = true ∧
    ¬ (StdList.sort Chp14.operatorLt Chp14.nanBody).Pairwise
        (fun a b => Chp14.operatorLt b a = false) := by
  decide

/-- C6, amended. Stable ordering: for every list of Students none of whose gpas is NaN,
`sort()` with `operator<` yields a permutation of the list in which the gpas are in
non-decreasing order (`<=` holds from every element to every later one) and in which, for
every gpa value, the Students with a gpa equal (`==`) to it come in their original order. -/
theorem sort_stable (l : List Chp14.Student) (h : ∀ s ∈ l, s.GetGpa.isNaN = false) :
    (StdList.sort Chp14.operatorLt l).Perm l ∧
    (StdList.sort Chp14.operatorLt l).Pairwise (fun a b => a.GetGpa.le b.GetGpa = true) ∧
    ∀ g : Float32,
      (StdList.sort Chp14.operatorLt l).filter (fun s => s.GetGpa.eq g)
        = l.filter (fun s => s.GetGpa.eq g) := by
  have H : ∀ a b : Chp14.Student, a.GetGpa.isNaN = false → b.GetGpa.isNaN = false →
      Chp14.operatorLt a b = decide (a.GetGpa.key < b.GetGpa.key) := by
    intro a b ha hb
    simp [Chp14.operatorLt, Float32.lt, ha, hb]
  obtain ⟨hrun, hperm, hfilter⟩ := StdList.sort_spec Chp14.operatorLt
    (fun s : Chp14.Student => s.GetGpa.key) (fun s => s.GetGpa.isNaN = false) H l h
  refine ⟨hperm, ?_, ?_⟩
  · refine List.Pairwise.imp_of_mem ?_ hrun.2
    intro a b ha hb hab
    exact (Float32.le_iff _ _).mpr ⟨hrun.1 a ha, hrun.1 b hb, hab⟩
  · intro g
    by_cases hg : g.isNaN = true
    · have hnil : ∀ m : List Chp14.Student, m.filter (fun s => s.GetGpa.eq g) = [] := by
        intro m
        rw [List.filter_eq_nil_iff]
        intro s _
        simp [Float32.eq, hg]
      rw [hnil, hnil]
    · have hg1 : g.isNaN = false := by simpa using hg
      have hcongr : ∀ m : List Chp14.Student, (∀ s ∈ m, s.GetGpa.isNaN = false) →
          m.filter (fun s => s.GetGpa.eq g)
            = m.filter (fun s => decide (s.GetGpa.key = g.key)) := by
        intro m hm
        apply List.filter_congr
        intro s hs
        simp [Float32.eq, hm s hs, hg1]
      rw [hcongr _ hrun.1, hcongr _ h]
      exact hfilter g.key

/-- Witness for C6: the four Students of the driver, inserted with gpas 3.8 (Jul, 117PSU),
3.8 (Hana, 178PSU), 3.9 (Sara), 3.4 (Giselle), come out as Giselle, Jul, Hana, Sara. -/
theorem sort_stable_witness :
    (∀ s ∈ Chp14.main_studentBody, s.GetGpa.isNaN = false) ∧
    StdList.sort Chp14.operatorLt Chp14.main_studentBody
      = [Chp14.main_giselle, Chp14.main_s1, Chp14.main_hana, Chp14.main_sara] ∧
    ((StdList.sort Chp14.operatorLt Chp14.main_studentBody).Perm Chp14.main_studentBody ∧
      (StdList.sort Chp14.operatorLt Chp14.main_studentBody).Pairwise
        (fun a b => a.GetGpa.le b.GetGpa = true) ∧
      ∀ g : Float32,
        (StdList.sort Chp14.operatorLt Chp14.main_studentBody).filter (fun s => s.GetGpa.eq g)
          = Chp14.main_studentBody.filter (fun s => s.GetGpa.eq g)) :=
  ⟨by decide, by decide, sort_stable Chp14.main_studentBody (by decide)⟩

/-! ## C7: the ordering relation -/

/-- C7 as stated fails: a Student whose gpa is NaN and a Student whose gpa is 3.8 have
different gpas, and neither is less than the other. -/
theorem operatorLt_not_total :
    (Chp14.sampleWithGpa Float32.nan).GetGpa ≠ (Chp14.sampleWithGpa Float32.f3_8).GetGpa ∧
    Chp14.operatorLt (Chp14.sampleWithGpa Float32.nan) (Chp14.sampleWithGpa Float32.f3_8)
      = false ∧
    Chp14.operatorLt (Chp14.sampleWithGpa Float32.f3_8) (Chp14.sampleWithGpa Float32.nan)
      = false := by
  decide

/-- C7, amended. `operator<(s1, s2)` is `s1.GetGpa() < s2.GetGpa()` on `float` and depends
on no other field; it is irreflexive and transitive; for two Students whose gpas are not NaN
and not equal (`==`) exactly one of `s1 < s2` and `s2 < s1` holds; for two Students with
equal gpas (the same value, or `==`) neither holds. -/
theorem operatorLt_order :
    (∀ s1 s2 : Chp14.Student, Chp14.operatorLt s1 s2 = s1.GetGpa.lt s2.GetGpa) ∧
    (∀ s1 s2 t1 t2 : Chp14.Student, s1.GetGpa = t1.GetGpa → s2.GetGpa = t2.GetGpa →
      Chp14.operatorLt s1 s2 = Chp14.operatorLt t1 t2) ∧
    (∀ s : Chp14.Student, Chp14.operatorLt s s = false) ∧
    (∀ a b c : Chp14.Student, Chp14.operatorLt a b = true → Chp14.operatorLt b c = true →
      Chp14.operatorLt a c = true) ∧
    (∀ a b : Chp14.Student, a.GetGpa.isNaN = false → b.GetGpa.isNaN = false →
      a.GetGpa.eq b.GetGpa = false →
      (Chp14.operatorLt a b = true ∧ Chp14.operatorLt b a = false) ∨
      (Chp14.operatorLt a b = false ∧ Chp14.operatorLt b a = true)) ∧
    (∀ a b : Chp14.Student, a.GetGpa = b.GetGpa →
      Chp14.operatorLt a b = false ∧ Chp14.operatorLt b a = false) ∧
    (∀ a b : Chp14.Student, a.GetGpa.eq b.GetGpa = true →
      Chp14.operatorLt a b = false ∧ Chp14.operatorLt b a = false) := by
  refine ⟨fun _ _ => rfl, ?_, fun s => Float32.lt_irrefl _, fun a b c => Float32.lt_trans,
    ?_, ?_, ?_⟩
  · intro s1 s2 t1 t2 h1 h2
    simp only [Chp14.operatorLt, h1, h2]
  · intro a b ha hb hne
    simp only [Chp14.operatorLt]
    have hk : a.GetGpa.key ≠ b.GetGpa.key := by
      intro hk
      have : a.GetGpa.eq b.GetGpa = true := (Float32.eq_iff _ _).mpr ⟨ha, hb, hk⟩
      rw [this] at hne
      exact Bool.noConfusion hne
    rcases Int.lt_or_gt_of_ne hk with hlt | hgt
    · left
      refine ⟨(Float32.lt_iff _ _).mpr ⟨ha, hb, hlt⟩, ?_⟩
      simp only [Float32.lt, Bool.and_eq_false_imp, Bool.and_eq_true, Bool.not_eq_true',
        decide_eq_false_iff_not]
      intro _
      omega
    · right
      refine ⟨?_, (Float32.lt_iff _ _).mpr ⟨hb, ha, hgt⟩⟩
      simp only [Float32.lt, Bool.and_eq_false_imp, Bool.and_eq_true, Bool.not_eq_true',
        decide_eq_false_iff_not]
      intro _
      omega
  · intro a b h
    simp only [Chp14.operatorLt, h, Float32.lt_irrefl, and_self]
  · intro a b h
    obtain ⟨_, _, hk⟩ := (Float32.eq_iff _ _).mp h
    simp [Chp14.operatorLt, Float32.lt, hk]

/-- Witness for C7: Giselle (3.4), Jul (3.8), Hana (3.8) and Sara (3.9) of the driver. -/
theorem operatorLt_order_witness :
    (Chp14.main_s1.GetGpa = Chp14.main_hana.GetGpa ∧
      Chp14.main_sara.GetGpa = (Chp14.sampleWithGpa Float32.f3_9).GetGpa ∧
      Chp14.operatorLt Chp14.main_s1 Chp14.main_sara
        = Chp14.operatorLt Chp14.main_hana (Chp14.sampleWithGpa Float32.f3_9)) ∧
    (Chp14.operatorLt Chp14.main_giselle Chp14.main_s1 = true ∧
      Chp14.operatorLt Chp14.main_s1 Chp14.main_sara = true ∧
      Chp14.operatorLt Chp14.main_giselle Chp14.main_sara = true) ∧
    (Chp14.main_giselle.GetGpa.isNaN = false ∧ Chp14.main_s1.GetGpa.isNaN = false ∧
      Chp14.main_giselle.GetGpa.eq Chp14.main_s1.GetGpa = false ∧
      ((Chp14.operatorLt Chp14.main_giselle Chp14.main_s1 = true ∧
          Chp14.operatorLt Chp14.main_s1 Chp14.main_giselle = false) ∨
        (Chp14.operatorLt Chp14.main_giselle Chp14.main_s1 = false ∧
          Chp14.operatorLt Chp14.main_s1 Chp14.main_giselle = true))) ∧
    (Chp14.operatorLt Chp14.main_s1 Chp14.main_hana = false ∧
      Chp14.operatorLt Chp14.main_hana Chp14.main_s1 = false) ∧
    (Chp14.main_s1.GetGpa.eq Chp14.main_hana.GetGpa = true ∧
      Chp14.operatorLt Chp14.main_s1 Chp14.main_hana = false ∧
      Chp14.operatorLt Chp14.main_hana Chp14.main_s1 = false) :=
  ⟨⟨by decide, by decide,
      operatorLt_order.2.1 Chp14.main_s1 Chp14.main_sara Chp14.main_hana
        (Chp14.sampleWithGpa Float32.f3_9) (by decide) (by decide)⟩,
   ⟨by decide, by decide,
      operatorLt_order.2.2.2.1 Chp14.main_giselle Chp14.main_s1 Chp14.main_sara
        (by decide) (by decide)⟩,
   ⟨by decide, by decide, by decide,
      operatorLt_order.2.2.2.2.1 Chp14.main_giselle Chp14.main_s1
        (by decide) (by decide) (by decide)⟩,
   operatorLt_order.2.2.2.2.2.1 Chp14.main_s1 Chp14.main_hana (by decide),
   ⟨by decide, operatorLt_order.2.2.2.2.2.2 Chp14.main_s1 Chp14.main_hana (by decide)⟩⟩

/-! ## C8, C9: the assignment operators -/

/-- C8. Self-assignment: for every live Student `s` at an address, `s = s` returns a
reference to the same object and leaves the whole program state, hence every field of `s`
(first name, last name, middle initial, title, gpa, current course, student id), as it
was; the same holds for `p = p` on every `Person`. -/
theorem self_assignment :
    (∀ (σ : Chp14.State) (a : Chp14.Addr) (s : Chp14.Student), σ.student? a = some s →
      Chp14.Student.assign σ a a = some (σ, a)) ∧
    (∀ (σ : Chp14.State) (a : Chp14.Addr) (p : Chp14.Person), σ.person? a = some p →
      Chp14.Person.assign σ a a = some (σ, a)) :=
  ⟨Chp14.Student.assign_self, Chp14.Person.assign_same⟩

/-- Witness for C8: `s1 = s1` on the student at address 0 and `p = p` on the person at
address 2 of the sample state. -/
theorem self_assignment_witness :
    (Chp14.sampleState.student? 0 = some Chp14.main_s1 ∧
      Chp14.Student.assign Chp14.sampleState 0 0 = some (Chp14.sampleState, 0)) ∧
    (Chp14.sampleState.person? 2 = some Chp14.main_sara.toPerson ∧
      Chp14.Person.assign Chp14.sampleState 2 2 = some (Chp14.sampleState, 2)) :=
  ⟨⟨by decide, self_assignment.1 Chp14.sampleState 0 Chp14.main_s1 (by decide)⟩,
   ⟨by decide, self_assignment.2 Chp14.sampleState 2 Chp14.main_sara.toPerson (by decide)⟩⟩

/-- C9. Assignment: for all live Students `a` and `b` (the same object or not), `a = b`
returns a reference to `a`; afterwards every accessor of `a` returns what it returns on
`b`, `b` is unchanged, every other object is unchanged, and assigning `b` to `a` once more
changes nothing. -/
theorem assignment_copies (σ : Chp14.State) (a b : Chp14.Addr) (sa sb : Chp14.Student)
    (ha : σ.student? a = some sa) (hb : σ.student? b = some sb) :
    ∃ σ1 : Chp14.State, Chp14.Student.assign σ a b = some (σ1, a) ∧
      (∃ ta : Chp14.Student, σ1.student? a = some ta ∧
        ta.toPerson.GetFirstName = sb.toPerson.GetFirstName ∧
        ta.toPerson.GetLastName = sb.toPerson.GetLastName ∧
        ta.toPerson.GetMiddleInitial = sb.toPerson.GetMiddleInitial ∧
        ta.toPerson.GetTitle = sb.toPerson.GetTitle ∧
        ta.GetGpa = sb.GetGpa ∧
        ta.GetCurrentCourse = sb.GetCurrentCourse ∧
        ta.GetStudentId = sb.GetStudentId) ∧
      σ1.student? b = some sb ∧
      (∀ c : Chp14.Addr, c ≠ a → σ1.lookup c = σ.lookup c) ∧
      Chp14.Student.assign σ1 a b = some (σ1, a) := by
  by_cases hab : a = b
  · subst hab
    have hs : sa = sb := Option.some.inj (ha.symm.trans hb)
    subst hs
    have h := Chp14.Student.assign_self σ a sa ha
    exact ⟨σ, h, ⟨sa, ha, rfl, rfl, rfl, rfl, rfl, rfl, rfl⟩, ha, fun _ _ => rfl, h⟩
  · have hlt := Chp14.State.lookup_lt (Chp14.State.student?_eq_some.mp ha)
    have h1a : (σ.update a (Chp14.Object.student sb)).student? a = some sb := by
      rw [Chp14.State.student?_eq_some, Chp14.State.lookup_update_same _ _ _ hlt]
    have h1b : (σ.update a (Chp14.Object.student sb)).student? b = some sb := by
      rw [Chp14.State.student?_eq_some, Chp14.State.lookup_update_ne _ _ _ _ hab]
      exact Chp14.State.student?_eq_some.mp hb
    refine ⟨σ.update a (Chp14.Object.student sb), Chp14.Student.assign_ne σ a b sa sb ha hb hab,
      ⟨sb, h1a, rfl, rfl, rfl, rfl, rfl, rfl, rfl⟩, h1b, ?_, ?_⟩
    · intro c hc
      exact Chp14.State.lookup_update_ne _ _ _ _ (Ne.symm hc)
    · rw [Chp14.Student.assign_ne _ a b sb sb h1a h1b hab, Chp14.State.update_update]

/-- Witness for C9: `s1 = hana` on the sample state (addresses 0 and 1). -/
theorem assignment_copies_witness :
    Chp14.sampleState.student? 0 = some Chp14.main_s1 ∧
    Chp14.sampleState.student? 1 = some Chp14.main_hana ∧
    ∃ σ1 : Chp14.State, Chp14.Student.assign Chp14.sampleState 0 1 = some (σ1, 0) ∧
      (∃ ta : Chp14.Student, σ1.student? 0 = some ta ∧
        ta.toPerson.GetFirstName = Chp14.main_hana.toPerson.GetFirstName ∧
        ta.toPerson.GetLastName = Chp14.main_hana.toPerson.GetLastName ∧
        ta.toPerson.GetMiddleInitial = Chp14.main_hana.toPerson.GetMiddleInitial ∧
        ta.toPerson.GetTitle = Chp14.main_hana.toPerson.GetTitle ∧
        ta.GetGpa = Chp14.main_hana.GetGpa ∧
        ta.GetCurrentCourse = Chp14.main_hana.GetCurrentCourse ∧
        ta.GetStudentId = Chp14.main_hana.GetStudentId) ∧
      σ1.student? 1 = some Chp14.main_hana ∧
      (∀ c : Chp14.Addr, c ≠ 0 → σ1.lookup c = Chp14.sampleState.lookup c) ∧
      Chp14.Student.assign σ1 0 1 = some (σ1, 0) :=
  ⟨by decide, by decide,
    assignment_copies Chp14.sampleState 0 1 Chp14.main_s1 Chp14.main_hana
      (by decide) (by decide)⟩

/-! ## C10: copy construction -/

/-- C10. Duplication, in the Chp14, Chp6 and Chp5 programs: for every live Student `s`
(and, where the constructor counts, a counter below `INT_MAX`) the copy constructor
yields a new object, different from `s`, whose accessors all return what they return on
`s` (base part: first name, last name, middle initial, title; derived part: gpa, current
course, student id), and `s` itself is unchanged. -/
theorem copy_construction :
    (∀ (σ : Chp14.State) (s : Chp14.Addr) (src : Chp14.Student),
      σ.student? s = some src → σ.numStudents < INT_MAX →
      ∃ (σ1 : Chp14.State) (t : Chp14.Addr), Chp14.Student.copy σ s = some (σ1, t) ∧ t ≠ s ∧
        (∃ c : Chp14.Student, σ1.student? t = some c ∧
          c.toPerson.GetFirstName = src.toPerson.GetFirstName ∧
          c.toPerson.GetLastName = src.toPerson.GetLastName ∧
          c.toPerson.GetMiddleInitial = src.toPerson.GetMiddleInitial ∧
          c.toPerson.GetTitle = src.toPerson.GetTitle ∧
          c.GetGpa = src.GetGpa ∧
          c.GetCurrentCourse = src.GetCurrentCourse ∧
          c.GetStudentId = src.GetStudentId) ∧
        σ1.student? s = some src) ∧
    (∀ (σ : Chp6.State) (s : Chp6.Addr) (src : Chp6.Student),
      σ.student? s = some src → σ.numStudents < INT_MAX →
      ∃ (σ1 : Chp6.State) (t : Chp6.Addr), Chp6.Student.copy σ s = some (σ1, t) ∧ t ≠ s ∧
        (∃ c : Chp6.Student, σ1.student? t = some c ∧
          c.toPerson.GetFirstName = src.toPerson.GetFirstName ∧
          c.toPerson.GetLastName = src.toPerson.GetLastName ∧
          c.toPerson.GetMiddleInitial = src.toPerson.GetMiddleInitial ∧
          c.toPerson.GetTitle = src.toPerson.GetTitle ∧
          c.GetGpa = src.GetGpa ∧
          c.GetCurrentCourse = src.GetCurrentCourse ∧
          c.GetStudentId = src.GetStudentId) ∧
        σ1.student? s = some src) ∧
    (∀ (σ : Chp5.State) (s : Chp5.Addr) (src : Chp5.Student),
      σ.student? s = some src →
      ∃ (σ1 : Chp5.State) (t : Chp5.Addr), Chp5.Student.copy σ s = some (σ1, t) ∧ t ≠ s ∧
        (∃ c : Chp5.Student, σ1.student? t = some c ∧
          c.GetFirstName = src.GetFirstName ∧
          c.GetLastName = src.GetLastName ∧
          c.GetMiddleInitial = src.GetMiddleInitial ∧
          c.GetGpa = src.GetGpa ∧
          c.GetCurrentCourse = src.GetCurrentCourse ∧
          c.GetStudentId = src.GetStudentId) ∧
        σ1.student? s = some src) := by
  refine ⟨?_, ?_, ?_⟩
  · intro σ s src h hn
    have hlt := Chp14.State.lookup_lt (Chp14.State.student?_eq_some.mp h)
    have hinc : intIncr σ.numStudents = some (σ.numStudents + 1) := by simp [intIncr, hn]
    refine ⟨_, _, by simp only [Chp14.Student.copy, h, hinc]; rfl, ?_, ⟨src, ?_, rfl, rfl, rfl,
      rfl, rfl, rfl, rfl⟩, ?_⟩
    · exact Nat.ne_of_gt hlt
    · simp [Chp14.State.student?, Chp14.State.lookup, Chp14.State.alloc]
    · have h2 := h
      simp only [Chp14.State.student?, Chp14.State.lookup] at h2 ⊢
      simpa [Chp14.State.alloc, List.getElem?_append_left hlt] using h2
  · intro σ s src h hn
    have hlt : s < σ.objects.length := by
      unfold Chp6.State.student? at h
      cases hq : σ.objects[s]? with
      | none => simp [hq] at h
      | some x => exact (List.getElem?_eq_some.mp hq).1
    have hinc : intIncr σ.numStudents = some (σ.numStudents + 1) := by simp [intIncr, hn]
    refine ⟨_, _, by simp only [Chp6.Student.copy, h, hinc]; rfl, ?_, ⟨src, ?_, rfl, rfl, rfl,
      rfl, rfl, rfl, rfl⟩, ?_⟩
    · exact Nat.ne_of_gt hlt
    · simp [Chp6.State.student?, Chp6.State.alloc]
    · have h2 := h
      simp only [Chp6.State.student?] at h2 ⊢
      simpa [Chp6.State.alloc, List.getElem?_append_left hlt] using h2
  · intro σ s src h
    have hlt : s < σ.objects.length := by
      unfold Chp5.State.student? at h
      cases hq : σ.objects[s]? with
      | none => simp [hq] at h
      | some x => exact (List.getElem?_eq_some.mp hq).1
    refine ⟨_, _, by simp only [Chp5.Student.copy, h]; rfl, ?_, ⟨src, ?_, rfl, rfl, rfl,
      rfl, rfl, rfl⟩, ?_⟩
    · exact Nat.ne_of_gt hlt
    · simp [Chp5.State.student?, Chp5.State.alloc]
    · have h2 := h
      simp only [Chp5.State.student?] at h2 ⊢
      simpa [Chp5.State.alloc, List.getElem?_append_left hlt] using h2

/-- Witness for C10: the copy of `s1` in the sample states of the three programs. -/
theorem copy_construction_witness :
    (Chp14.sampleState.student? 0 = some Chp14.main_s1 ∧
      Chp14.sampleState.numStudents < INT_MAX ∧
      ∃ (σ1 : Chp14.State) (t : Chp14.Addr),
        Chp14.Student.copy Chp14.sampleState 0 = some (σ1, t) ∧ t ≠ 0 ∧
        (∃ c : Chp14.Student, σ1.student? t = some c ∧
          c.toPerson.GetFirstName = Chp14.main_s1.toPerson.GetFirstName ∧
          c.toPerson.GetLastName = Chp14.main_s1.toPerson.GetLastName ∧
          c.toPerson.GetMiddleInitial = Chp14.main_s1.toPerson.GetMiddleInitial ∧
          c.toPerson.GetTitle = Chp14.main_s1.toPerson.GetTitle ∧
          c.GetGpa = Chp14.main_s1.GetGpa ∧
          c.GetCurrentCourse = Chp14.main_s1.GetCurrentCourse ∧
          c.GetStudentId = Chp14.main_s1.GetStudentId) ∧
        σ1.student? 0 = some Chp14.main_s1) ∧
    (Chp6.sampleState.student? 0 = some Chp6.main_s1 ∧
      Chp6.sampleState.numStudents < INT_MAX ∧
      ∃ (σ1 : Chp6.State) (t : Chp6.Addr),
        Chp6.Student.copy Chp6.sampleState 0 = some (σ1, t) ∧ t ≠ 0 ∧
        (∃ c : Chp6.Student, σ1.student? t = some c ∧
          c.toPerson.GetFirstName = Chp6.main_s1.toPerson.GetFirstName ∧
          c.toPerson.GetLastName = Chp6.main_s1.toPerson.GetLastName ∧
          c.toPerson.GetMiddleInitial = Chp6.main_s1.toPerson.GetMiddleInitial ∧
          c.toPerson.GetTitle = Chp6.main_s1.toPerson.GetTitle ∧
          c.GetGpa = Chp6.main_s1.GetGpa ∧
          c.GetCurrentCourse = Chp6.main_s1.GetCurrentCourse ∧
          c.GetStudentId = Chp6.main_s1.GetStudentId) ∧
        σ1.student? 0 = some Chp6.main_s1) ∧
    (Chp5.sampleState.student? 0 = some Chp5.main_s1 ∧
      ∃ (σ1 : Chp5.State) (t : Chp5.Addr),
        Chp5.Student.copy Chp5.sampleState 0 = some (σ1, t) ∧ t ≠ 0 ∧
        (∃ c : Chp5.Student, σ1.student? t = some c ∧
          c.GetFirstName = Chp5.main_s1.GetFirstName ∧
          c.GetLastName = Chp5.main_s1.GetLastName ∧
          c.GetMiddleInitial = Chp5.main_s1.GetMiddleInitial ∧
          c.GetGpa = Chp5.main_s1.GetGpa ∧
          c.GetCurrentCourse = Chp5.main_s1.GetCurrentCourse ∧
          c.GetStudentId = Chp5.main_s1.GetStudentId) ∧
        σ1.student? 0 = some Chp5.main_s1) :=
  ⟨⟨by decide, by decide,
      copy_construction.1 Chp14.sampleState 0 Chp14.main_s1 (by decide) (by decide)⟩,
   ⟨by decide, by decide,
      copy_construction.2.1 Chp6.sampleState 0 Chp6.main_s1 (by decide) (by decide)⟩,
   ⟨by decide, copy_construction.2.2 Chp5.sampleState 0 Chp5.main_s1 (by decide)⟩⟩

/-! ## C11: the copy is independent of its source -/

/-- C11. Independent copy: for every live Student `s` (and a counter below `INT_MAX`) and
every text `c`, after copy constructing `t` from `s` and calling `t.SetCurrentCourse(c)`
the copy has the course `c`, and `s` has the current course and every other field it had
before. -/
theorem independent_copy (σ : Chp14.State) (s : Chp14.Addr) (src : Chp14.Student)
    (c : String) (hs : σ.student? s = some src) (hn : σ.numStudents < INT_MAX) :
    ∃ (σ1 : Chp14.State) (t : Chp14.Addr) (σ2 : Chp14.State),
      Chp14.Student.copy σ s = some (σ1, t) ∧
      Chp14.Student.SetCurrentCourse σ1 t c = some σ2 ∧
      t ≠ s ∧
      (∃ v : Chp14.Student, σ2.student? t = some v ∧ v.GetCurrentCourse = c) ∧
      (∃ w : Chp14.Student, σ2.student? s = some w ∧
        w.GetCurrentCourse = src.GetCurrentCourse ∧
        w.toPerson.GetFirstName = src.toPerson.GetFirstName ∧
        w.toPerson.GetLastName = src.toPerson.GetLastName ∧
        w.toPerson.GetMiddleInitial = src.toPerson.GetMiddleInitial ∧
        w.toPerson.GetTitle = src.toPerson.GetTitle ∧
        w.GetGpa = src.GetGpa ∧
        w.GetStudentId = src.GetStudentId) := by
  have hlt := Chp14.State.student?_lt hs
  have hne : σ.objects.length ≠ s := Nat.ne_of_gt hlt
  have hnew := Chp14.State.student?_append_new (σ.numStudents + 1) σ.objects src
  have hold : Chp14.State.student?
      { numStudents := σ.numStudents + 1,
        objects := σ.objects ++ [some (Chp14.Object.student src)] } s = some src := by
    rw [Chp14.State.student?_append_old _ _ _ _ hlt]
    exact hs
  refine ⟨_, _,
    Chp14.State.update { numStudents := σ.numStudents + 1,
                         objects := σ.objects ++ [some (Chp14.Object.student src)] }
      σ.objects.length (Chp14.Object.student { src with currentCourse := c }),
    Chp14.Student.copy_some σ s src hs hn, ?_, hne, ?_, ?_⟩
  · simp only [Chp14.Student.SetCurrentCourse, hnew]
  · refine ⟨{ src with currentCourse := c }, ?_, rfl⟩
    apply Chp14.State.student?_update_same
    simp
  · refine ⟨src, ?_, rfl, rfl, rfl, rfl, rfl, rfl, rfl⟩
    rw [Chp14.State.student?_update_ne _ _ _ _ hne]
    exact hold

/-- Witness for C11: a copy of `s1` in the sample state, set to another course. -/
theorem independent_copy_witness :
    Chp14.sampleState.student? 0 = some Chp14.main_s1 ∧
    Chp14.sampleState.numStudents < INT_MAX ∧
    ∃ (σ1 : Chp14.State) (t : Chp14.Addr) (σ2 : Chp14.State),
      Chp14.Student.copy Chp14.sampleState 0 = some (σ1, t) ∧
      Chp14.Student.SetCurrentCourse σ1 t "Doctoral Thesis" = some σ2 ∧
      t ≠ 0 ∧
      (∃ v : Chp14.Student, σ2.student? t = some v ∧ v.GetCurrentCourse = "Doctoral Thesis") ∧
      (∃ w : Chp14.Student, σ2.student? 0 = some w ∧
        w.GetCurrentCourse = Chp14.main_s1.GetCurrentCourse ∧
        w.toPerson.GetFirstName = Chp14.main_s1.toPerson.GetFirstName ∧
        w.toPerson.GetLastName = Chp14.main_s1.toPerson.GetLastName ∧
        w.toPerson.GetMiddleInitial = Chp14.main_s1.toPerson.GetMiddleInitial ∧
        w.toPerson.GetTitle = Chp14.main_s1.toPerson.GetTitle ∧
        w.GetGpa = Chp14.main_s1.GetGpa ∧
        w.GetStudentId = Chp14.main_s1.GetStudentId) :=
  ⟨by decide, by decide,
    independent_copy Chp14.sampleState 0 Chp14.main_s1 "Doctoral Thesis"
      (by decide) (by decide)⟩

/-! ## C12: `EarnPhD` -/

/-- C12. Title promotion (Chp6): for every live Student, after `EarnPhD()` the title is
exactly "Dr."; first name, last name, middle initial, gpa, current course and student id
are unchanged, every other object is unchanged, `GetNumberStudents()` is unchanged, and a
second `EarnPhD()` leaves the state as the first one made it. -/
theorem title_promotion (σ : Chp6.State) (a : Chp6.Addr) (s : Chp6.Student)
    (h : σ.student? a = some s) :
    ∃ σ1 : Chp6.State, Chp6.Student.EarnPhD σ a = some σ1 ∧
      (∃ v : Chp6.Student, σ1.student? a = some v ∧
        v.toPerson.GetTitle = "Dr." ∧
        v.toPerson.GetFirstName = s.toPerson.GetFirstName ∧
        v.toPerson.GetLastName = s.toPerson.GetLastName ∧
        v.toPerson.GetMiddleInitial = s.toPerson.GetMiddleInitial ∧
        v.GetGpa = s.GetGpa ∧
        v.GetCurrentCourse = s.GetCurrentCourse ∧
        v.GetStudentId = s.GetStudentId) ∧
      (∀ b : Chp6.Addr, b ≠ a → σ1.student? b = σ.student? b) ∧
      Chp6.Student.GetNumberStudents σ1 = Chp6.Student.GetNumberStudents σ ∧
      Chp6.Student.EarnPhD σ1 a = some σ1 := by
  have hlt := Chp6.State.student?_lt6 h
  have hv := Chp6.State.student?_update_same6 σ a
    { s with toPerson := { s.toPerson with title := "Dr." } } hlt
  refine ⟨σ.update a { s with toPerson := { s.toPerson with title := "Dr." } },
    by simp only [Chp6.Student.EarnPhD, Chp6.Person.ModifyTitle, h], ⟨_, hv, rfl, rfl,
    rfl, rfl, rfl, rfl, rfl⟩, ?_, rfl, ?_⟩
  · intro b hb
    exact Chp6.State.student?_update_ne6 _ _ _ _ (Ne.symm hb)
  · simp only [Chp6.Student.EarnPhD, Chp6.Person.ModifyTitle, hv, Chp6.State.update_update6]

/-- Witness for C12: `s1` of the Chp6 driver, whose title is "Ms.". -/
theorem title_promotion_witness :
    Chp6.sampleState.student? 0 = some Chp6.main_s1 ∧
    Chp6.main_s1.toPerson.GetTitle = "Ms." ∧
    ∃ σ1 : Chp6.State, Chp6.Student.EarnPhD Chp6.sampleState 0 = some σ1 ∧
      (∃ v : Chp6.Student, σ1.student? 0 = some v ∧
        v.toPerson.GetTitle = "Dr." ∧
        v.toPerson.GetFirstName = Chp6.main_s1.toPerson.GetFirstName ∧
        v.toPerson.GetLastName = Chp6.main_s1.toPerson.GetLastName ∧
        v.toPerson.GetMiddleInitial = Chp6.main_s1.toPerson.GetMiddleInitial ∧
        v.GetGpa = Chp6.main_s1.GetGpa ∧
        v.GetCurrentCourse = Chp6.main_s1.GetCurrentCourse ∧
        v.GetStudentId = Chp6.main_s1.GetStudentId) ∧
      (∀ b : Chp6.Addr, b ≠ 0 → σ1.student? b = Chp6.sampleState.student? b) ∧
      Chp6.Student.GetNumberStudents σ1 = Chp6.Student.GetNumberStudents Chp6.sampleState ∧
      Chp6.Student.EarnPhD σ1 0 = some σ1 :=
  ⟨by decide, by decide, title_promotion Chp6.sampleState 0 Chp6.main_s1 (by decide)⟩

/-! ## C13: which operations change the title -/

/-- C13 as stated fails: in the sample state the Student at address 0 has the title "Ms.";
after the assignment of the Student at address 1 to it (`operator=` of Chp14) its title is
"Dr.".  The inherited `Person::operator=` with the `Person` at address 2 as source does the
same. -/
theorem assignment_alters_title :
    (Chp14.sampleState.student? 0).map (fun v => v.toPerson.GetTitle) = some "Ms." ∧
    ((Chp14.Student.assign Chp14.sampleState 0 1).bind fun r =>
        (r.1.student? 0).map fun v => v.toPerson.GetTitle) = some "Dr." ∧
    ((Chp14.Person.assign Chp14.sampleState 0 2).bind fun r =>
        (r.1.student? 0).map fun v => v.toPerson.GetTitle) = some "Dr." := by
  decide

/-- C13, amended. `EarnPhD` and the assignment operators are the only public operations
that can alter the title of an existing Student.  `EarnPhD` sets it to "Dr.".  The
assignment operators set it to the title of their source: `Student::operator=` of Chp14,
and the public `Person::operator=` that a Student inherits (declared in Chp14, defined by
the language in Chp11).  Every other public operation (`SetCurrentCourse`, being copied,
`Graduate`, `Validate`, `TakePrerequisites`, `Print`, `IsA`, `Greeting`, the accessors)
leaves `GetTitle()` of the target as it was, for every input. -/
theorem title_frame :
    (∀ (s : Chp11.Student) (op : Chp11.Call), op ≠ Chp11.Call.EarnPhD →
      (∀ p, op ≠ Chp11.Call.assignPerson p) →
      (s.after op).toPerson.GetTitle = s.toPerson.GetTitle) ∧
    (∀ (s : Chp11.Student) (p : Chp11.Person),
      (s.after (Chp11.Call.assignPerson p)).toPerson.GetTitle = p.GetTitle) ∧
    (∀ s : Chp11.Student, (s.after Chp11.Call.EarnPhD).toPerson.GetTitle = "Dr.") ∧
    (∀ (showFloat : Nat → Float32 → String) (σ σ1 : Chp14.State) (a : Chp14.Addr)
        (s : Chp14.Student) (op : Chp14.Call) (out : String),
      σ.student? a = some s → op ≠ Chp14.Call.EarnPhD → (∀ b, op ≠ Chp14.Call.assign b) →
      (∀ p, op ≠ Chp14.Call.assignPerson p) →
      Chp14.call showFloat σ a op = some (σ1, out) →
      ∃ v : Chp14.Student, σ1.student? a = some v ∧
        v.toPerson.GetTitle = s.toPerson.GetTitle) ∧
    (∀ (showFloat : Nat → Float32 → String) (σ σ1 : Chp14.State) (a b : Chp14.Addr)
        (sa sb : Chp14.Student) (out : String),
      σ.student? a = some sa → σ.student? b = some sb →
      Chp14.call showFloat σ a (Chp14.Call.assign b) = some (σ1, out) →
      ∃ v : Chp14.Student, σ1.student? a = some v ∧
        v.toPerson.GetTitle = sb.toPerson.GetTitle) ∧
    (∀ (showFloat : Nat → Float32 → String) (σ σ1 : Chp14.State) (a p : Chp14.Addr)
        (sa : Chp14.Student) (q : Chp14.Person) (out : String),
      σ.student? a = some sa → σ.person? p = some q →
      Chp14.call showFloat σ a (Chp14.Call.assignPerson p) = some (σ1, out) →
      ∃ v : Chp14.Student, σ1.student? a = some v ∧
        v.toPerson.GetTitle = q.GetTitle) ∧
    (∀ (showFloat : Nat → Float32 → String) (σ : Chp14.State) (a : Chp14.Addr)
        (s : Chp14.Student),
      σ.student? a = some s →
      ∃ (σ1 : Chp14.State) (out : String) (v : Chp14.Student),
        Chp14.call showFloat σ a Chp14.Call.EarnPhD = some (σ1, out) ∧
        σ1.student? a = some v ∧ v.toPerson.GetTitle = "Dr.") := by
  refine ⟨?_, fun _ _ => rfl, fun _ => rfl, ?_, ?_, ?_, ?_⟩
  · intro s op hop hassign
    cases op with
    | EarnPhD => exact absurd rfl hop
    | assignPerson p => exact absurd rfl (hassign p)
    | Graduate =>
      show (s.Graduate.1).toPerson.GetTitle = _
      rw [Chp11.Student.Graduate_fst]
    | _ => rfl
  · intro showFloat σ σ1 a s op out hs hop hassign hassignPerson h
    have hconst : (Option.map (fun _ : Chp14.Student => (σ, "")) (σ.student? a)
        = some (σ1, out)) → ∃ v : Chp14.Student, σ1.student? a = some v ∧
          v.toPerson.GetTitle = s.toPerson.GetTitle := by
      intro h
      simp only [hs, Option.map_some', Option.some.injEq, Prod.mk.injEq] at h
      exact ⟨s, by rw [← h.1]; exact hs, rfl⟩
    cases op with
    | EarnPhD => exact absurd rfl hop
    | assign b => exact absurd rfl (hassign b)
    | assignPerson p => exact absurd rfl (hassignPerson p)
    | SetCurrentCourse c =>
      simp only [Chp14.call, Chp14.Student.SetCurrentCourse, hs, Option.map_some',
        Option.some.injEq, Prod.mk.injEq] at h
      refine ⟨{ s with currentCourse := c }, ?_, rfl⟩
      rw [← h.1]
      exact Chp14.State.student?_update_same σ a _ (Chp14.State.student?_lt hs)
    | copied =>
      simp only [Chp14.call] at h
      cases hc : Chp14.Student.copy σ a with
      | none => simp [hc] at h
      | some r =>
        simp only [hc, Option.map_some', Option.some.injEq, Prod.mk.injEq] at h
        refine ⟨s, ?_, rfl⟩
        rw [← h.1]
        exact Chp14.Student.copy_frame σ r.1 a r.2 a s hs hc
    | Print =>
      simp only [Chp14.call, hs, Option.map_some', Option.some.injEq, Prod.mk.injEq] at h
      exact ⟨s, by rw [← h.1]; exact hs, rfl⟩
    | IsA =>
      simp only [Chp14.call, hs, Option.map_some', Option.some.injEq, Prod.mk.injEq] at h
      exact ⟨s, by rw [← h.1]; exact hs, rfl⟩
    | Greeting msg =>
      simp only [Chp14.call, hs, Option.map_some', Option.some.injEq, Prod.mk.injEq] at h
      exact ⟨s, by rw [← h.1]; exact hs, rfl⟩
    | GetFirstName => exact hconst h
    | GetLastName => exact hconst h
    | GetTitle => exact hconst h
    | GetMiddleInitial => exact hconst h
    | GetGpa => exact hconst h
    | GetCurrentCourse => exact hconst h
    | GetStudentId => exact hconst h
    | GetNumberStudents => exact hconst h
  · intro showFloat σ σ1 a b sa sb out ha hb h
    simp only [Chp14.call] at h
    cases hc : Chp14.Student.assign σ a b with
    | none => simp [hc] at h
    | some r =>
      simp only [hc, Option.map_some', Option.some.injEq, Prod.mk.injEq] at h
      refine ⟨sb, ?_, rfl⟩
      rw [← h.1]
      exact Chp14.Student.assign_target σ r.1 a b r.2 sa sb ha hb hc
  · intro showFloat σ σ1 a p sa q out ha hp h
    simp only [Chp14.call] at h
    cases hc : Chp14.Person.assign σ a p with
    | none => simp [hc] at h
    | some r =>
      simp only [hc, Option.map_some', Option.some.injEq, Prod.mk.injEq] at h
      refine ⟨{ sa with toPerson := q }, ?_, rfl⟩
      rw [← h.1]
      exact Chp14.Person.assign_student_target σ r.1 a p r.2 sa q ha hp hc
  · intro showFloat σ a s hs
    refine ⟨σ.update a (Chp14.Object.student { s with title := "Dr." }), "",
      { s with title := "Dr." }, ?_,
      Chp14.State.student?_update_same σ a _ (Chp14.State.student?_lt hs), rfl⟩
    simp only [Chp14.call, Chp14.Student.EarnPhD, hs, Chp14.Person.ModifyTitle,
      Chp14.State.student?_eq_some.mp hs, Option.map_some']
    rfl

/-- Witness for C13: `Graduate` on the student of the Chp11 driver; in the Chp14 sample
state `SetCurrentCourse` on `s1`, the assignment of the student at address 1 to it, the
assignment of the `Person` at address 2 to it with `Person::operator=`, and `EarnPhD`. -/
theorem title_frame_witness :
    (Chp11.Call.Graduate ≠ Chp11.Call.EarnPhD ∧
      (∀ p, Chp11.Call.Graduate ≠ Chp11.Call.assignPerson p) ∧
      (Chp11.main_s1.after Chp11.Call.Graduate).toPerson.GetTitle
        = Chp11.main_s1.toPerson.GetTitle) ∧
    (Chp14.sampleState.student? 0 = some Chp14.main_s1 ∧
      ∃ (σ1 : Chp14.State) (out : String),
        Chp14.call (fun _ _ => "") Chp14.sampleState 0 (Chp14.Call.SetCurrentCourse "Thesis")
          = some (σ1, out) ∧
        ∃ v : Chp14.Student, σ1.student? 0 = some v ∧
          v.toPerson.GetTitle = Chp14.main_s1.toPerson.GetTitle) ∧
    (Chp14.sampleState.student? 1 = some Chp14.main_hana ∧
      ∃ (σ1 : Chp14.State) (out : String),
        Chp14.call (fun _ _ => "") Chp14.sampleState 0 (Chp14.Call.assign 1)
          = some (σ1, out) ∧
        ∃ v : Chp14.Student, σ1.student? 0 = some v ∧
          v.toPerson.GetTitle = Chp14.main_hana.toPerson.GetTitle) ∧
    (Chp14.sampleState.person? 2 = some Chp14.main_sara.toPerson ∧
      ∃ (σ1 : Chp14.State) (out : String),
        Chp14.call (fun _ _ => "") Chp14.sampleState 0 (Chp14.Call.assignPerson 2)
          = some (σ1, out) ∧
        ∃ v : Chp14.Student, σ1.student? 0 = some v ∧
          v.toPerson.GetTitle = Chp14.main_sara.toPerson.GetTitle) ∧
    (∃ (σ1 : Chp14.State) (out : String) (v : Chp14.Student),
      Chp14.call (fun _ _ => "") Chp14.sampleState 0 Chp14.Call.EarnPhD = some (σ1, out) ∧
      σ1.student? 0 = some v ∧ v.toPerson.GetTitle = "Dr.") :=
  ⟨⟨by decide, fun _ h => Chp11.Call.noConfusion h,
     title_frame.1 Chp11.main_s1 Chp11.Call.Graduate (by decide)
       (fun _ h => Chp11.Call.noConfusion h)⟩,
   ⟨by decide, _, _, rfl,
     title_frame.2.2.2.1 (fun _ _ => "") Chp14.sampleState _ 0 Chp14.main_s1
       (Chp14.Call.SetCurrentCourse "Thesis") _ (by decide) (by decide)
       (fun _ h => Chp14.Call.noConfusion h) (fun _ h => Chp14.Call.noConfusion h) rfl⟩,
   ⟨by decide, _, _, rfl,
     title_frame.2.2.2.2.1 (fun _ _ => "") Chp14.sampleState _ 0 1 Chp14.main_s1
       Chp14.main_hana _ (by decide) (by decide) rfl⟩,
   ⟨by decide, _, _, rfl,
     title_frame.2.2.2.2.2.1 (fun _ _ => "") Chp14.sampleState _ 0 2 Chp14.main_s1
       Chp14.main_sara.toPerson _ (by decide) (by decide) rfl⟩,
   title_frame.2.2.2.2.2.2 (fun _ _ => "") Chp14.sampleState 0 Chp14.main_s1 (by decide)⟩

/-! ## C14: parameterized construction -/

/-- C14. Parameterized construction accepts any input as it is (Chp14 and Chp6): for all
arguments `fn`, `ln`, `mi`, `t`, `avg`, `course`, `id` (and a counter below `INT_MAX`) the
accessors of the constructed Student return exactly these values; in particular `GetGpa()`
returns `avg` whatever it is, nothing is checked or clamped. -/
theorem parameterized_construction :
    (∀ (σ : Chp14.State) (fn ln : String) (mi : Char) (t : String) (avg : Float32)
        (course id : String), σ.numStudents < INT_MAX →
      ∃ (σ1 : Chp14.State) (a : Chp14.Addr) (v : Chp14.Student),
        Chp14.Student.new σ fn ln mi t avg course id = some (σ1, a) ∧
        σ1.student? a = some v ∧
        v.toPerson.GetFirstName = fn ∧ v.toPerson.GetLastName = ln ∧
        v.toPerson.GetMiddleInitial = mi ∧ v.toPerson.GetTitle = t ∧
        v.GetGpa = avg ∧ v.GetCurrentCourse = course ∧ v.GetStudentId = id) ∧
    (∀ (σ : Chp6.State) (fn ln : String) (mi : Char) (t : String) (avg : Float32)
        (course id : String), σ.numStudents < INT_MAX →
      ∃ (σ1 : Chp6.State) (a : Chp6.Addr) (v : Chp6.Student),
        Chp6.Student.new σ fn ln mi t avg course id = some (σ1, a) ∧
        σ1.student? a = some v ∧
        v.toPerson.GetFirstName = fn ∧ v.toPerson.GetLastName = ln ∧
        v.toPerson.GetMiddleInitial = mi ∧ v.toPerson.GetTitle = t ∧
        v.GetGpa = avg ∧ v.GetCurrentCourse = course ∧ v.GetStudentId = id) := by
  constructor
  · intro σ fn ln mi t avg course id hn
    have hinc : intIncr σ.numStudents = some (σ.numStudents + 1) := by simp [intIncr, hn]
    refine ⟨_, _, { firstName := fn, lastName := ln, middleInitial := mi, title := t,
                    gpa := avg, currentCourse := course, studentId := id },
      by simp only [Chp14.Student.new, hinc]; rfl, ?_, rfl, rfl, rfl, rfl, rfl, rfl, rfl⟩
    simp [Chp14.State.student?, Chp14.State.lookup, Chp14.State.alloc]
  · intro σ fn ln mi t avg course id hn
    have hinc : intIncr σ.numStudents = some (σ.numStudents + 1) := by simp [intIncr, hn]
    refine ⟨_, _, { firstName := fn, lastName := ln, middleInitial := mi, title := t,
                    gpa := avg, currentCourse := course, studentId := id },
      by simp only [Chp6.Student.new, hinc]; rfl, ?_, rfl, rfl, rfl, rfl, rfl, rfl, rfl⟩
    simp [Chp6.State.student?, Chp6.State.alloc]

/-- Witness for C14: a Student constructed with gpa -1 in Chp14 and one with gpa 7.5 in
Chp6; `GetGpa()` returns -1 and 7.5. -/
theorem parameterized_construction_witness :
    (Chp14.State.init.numStudents < INT_MAX ∧
      ∃ (σ1 : Chp14.State) (a : Chp14.Addr) (v : Chp14.Student),
        Chp14.Student.new Chp14.State.init "Jul" "Li" 'M' "Ms." Float32.negOne "C++" "117PSU"
          = some (σ1, a) ∧
        σ1.student? a = some v ∧
        v.toPerson.GetFirstName = "Jul" ∧ v.toPerson.GetLastName = "Li" ∧
        v.toPerson.GetMiddleInitial = 'M' ∧ v.toPerson.GetTitle = "Ms." ∧
        v.GetGpa = Float32.negOne ∧ v.GetCurrentCourse = "C++" ∧ v.GetStudentId = "117PSU") ∧
    (Chp6.State.init.numStudents < INT_MAX ∧
      ∃ (σ1 : Chp6.State) (a : Chp6.Addr) (v : Chp6.Student),
        Chp6.Student.new Chp6.State.init "Jo" "Li" 'U' "Ms." Float32.f7_5 "C++" "178PSU"
          = some (σ1, a) ∧
        σ1.student? a = some v ∧
        v.toPerson.GetFirstName = "Jo" ∧ v.toPerson.GetLastName = "Li" ∧
        v.toPerson.GetMiddleInitial = 'U' ∧ v.toPerson.GetTitle = "Ms." ∧
        v.GetGpa = Float32.f7_5 ∧ v.GetCurrentCourse = "C++" ∧ v.GetStudentId = "178PSU") :=
  ⟨⟨by decide, parameterized_construction.1 Chp14.State.init "Jul" "Li" 'M' "Ms."
      Float32.negOne "C++" "117PSU" (by decide)⟩,
   ⟨by decide, parameterized_construction.2 Chp6.State.init "Jo" "Li" 'U' "Ms."
      Float32.f7_5 "C++" "178PSU" (by decide)⟩⟩

/-! ## C15: default construction -/

/-- C15 as stated fails: the Student default constructed in Chp14 has the student id
"None", which is not the empty text and not an id generated from a counter (a decimal
number followed by "Id"). -/
theorem default_id_is_none :
    ((Chp14.Student.default Chp14.State.init).bind fun r =>
        (r.1.student? r.2).map Chp14.Student.GetStudentId) = some "None" ∧
    "None" ≠ "" ∧
    ∀ k : Int, "None" ≠ Chp6.to_string k ++ "Id" :=
  ⟨by decide, none_not_generated.1, none_not_generated.2⟩

/-- C15, amended. Default construction yields blank fields: in Chp6, Chp11 and Chp14 a
default constructed Student has empty first name, last name, title and current course, the
null character as middle initial and gpa 0.0.  Its student id is the decimal text of
`numStudents + 100` followed by "Id" in Chp6 (counter read before the increment), the empty
text in Chp11, and the fixed text "None" in Chp14. -/
theorem default_construction :
    (∀ σ : Chp6.State, INT_MIN ≤ σ.numStudents + 100 → σ.numStudents + 100 ≤ INT_MAX →
      ∃ (σ1 : Chp6.State) (a : Chp6.Addr) (v : Chp6.Student),
        Chp6.Student.default σ = some (σ1, a) ∧ σ1.student? a = some v ∧
        v.toPerson.GetFirstName = "" ∧ v.toPerson.GetLastName = "" ∧
        v.toPerson.GetTitle = "" ∧ v.GetCurrentCourse = "" ∧
        v.toPerson.GetMiddleInitial = Char.ofNat 0 ∧ v.GetGpa = Float32.zero ∧
        v.GetStudentId = Chp6.to_string (σ.numStudents + 100) ++ "Id") ∧
    (Chp11.Student.default.toPerson.GetFirstName = "" ∧
      Chp11.Student.default.toPerson.GetLastName = "" ∧
      Chp11.Student.default.toPerson.GetTitle = "" ∧
      Chp11.Student.default.GetCurrentCourse = "" ∧
      Chp11.Student.default.toPerson.GetMiddleInitial = Char.ofNat 0 ∧
      Chp11.Student.default.GetGpa = Float32.zero ∧
      Chp11.Student.default.GetStudentId = "") ∧
    (∀ σ : Chp14.State, σ.numStudents < INT_MAX →
      ∃ (σ1 : Chp14.State) (a : Chp14.Addr) (v : Chp14.Student),
        Chp14.Student.default σ = some (σ1, a) ∧ σ1.student? a = some v ∧
        v.toPerson.GetFirstName = "" ∧ v.toPerson.GetLastName = "" ∧
        v.toPerson.GetTitle = "" ∧ v.GetCurrentCourse = "" ∧
        v.toPerson.GetMiddleInitial = Char.ofNat 0 ∧ v.GetGpa = Float32.zero ∧
        v.GetStudentId = "None") := by
  refine ⟨?_, ⟨rfl, rfl, rfl, rfl, rfl, rfl, rfl⟩, ?_⟩
  · intro σ hlo hhi
    have hadd : intAdd σ.numStudents 100 = some (σ.numStudents + 100) := by
      simp [intAdd, hlo, hhi]
    have hn : σ.numStudents < INT_MAX := by
      unfold INT_MAX at hhi ⊢
      omega
    have hinc : intIncr σ.numStudents = some (σ.numStudents + 1) := by simp [intIncr, hn]
    refine ⟨_, _, { firstName := "", lastName := "", middleInitial := Char.ofNat 0,
                    title := "", gpa := Float32.zero, currentCourse := "",
                    studentId := Chp6.to_string (σ.numStudents + 100) ++ "Id" },
      by simp only [Chp6.Student.default, hadd, hinc]; rfl, ?_, rfl, rfl, rfl,
      rfl, rfl, rfl, rfl⟩
    simp [Chp6.State.student?, Chp6.State.alloc]
  · intro σ hn
    have hinc : intIncr σ.numStudents = some (σ.numStudents + 1) := by simp [intIncr, hn]
    refine ⟨_, _, { firstName := "", lastName := "", middleInitial := Char.ofNat 0,
                    title := "", gpa := Float32.zero, currentCourse := "",
                    studentId := "None" },
      by simp only [Chp14.Student.default, hinc]; rfl, ?_, rfl, rfl, rfl,
      rfl, rfl, rfl, rfl⟩
    simp [Chp14.State.student?, Chp14.State.lookup, Chp14.State.alloc]

/-- Witness for C15: default construction in the initial states of Chp6 (id "100Id") and
Chp14 (id "None"). -/
theorem default_construction_witness :
    (INT_MIN ≤ Chp6.State.init.numStudents + 100 ∧
      Chp6.State.init.numStudents + 100 ≤ INT_MAX ∧
      Chp6.to_string (Chp6.State.init.numStudents + 100) ++ "Id" = "100Id" ∧
      ∃ (σ1 : Chp6.State) (a : Chp6.Addr) (v : Chp6.Student),
        Chp6.Student.default Chp6.State.init = some (σ1, a) ∧ σ1.student? a = some v ∧
        v.toPerson.GetFirstName = "" ∧ v.toPerson.GetLastName = "" ∧
        v.toPerson.GetTitle = "" ∧ v.GetCurrentCourse = "" ∧
        v.toPerson.GetMiddleInitial = Char.ofNat 0 ∧ v.GetGpa = Float32.zero ∧
        v.GetStudentId = Chp6.to_string (Chp6.State.init.numStudents + 100) ++ "Id") ∧
    (Chp14.State.init.numStudents < INT_MAX ∧
      ∃ (σ1 : Chp14.State) (a : Chp14.Addr) (v : Chp14.Student),
        Chp14.Student.default Chp14.State.init = some (σ1, a) ∧ σ1.student? a = some v ∧
        v.toPerson.GetFirstName = "" ∧ v.toPerson.GetLastName = "" ∧
        v.toPerson.GetTitle = "" ∧ v.GetCurrentCourse = "" ∧
        v.toPerson.GetMiddleInitial = Char.ofNat 0 ∧ v.GetGpa = Float32.zero ∧
        v.GetStudentId = "None") :=
  ⟨⟨by decide, by decide, by decide,
      default_construction.1 Chp6.State.init (by decide) (by decide)⟩,
   ⟨by decide, default_construction.2.2 Chp14.State.init (by decide)⟩⟩

/-! ## C16: `push_back` and traversal -/

/-- C16. Collection insertion stores an independent copy and traversal mutates in place:
for every list (elements `vs`) and live Student `s` (and a counter below `INT_MAX`), after
`push_back(s)` the list holds the old elements followed by one element equal to `s` in
every field, at an address different from that of `s`; `EarnPhD()` or `SetCurrentCourse(c)`
applied to that element through its reference changes the element the list holds (a later
traversal of the same list reads the new title or course) and leaves `s` and all other
elements unchanged. -/
theorem list_insertion (σ : Chp14.State) (l : Chp14.StudentList) (s : Chp14.Addr)
    (src : Chp14.Student) (vs : List Chp14.Student) (c : String)
    (hs : σ.student? s = some src) (hl : Chp14.contents σ l = some vs)
    (hn : σ.numStudents < INT_MAX) :
    ∃ (σ1 : Chp14.State) (t : Chp14.Addr),
      Chp14.push_back σ l s = some (σ1, l ++ [t]) ∧
      Chp14.contents σ1 (l ++ [t]) = some (vs ++ [src]) ∧
      σ1.student? s = some src ∧ t ≠ s ∧ t ∉ l ∧
      (∃ σ2 : Chp14.State, Chp14.Student.EarnPhD σ1 t = some σ2 ∧
        Chp14.contents σ2 (l ++ [t]) = some (vs ++ [{ src with title := "Dr." }]) ∧
        σ2.student? s = some src) ∧
      (∃ σ3 : Chp14.State, Chp14.Student.SetCurrentCourse σ1 t c = some σ3 ∧
        Chp14.contents σ3 (l ++ [t]) = some (vs ++ [{ src with currentCourse := c }]) ∧
        σ3.student? s = some src) := by
  have hlt := Chp14.State.student?_lt hs
  have hlt_l := Chp14.contents_lt σ l vs hl
  have hne : σ.objects.length ≠ s := Nat.ne_of_gt hlt
  have hne_l : ∀ a ∈ l, a ≠ σ.objects.length := fun a ha => Nat.ne_of_lt (hlt_l a ha)
  have hnew := Chp14.State.student?_append_new (σ.numStudents + 1) σ.objects src
  have hold : Chp14.State.student?
      { numStudents := σ.numStudents + 1,
        objects := σ.objects ++ [some (Chp14.Object.student src)] } s = some src := by
    rw [Chp14.State.student?_append_old _ _ _ _ hlt]
    exact hs
  have hl1 : Chp14.contents
      { numStudents := σ.numStudents + 1,
        objects := σ.objects ++ [some (Chp14.Object.student src)] } l = some vs := by
    rw [← hl]
    apply Chp14.contents_congr
    intro a ha
    rw [Chp14.State.student?_append_old _ _ _ _ (hlt_l a ha)]
    rfl
  have htlt : σ.objects.length <
      (σ.objects ++ [some (Chp14.Object.student src)]).length := by simp
  refine ⟨{ numStudents := σ.numStudents + 1,
            objects := σ.objects ++ [some (Chp14.Object.student src)] }, σ.objects.length,
    by simp only [Chp14.push_back, Chp14.Student.copy_some σ s src hs hn],
    Chp14.contents_append _ l _ src vs hl1 hnew, hold, hne,
    fun hmem => hne_l _ hmem rfl, ?_, ?_⟩
  · refine ⟨Chp14.State.update
        { numStudents := σ.numStudents + 1,
          objects := σ.objects ++ [some (Chp14.Object.student src)] }
        σ.objects.length (Chp14.Object.student { src with title := "Dr." }), ?_, ?_, ?_⟩
    · simp only [Chp14.Student.EarnPhD, hnew, Chp14.Person.ModifyTitle,
        Chp14.State.student?_eq_some.mp hnew]
      rfl
    · apply Chp14.contents_append
      · rw [Chp14.contents_update _ l _ _ hne_l]
        exact hl1
      · exact Chp14.State.student?_update_same _ _ _ htlt
    · rw [Chp14.State.student?_update_ne _ _ _ _ hne]
      exact hold
  · refine ⟨Chp14.State.update
        { numStudents := σ.numStudents + 1,
          objects := σ.objects ++ [some (Chp14.Object.student src)] }
        σ.objects.length (Chp14.Object.student { src with currentCourse := c }), ?_, ?_, ?_⟩
    · simp only [Chp14.Student.SetCurrentCourse, hnew]
    · apply Chp14.contents_append
      · rw [Chp14.contents_update _ l _ _ hne_l]
        exact hl1
      · exact Chp14.State.student?_update_same _ _ _ htlt
    · rw [Chp14.State.student?_update_ne _ _ _ _ hne]
      exact hold

/-- Witness for C16: in the sample state the list holds the Student at address 1 (Hana),
and `s1` at address 0 is pushed back. -/
theorem list_insertion_witness :
    Chp14.sampleState.student? 0 = some Chp14.main_s1 ∧
    Chp14.contents Chp14.sampleState [1] = some [Chp14.main_hana] ∧
    Chp14.sampleState.numStudents < INT_MAX ∧
    ∃ (σ1 : Chp14.State) (t : Chp14.Addr),
      Chp14.push_back Chp14.sampleState [1] 0 = some (σ1, [1] ++ [t]) ∧
      Chp14.contents σ1 ([1] ++ [t]) = some ([Chp14.main_hana] ++ [Chp14.main_s1]) ∧
      σ1.student? 0 = some Chp14.main_s1 ∧ t ≠ 0 ∧ t ∉ [1] ∧
      (∃ σ2 : Chp14.State, Chp14.Student.EarnPhD σ1 t = some σ2 ∧
        Chp14.contents σ2 ([1] ++ [t])
          = some ([Chp14.main_hana] ++ [{ Chp14.main_s1 with title := "Dr." }]) ∧
        σ2.student? 0 = some Chp14.main_s1) ∧
      (∃ σ3 : Chp14.State, Chp14.Student.SetCurrentCourse σ1 t "Thesis" = some σ3 ∧
        Chp14.contents σ3 ([1] ++ [t])
          = some ([Chp14.main_hana] ++ [{ Chp14.main_s1 with currentCourse := "Thesis" }]) ∧
        σ3.student? 0 = some Chp14.main_s1) :=
  ⟨by decide, by decide, by decide,
    list_insertion Chp14.sampleState [1] 0 Chp14.main_s1 [Chp14.main_hana] "Thesis"
      (by decide) (by decide) (by decide)⟩

/-! ## C17: `SetCurrentCourse` -/

/-- C17. `SetCurrentCourse` (Chp5 and Chp14): for every live Student and text `c`, after
`SetCurrentCourse(c)` the accessor `GetCurrentCourse()` returns `c` and every other field
is unchanged; a second call with `c2` gives the state that one call with `c2` gives.  The
Chp5 driver sets "Advanced C++ Programming" on Zack Moon and reads that course back with
the same name. -/
theorem set_current_course :
    (∀ (σ : Chp5.State) (a : Chp5.Addr) (s : Chp5.Student) (c c2 : String),
      σ.student? a = some s →
      ∃ σ1 : Chp5.State, Chp5.Student.SetCurrentCourse σ a c = some σ1 ∧
        (∃ v : Chp5.Student, σ1.student? a = some v ∧
          v.GetCurrentCourse = c ∧
          v.GetFirstName = s.GetFirstName ∧ v.GetLastName = s.GetLastName ∧
          v.GetMiddleInitial = s.GetMiddleInitial ∧ v.GetGpa = s.GetGpa ∧
          v.GetStudentId = s.GetStudentId) ∧
        Chp5.Student.SetCurrentCourse σ1 a c2 = Chp5.Student.SetCurrentCourse σ a c2) ∧
    (∀ (σ : Chp14.State) (a : Chp14.Addr) (s : Chp14.Student) (c c2 : String),
      σ.student? a = some s →
      ∃ σ1 : Chp14.State, Chp14.Student.SetCurrentCourse σ a c = some σ1 ∧
        (∃ v : Chp14.Student, σ1.student? a = some v ∧
          v.GetCurrentCourse = c ∧
          v.toPerson.GetFirstName = s.toPerson.GetFirstName ∧
          v.toPerson.GetLastName = s.toPerson.GetLastName ∧
          v.toPerson.GetMiddleInitial = s.toPerson.GetMiddleInitial ∧
          v.toPerson.GetTitle = s.toPerson.GetTitle ∧
          v.GetGpa = s.GetGpa ∧ v.GetStudentId = s.GetStudentId) ∧
        Chp14.Student.SetCurrentCourse σ1 a c2 = Chp14.Student.SetCurrentCourse σ a c2) ∧
    (∀ showFloat : Nat → Float32 → String,
      (Chp5.main showFloat).map (fun r => r.newCourse) = some "Advanced C++ Programming" ∧
      (Chp5.main showFloat).map (fun r => r.output)
        = some ("Zack Moon Enrolled in C++" ++ endl
            ++ ("Zack Moon New course: Advanced C++ Programming" ++ endl)
            ++ ("Gabby A. Doone with id: 2239 and gpa: " ++ showFloat 6 Float32.f3_9
                  ++ " is enrolled in: C++" ++ endl))) := by
  refine ⟨?_, ?_, ?_⟩
  · intro σ a s c c2 h
    have hlt := Chp5.State.student?_lt5 h
    have hv := Chp5.State.student?_update_same5 σ a { s with currentCourse := c } hlt
    refine ⟨σ.update a { s with currentCourse := c },
      by simp only [Chp5.Student.SetCurrentCourse, h],
      ⟨_, hv, rfl, rfl, rfl, rfl, rfl, rfl⟩, ?_⟩
    simp only [Chp5.Student.SetCurrentCourse, hv, h, Chp5.State.update_update5]
  · intro σ a s c c2 h
    have hlt := Chp14.State.student?_lt h
    have hv := Chp14.State.student?_update_same σ a { s with currentCourse := c } hlt
    refine ⟨σ.update a (Chp14.Object.student { s with currentCourse := c }),
      by simp only [Chp14.Student.SetCurrentCourse, h],
      ⟨_, hv, rfl, rfl, rfl, rfl, rfl, rfl, rfl⟩, ?_⟩
    simp only [Chp14.Student.SetCurrentCourse, hv, h, Chp14.State.update_update]
  · intro showFloat
    constructor
    · rfl
    · simp [Chp5.main, Chp5.Student.new, Chp5.State.alloc, Chp5.State.init,
        Chp5.State.student?, Chp5.Student.SetCurrentCourse, Chp5.State.update,
        Chp5.Student.destroy, Chp5.State.release, Chp5.Student.Print,
        Chp5.Student.GetFirstName, Chp5.Student.GetLastName, Chp5.Student.GetCurrentCourse,
        String.append_assoc]
      rfl

/-- Witness for C17: `s1` (Zack Moon) of the Chp5 driver and `s1` of the Chp14 sample
state. -/
theorem set_current_course_witness :
    (Chp5.sampleState.student? 0 = some Chp5.main_s1 ∧
      ∃ σ1 : Chp5.State,
        Chp5.Student.SetCurrentCourse Chp5.sampleState 0 "Advanced C++ Programming" = some σ1 ∧
        (∃ v : Chp5.Student, σ1.student? 0 = some v ∧
          v.GetCurrentCourse = "Advanced C++ Programming" ∧
          v.GetFirstName = Chp5.main_s1.GetFirstName ∧
          v.GetLastName = Chp5.main_s1.GetLastName ∧
          v.GetMiddleInitial = Chp5.main_s1.GetMiddleInitial ∧
          v.GetGpa = Chp5.main_s1.GetGpa ∧
          v.GetStudentId = Chp5.main_s1.GetStudentId) ∧
        Chp5.Student.SetCurrentCourse σ1 0 "C++"
          = Chp5.Student.SetCurrentCourse Chp5.sampleState 0 "C++") ∧
    (Chp14.sampleState.student? 0 = some Chp14.main_s1 ∧
      ∃ σ1 : Chp14.State,
        Chp14.Student.SetCurrentCourse Chp14.sampleState 0 "Thesis" = some σ1 ∧
        (∃ v : Chp14.Student, σ1.student? 0 = some v ∧
          v.GetCurrentCourse = "Thesis" ∧
          v.toPerson.GetFirstName = Chp14.main_s1.toPerson.GetFirstName ∧
          v.toPerson.GetLastName = Chp14.main_s1.toPerson.GetLastName ∧
          v.toPerson.GetMiddleInitial = Chp14.main_s1.toPerson.GetMiddleInitial ∧
          v.toPerson.GetTitle = Chp14.main_s1.toPerson.GetTitle ∧
          v.GetGpa = Chp14.main_s1.GetGpa ∧
          v.GetStudentId = Chp14.main_s1.GetStudentId) ∧
        Chp14.Student.SetCurrentCourse σ1 0 "C++"
          = Chp14.Student.SetCurrentCourse Chp14.sampleState 0 "C++") :=
  ⟨⟨by decide, set_current_course.1 Chp5.sampleState 0 Chp5.main_s1
      "Advanced C++ Programming" "C++" (by decide)⟩,
   ⟨by decide, set_current_course.2.1 Chp14.sampleState 0 Chp14.main_s1 "Thesis" "C++"
      (by decide)⟩⟩

/-! ## C18: the ids of default constructed Students -/

/-- C18, the code at the failing input.  After two default constructions, the destruction
of the first object and a third default construction, the two live Students (addresses 1
and 2), both default constructed, have the same student id "101Id": the counter went back
to 1 with the destruction, and the id is built from the counter. -/
theorem default_id_collision :
    (Chp6.run Chp6.State.init Chp6.reuseEvents).map
        (fun σ => (Chp6.Student.GetNumberStudents σ, σ.student? 0,
                   (σ.student? 1).map Chp6.Student.GetStudentId,
                   (σ.student? 2).map Chp6.Student.GetStudentId))
      = some (2, none, some "101Id", some "101Id") := by
  decide

/-! ## C19: `Student::Print` -/

/-- C19. The line `Student::Print` writes (Chp14 and Chp11) starts with exactly the text
`Person::Print` writes for the `Person` part without the line end (title, space, first
name, space, middle initial, ". ", last name), followed by " with id: " and the student
id; the academic fields come after that. -/
theorem print_reassembles_base :
    (∀ (showFloat : Nat → Float32 → String) (s : Chp14.Student),
      s.toPerson.Print
        = s.toPerson.GetTitle ++ " " ++ s.toPerson.GetFirstName ++ " "
            ++ String.singleton s.toPerson.GetMiddleInitial ++ ". "
            ++ s.toPerson.GetLastName ++ endl ∧
      s.Print showFloat
        = (s.toPerson.GetTitle ++ " " ++ s.toPerson.GetFirstName ++ " "
            ++ String.singleton s.toPerson.GetMiddleInitial ++ ". "
            ++ s.toPerson.GetLastName)
          ++ " with id: " ++ s.GetStudentId
          ++ (" GPA: " ++ " " ++ showFloat 3 s.GetGpa ++ " Course: "
                ++ s.GetCurrentCourse ++ endl)) ∧
    (∀ (showFloat : Nat → Float32 → String) (s : Chp11.Student),
      s.toPerson.Print
        = s.toPerson.GetTitle ++ " " ++ s.toPerson.GetFirstName ++ " "
            ++ String.singleton s.toPerson.GetMiddleInitial ++ ". "
            ++ s.toPerson.GetLastName ++ endl ∧
      s.Print showFloat
        = (s.toPerson.GetTitle ++ " " ++ s.toPerson.GetFirstName ++ " "
            ++ String.singleton s.toPerson.GetMiddleInitial ++ ". "
            ++ s.toPerson.GetLastName)
          ++ " with id: " ++ s.GetStudentId
          ++ (" GPA: " ++ " " ++ showFloat 3 s.GetGpa ++ " Course: "
                ++ s.GetCurrentCourse ++ endl)) := by
  constructor
  · intro showFloat s
    refine ⟨rfl, ?_⟩
    simp only [Chp14.Student.Print, Chp14.Student.GetStudentId, Chp14.Student.GetGpa,
      Chp14.Student.GetCurrentCourse, String.append_assoc]
  · intro showFloat s
    refine ⟨rfl, ?_⟩
    simp only [Chp11.Student.Print, Chp11.Student.GetStudentId, Chp11.Student.GetGpa,
      Chp11.Student.GetCurrentCourse, String.append_assoc]

/-! ## C20: the handlers of `main` -/

/-- C20. The handlers around `Graduate` tell the failures apart and end the program with a
status of their own: a `float` (LowGpa) gives 1, an `int` (MissingCredits) 2, a
`const char *` (GenericMessage) 4, a `StudentException` (StudentFault) 5 and anything else
6.  So for every Student the driver exits with status 1 when gpa < 2.0 and with status 5
otherwise, 5 for the Student of the driver with gpa 3.1, and it never returns from `main`
through the statement that writes "Moving onward with remainder of code.". -/
theorem handler_status :
    (∀ (showFloat : Nat → Float32 → String),
      (∀ err : Float32, (Chp11.handler showFloat (Chp11.Thrown.float err)).2 = 1) ∧
      (∀ err : Int, (Chp11.handler showFloat (Chp11.Thrown.int err)).2 = 2) ∧
      (∀ err : String, (Chp11.handler showFloat (Chp11.Thrown.cstring err)).2 = 4) ∧
      (∀ err : Chp11.StudentException,
        (Chp11.handler showFloat (Chp11.Thrown.studentException err)).2 = 5) ∧
      (∀ (title : String) (number : Int),
        (Chp11.handler showFloat (Chp11.Thrown.course title number)).2 = 6)) ∧
    (∀ (showFloat : Nat → Float32 → String) (s : Chp11.Student),
      (Chp11.mainWith showFloat s).ending
        = (if s.GetGpa.lt Float32.two then Chp11.Ending.exit 1 else Chp11.Ending.exit 5) ∧
      (∀ n : Int, (Chp11.mainWith showFloat s).ending ≠ Chp11.Ending.returned n) ∧
      (Chp11.mainWith showFloat s).output
        = (if s.GetGpa.lt Float32.two then "Too low gpa: " ++ showFloat 6 s.GetGpa ++ endl
           else "Error: 5" ++ endl)) ∧
    (∀ showFloat : Nat → Float32 → String,
      Chp11.main showFloat = { output := "Error: 5" ++ endl, ending := Chp11.Ending.exit 5 }) := by
  refine ⟨fun _ => ⟨fun _ => rfl, fun _ => rfl, fun _ => rfl, fun _ => rfl,
    fun _ _ => rfl⟩, ?_, fun _ => rfl⟩
  intro showFloat s
  cases h : s.gpa.lt Float32.two
  · simp only [Chp11.mainWith, Chp11.Student.Graduate, Chp11.Student.GetGpa, h,
      Chp11.handler, Chp11.StudentException.GetNum]
    refine ⟨by simp, fun n => by simp, ?_⟩
    simp
    rfl
  · simp only [Chp11.mainWith, Chp11.Student.Graduate, Chp11.Student.GetGpa, h,
      Chp11.handler]
    exact ⟨by simp, fun n => by simp, by simp⟩

/-! ## C21: `Graduate` looks at the gpa only -/

/-- C21. The outcome of `Graduate` depends on the gpa alone: two Students with the same gpa
end `Graduate` in the same way, with the same kind of failure and the same payload,
whatever their names, title, current course and student id.  The same holds for two
Students whose gpas are equal under `==`: both throw their gpa (and the two payloads are
equal under `==`), or both throw `StudentException(5)`. -/
theorem graduate_depends_on_gpa :
    (∀ s t : Chp11.Student, s.GetGpa = t.GetGpa → s.Graduate.2 = t.Graduate.2) ∧
    (∀ s t : Chp11.Student, s.GetGpa.eq t.GetGpa = true →
      (s.Graduate.2 = Except.error (Chp11.Thrown.float s.GetGpa) ∧
        t.Graduate.2 = Except.error (Chp11.Thrown.float t.GetGpa)) ∨
      (s.Graduate.2 = Except.error (Chp11.Thrown.studentException { number := 5 }) ∧
        t.Graduate.2 = Except.error (Chp11.Thrown.studentException { number := 5 }))) := by
  constructor
  · intro s t h
    simp only [Chp11.Student.GetGpa] at h
    simp only [Chp11.Student.Graduate, h]
    split <;> rfl
  · intro s t h
    have hlt := Float32.lt_congr_of_eq Float32.two h
    simp only [Chp11.Student.GetGpa] at hlt
    cases ht : t.gpa.lt Float32.two
    · right
      rw [ht] at hlt
      simp [Chp11.Student.Graduate, hlt, ht]
    · left
      rw [ht] at hlt
      simp [Chp11.Student.Graduate, Chp11.Student.GetGpa, hlt, ht]

/-- Witness for C21: Ling Mau and Hana Sato with gpa 3.1 both get `StudentException(5)`,
and with gpa 1.5 both get the `float` 1.5. -/
theorem graduate_depends_on_gpa_witness :
    (Chp11.main_s1.GetGpa = (Chp11.otherWithGpa Float32.f3_1).GetGpa ∧
      Chp11.main_s1 ≠ Chp11.otherWithGpa Float32.f3_1 ∧
      Chp11.main_s1.Graduate.2 = (Chp11.otherWithGpa Float32.f3_1).Graduate.2) ∧
    (Float32.eq (Chp11.sampleWithGpa Float32.f1_5).GetGpa
        (Chp11.otherWithGpa Float32.f1_5).GetGpa = true ∧
      (((Chp11.sampleWithGpa Float32.f1_5).Graduate.2
            = Except.error (Chp11.Thrown.float (Chp11.sampleWithGpa Float32.f1_5).GetGpa) ∧
          (Chp11.otherWithGpa Float32.f1_5).Graduate.2
            = Except.error (Chp11.Thrown.float (Chp11.otherWithGpa Float32.f1_5).GetGpa)) ∨
        ((Chp11.sampleWithGpa Float32.f1_5).Graduate.2
            = Except.error (Chp11.Thrown.studentException { number := 5 }) ∧
          (Chp11.otherWithGpa Float32.f1_5).Graduate.2
            = Except.error (Chp11.Thrown.studentException { number := 5 })))) :=
  ⟨⟨by decide, by decide,
      graduate_depends_on_gpa.1 Chp11.main_s1 (Chp11.otherWithGpa Float32.f3_1) (by decide)⟩,
   ⟨by decide,
      graduate_depends_on_gpa.2 (Chp11.sampleWithGpa Float32.f1_5)
        (Chp11.otherWithGpa Float32.f1_5) (by decide)⟩⟩

/-! ## C22: `Graduate` and `Validate` leave the object as it was -/

/-- C22. Failure classification does not modify the entity: for every Student the object
after `Graduate` has thrown, and the object after `Validate` has thrown, is the object
before the call, so all seven fields are the same; `Validate` throws, for every Student,
the text "Student does not meet prerequisites". -/
theorem classification_frame (s : Chp11.Student) :
    (s.Graduate.1 = s ∧
      s.Graduate.1.toPerson.GetFirstName = s.toPerson.GetFirstName ∧
      s.Graduate.1.toPerson.GetLastName = s.toPerson.GetLastName ∧
      s.Graduate.1.toPerson.GetMiddleInitial = s.toPerson.GetMiddleInitial ∧
      s.Graduate.1.toPerson.GetTitle = s.toPerson.GetTitle ∧
      s.Graduate.1.GetGpa = s.GetGpa ∧
      s.Graduate.1.GetCurrentCourse = s.GetCurrentCourse ∧
      s.Graduate.1.GetStudentId = s.GetStudentId) ∧
    (s.Validate.1 = s ∧
      s.Validate.1.toPerson.GetFirstName = s.toPerson.GetFirstName ∧
      s.Validate.1.toPerson.GetLastName = s.toPerson.GetLastName ∧
      s.Validate.1.toPerson.GetMiddleInitial = s.toPerson.GetMiddleInitial ∧
      s.Validate.1.toPerson.GetTitle = s.toPerson.GetTitle ∧
      s.Validate.1.GetGpa = s.GetGpa ∧
      s.Validate.1.GetCurrentCourse = s.GetCurrentCourse ∧
      s.Validate.1.GetStudentId = s.GetStudentId) ∧
    s.Validate.2 = Except.error (Chp11.Thrown.cstring "Student does not meet prerequisites") ∧
    (∃ e : Chp11.Thrown, s.Graduate.2 = Except.error e) := by
  have hg := Chp11.Student.Graduate_fst s
  refine ⟨⟨hg, ?_⟩, ⟨rfl, rfl, rfl, rfl, rfl, rfl, rfl, rfl⟩, rfl, ?_⟩
  · rw [hg]
    exact ⟨rfl, rfl, rfl, rfl, rfl, rfl, rfl⟩
  · unfold Chp11.Student.Graduate
    split
    · exact ⟨_, rfl⟩
    · exact ⟨_, rfl⟩

/-! ## C23: assignment and the mutators keep the counter -/

/-- C23. Assignment and the field mutators keep the live-instance count (Chp14): for all
live Students `a` and `b`, the same object or not, `a = b` leaves `GetNumberStudents()`
unchanged, and so do `SetCurrentCourse` and `EarnPhD` on every live Student. -/
theorem mutators_keep_count :
    (∀ (σ : Chp14.State) (a b : Chp14.Addr) (sa sb : Chp14.Student),
      σ.student? a = some sa → σ.student? b = some sb →
      ∃ σ1 : Chp14.State, Chp14.Student.assign σ a b = some (σ1, a) ∧
        Chp14.Student.GetNumberStudents σ1 = Chp14.Student.GetNumberStudents σ) ∧
    (∀ (σ : Chp14.State) (a : Chp14.Addr) (s : Chp14.Student) (c : String),
      σ.student? a = some s →
      ∃ σ1 : Chp14.State, Chp14.Student.SetCurrentCourse σ a c = some σ1 ∧
        Chp14.Student.GetNumberStudents σ1 = Chp14.Student.GetNumberStudents σ) ∧
    (∀ (σ : Chp14.State) (a : Chp14.Addr) (s : Chp14.Student),
      σ.student? a = some s →
      ∃ σ1 : Chp14.State, Chp14.Student.EarnPhD σ a = some σ1 ∧
        Chp14.Student.GetNumberStudents σ1 = Chp14.Student.GetNumberStudents σ) := by
  refine ⟨?_, ?_, ?_⟩
  · intro σ a b sa sb ha hb
    by_cases hab : a = b
    · subst hab
      exact ⟨σ, Chp14.Student.assign_self σ a sa ha, rfl⟩
    · exact ⟨_, Chp14.Student.assign_ne σ a b sa sb ha hb hab, rfl⟩
  · intro σ a s c h
    exact ⟨σ.update a (Chp14.Object.student { s with currentCourse := c }),
      by simp only [Chp14.Student.SetCurrentCourse, h], rfl⟩
  · intro σ a s h
    exact ⟨σ.update a (Chp14.Object.student { s with title := "Dr." }),
      by simp only [Chp14.Student.EarnPhD, h, Chp14.Person.ModifyTitle,
           Chp14.State.student?_eq_some.mp h]; rfl, rfl⟩

/-- Witness for C23: `s1 = hana`, `s1 = s1`, `SetCurrentCourse` and `EarnPhD` on `s1` in
the sample state, where the count is 2. -/
theorem mutators_keep_count_witness :
    Chp14.sampleState.student? 0 = some Chp14.main_s1 ∧
    Chp14.sampleState.student? 1 = some Chp14.main_hana ∧
    Chp14.Student.GetNumberStudents Chp14.sampleState = 2 ∧
    (∃ σ1 : Chp14.State, Chp14.Student.assign Chp14.sampleState 0 1 = some (σ1, 0) ∧
      Chp14.Student.GetNumberStudents σ1 = Chp14.Student.GetNumberStudents Chp14.sampleState) ∧
    (∃ σ1 : Chp14.State, Chp14.Student.assign Chp14.sampleState 0 0 = some (σ1, 0) ∧
      Chp14.Student.GetNumberStudents σ1 = Chp14.Student.GetNumberStudents Chp14.sampleState) ∧
    (∃ σ1 : Chp14.State,
      Chp14.Student.SetCurrentCourse Chp14.sampleState 0 "Thesis" = some σ1 ∧
      Chp14.Student.GetNumberStudents σ1 = Chp14.Student.GetNumberStudents Chp14.sampleState) ∧
    (∃ σ1 : Chp14.State, Chp14.Student.EarnPhD Chp14.sampleState 0 = some σ1 ∧
      Chp14.Student.GetNumberStudents σ1 = Chp14.Student.GetNumberStudents Chp14.sampleState) :=
  ⟨by decide, by decide, by decide,
   mutators_keep_count.1 Chp14.sampleState 0 1 Chp14.main_s1 Chp14.main_hana
     (by decide) (by decide),
   mutators_keep_count.1 Chp14.sampleState 0 0 Chp14.main_s1 Chp14.main_s1
     (by decide) (by decide),
   mutators_keep_count.2.1 Chp14.sampleState 0 Chp14.main_s1 "Thesis" (by decide),
   mutators_keep_count.2.2 Chp14.sampleState 0 Chp14.main_s1 (by decide)⟩

/-! ## C24: the count in the Chp14 driver -/

/-- C24. In the Chp14 driver `GetNumberStudents()` is 1 after the construction of `s1`,
then 2, 3, 4 and 5 after the four insertions, and still 5 after the list has been sorted.
Every insertion nets exactly +1: `push_back` of a live Student adds the stored copy, and in
`push_back(Student(...))` the construction of the temporary is cancelled by its
destruction.  Sorting relinks the nodes and constructs or destroys no Student: the sorted
list holds the four Students Giselle, Jul, Hana, Sara.  At the end of `main` the count is
back to 0. -/
theorem driver_count :
    (∀ (σ : Chp14.State) (l : Chp14.StudentList) (s : Chp14.Addr) (src : Chp14.Student),
      σ.student? s = some src → σ.numStudents < INT_MAX →
      ∃ (σ1 : Chp14.State) (t : Chp14.Addr),
        Chp14.push_back σ l s = some (σ1, l ++ [t]) ∧
        Chp14.Student.GetNumberStudents σ1 = Chp14.Student.GetNumberStudents σ + 1) ∧
    (∀ (σ : Chp14.State) (l : Chp14.StudentList) (fn ln : String) (mi : Char) (t : String)
        (avg : Float32) (course id : String),
      INT_MIN < σ.numStudents + 2 → σ.numStudents + 1 < INT_MAX →
      ∃ (σ1 : Chp14.State) (a : Chp14.Addr),
        Chp14.push_back_temporary σ l fn ln mi t avg course id = some (σ1, l ++ [a]) ∧
        Chp14.Student.GetNumberStudents σ1 = Chp14.Student.GetNumberStudents σ + 1) ∧
    (∀ showFloat : Nat → Float32 → String,
      (Chp14.main showFloat).map
          (fun r => (r.counts, r.sorted, r.status, Chp14.Student.GetNumberStudents r.final))
        = some ([1, 2, 3, 4, 5, 5],
                [Chp14.main_giselle, Chp14.main_s1, Chp14.main_hana, Chp14.main_sara],
                0, 0) ∧
      (Chp14.main showFloat).map (fun r => r.output)
        = some (String.join
            [Chp14.main_giselle.Print showFloat, Chp14.main_s1.Print showFloat,
             Chp14.main_hana.Print showFloat, Chp14.main_sara.Print showFloat])) := by
  refine ⟨?_, ?_, fun _ => ⟨rfl, rfl⟩⟩
  · intro σ l s src h hn
    exact ⟨_, _, Chp14.push_back_some σ l s src h hn, rfl⟩
  · intro σ l fn ln mi t avg course id hlo hhi
    exact ⟨_, _, Chp14.push_back_temporary_some σ l fn ln mi t avg course id hlo hhi, rfl⟩

/-- Witness for C24: `push_back(s1)` in the state of the driver after the construction of
`s1`, and `push_back(Student("Sara", ...))` on a list of two elements in the sample state. -/
theorem driver_count_witness :
    (Chp14.State.student? { numStudents := 1, objects := [some (Chp14.Object.student
        Chp14.main_s1)] } 0 = some Chp14.main_s1 ∧
      ∃ (σ1 : Chp14.State) (t : Chp14.Addr),
        Chp14.push_back { numStudents := 1, objects := [some (Chp14.Object.student
          Chp14.main_s1)] } [] 0 = some (σ1, [] ++ [t]) ∧
        Chp14.Student.GetNumberStudents σ1
          = Chp14.Student.GetNumberStudents { numStudents := 1, objects :=
              [some (Chp14.Object.student Chp14.main_s1)] } + 1) ∧
    (INT_MIN < Chp14.sampleState.numStudents + 2 ∧
      Chp14.sampleState.numStudents + 1 < INT_MAX ∧
      ∃ (σ1 : Chp14.State) (a : Chp14.Addr),
        Chp14.push_back_temporary Chp14.sampleState [0, 1] "Sara" "Kato" 'B' "Dr."
          Float32.f3_9 "C++" "272PSU" = some (σ1, [0, 1] ++ [a]) ∧
        Chp14.Student.GetNumberStudents σ1
          = Chp14.Student.GetNumberStudents Chp14.sampleState + 1) :=
  ⟨⟨by decide, driver_count.1 _ [] 0 Chp14.main_s1 (by decide) (by decide)⟩,
   ⟨by decide, by decide,
     driver_count.2.1 Chp14.sampleState [0, 1] "Sara" "Kato" 'B' "Dr." Float32.f3_9 "C++"
       "272PSU" (by decide) (by decide)⟩⟩
